import Mathlib

/-!
# Verification development for `src/util/macvtap.c`

A shallow embedding of the macvtap / virtual-port-profile code of libvirt.

* External collaborators (kernel, netlink transport, sysfs, `interface.c`,
  `util.c`, libnl) are oracles collected in `Env`.  An oracle that the code may
  call several times receives, next to its arguments, the number of earlier
  calls of the same oracle, so that successive calls may answer differently.
* Every externally visible action is appended to a chronological trace of
  `Event`s kept in the state `St`, together with the per-oracle call counters.
* C `int` values are `Int`; unsigned attribute payloads are `Nat`.
* The only unbounded loop, the parent walk of `getPhysdevAndVlan`, takes a fuel
  argument; running out of fuel is the result `none`, which propagates.
-/

namespace Macvtap

/-! ## Constants -/

/-- MICROSEC_PER_SEC, macvtap.c line 80. -/
def MICROSEC_PER_SEC : Nat := 1000 * 1000
/-- STATUS_POLL_TIMEOUT_USEC, macvtap.c line 85. -/
def STATUS_POLL_TIMEOUT_USEC : Nat := 10 * MICROSEC_PER_SEC
/-- STATUS_POLL_INTERVL_USEC, macvtap.c line 86. -/
def STATUS_POLL_INTERVL_USEC : Nat := MICROSEC_PER_SEC / 8
/-- MACVTAP_NAME_PREFIX, macvtap.c line 77. -/
def MACVTAP_NAME_PREFIX : String := "macvtap"

/-- Kernel header linux/if_link.h: PORT_VDP_RESPONSE_SUCCESS. -/
def PORT_VDP_RESPONSE_SUCCESS : Nat := 0
/-- Kernel header linux/if_link.h: PORT_PROFILE_RESPONSE_SUCCESS = 0x100. -/
def PORT_PROFILE_RESPONSE_SUCCESS : Nat := 256
/-- Kernel header linux/if_link.h: PORT_PROFILE_RESPONSE_INPROGRESS. -/
def PORT_PROFILE_RESPONSE_INPROGRESS : Nat := 257
/-- Kernel header linux/if_link.h: PORT_SELF_VF. -/
def PORT_SELF_VF : Int := -1
/-- Kernel header linux/if_link.h: IFLA_VF_PORT (type of one entry of IFLA_VF_PORTS). -/
def IFLA_VF_PORT : Nat := 1
/-- Kernel header linux/if_link.h: PORT_REQUEST_PREASSOCIATE. -/
def PORT_REQUEST_PREASSOCIATE : Nat := 0
/-- Kernel header linux/if_link.h: PORT_REQUEST_PREASSOCIATE_RR. -/
def PORT_REQUEST_PREASSOCIATE_RR : Nat := 1
/-- Kernel header linux/if_link.h: PORT_REQUEST_ASSOCIATE. -/
def PORT_REQUEST_ASSOCIATE : Nat := 2
/-- Kernel header linux/if_link.h: PORT_REQUEST_DISASSOCIATE. -/
def PORT_REQUEST_DISASSOCIATE : Nat := 3
/-- Length of a UUID buffer, VIR_UUID_BUFLEN (uuid.h). -/
def VIR_UUID_BUFLEN : Nat := 16
/-- Linux errno.h: ETIMEDOUT. -/
def ETIMEDOUT : Int := 110
/-- Linux errno.h: ENODEV. -/
def ENODEV : Int := 19
/-- Kernel header linux/if_link.h: MACVLAN_MODE_PRIVATE. -/
def MACVLAN_MODE_PRIVATE : Nat := 1
/-- Kernel header linux/if_link.h: MACVLAN_MODE_VEPA. -/
def MACVLAN_MODE_VEPA : Nat := 2
/-- Kernel header linux/if_link.h: MACVLAN_MODE_BRIDGE. -/
def MACVLAN_MODE_BRIDGE : Nat := 4
/-- Kernel header linux/if_link.h, or macvtap.c line 46: MACVLAN_MODE_PASSTHRU. -/
def MACVLAN_MODE_PASSTHRU : Nat := 8
/-- Kernel header linux/if_tun.h: IFF_VNET_HDR. -/
def IFF_VNET_HDR : Nat := 0x4000
/-- Kernel header linux/netlink.h: NLMSG_ERROR. -/
def NLMSG_ERROR : Nat := 2
/-- Kernel header linux/netlink.h: NLMSG_DONE. -/
def NLMSG_DONE : Nat := 3
/-- Kernel header linux/rtnetlink.h: RTM_SETLINK. -/
def RTM_SETLINK : Nat := 19
/-- Kernel header linux/netlink.h: NLMSG_LENGTH(len) = len + aligned header size (16). -/
def NLMSG_LENGTH (len : Nat) : Nat := len + 16
/-- Size of struct nlmsgerr: an int followed by a struct nlmsghdr. -/
def SIZEOF_NLMSGERR : Nat := 20

/-! ## Data model -/

/-- The enum virVirtualPortOp, macvtap.c lines 92-97. -/
inductive virVirtualPortOp
  | ASSOCIATE
  | DISASSOCIATE
  | PREASSOCIATE
  | PREASSOCIATE_RR
  deriving DecidableEq, Repr

/-- The enum virVMOperationType (order of the VIR_ENUM_IMPL at the end of macvtap.c). -/
inductive virVMOperationType
  | VIR_VM_OP_CREATE
  | VIR_VM_OP_SAVE
  | VIR_VM_OP_RESTORE
  | VIR_VM_OP_DESTROY
  | VIR_VM_OP_MIGRATE_OUT
  | VIR_VM_OP_MIGRATE_IN_START
  | VIR_VM_OP_MIGRATE_IN_FINISH
  | VIR_VM_OP_NO_OP
  deriving DecidableEq, Repr

/-- The enum virMacvtapMode (order of the VIR_ENUM_IMPL at the top of macvtap.c). -/
inductive virMacvtapMode
  | VIR_MACVTAP_MODE_VEPA
  | VIR_MACVTAP_MODE_PRIVATE
  | VIR_MACVTAP_MODE_BRIDGE
  | VIR_MACVTAP_MODE_PASSTHRU
  deriving DecidableEq, Repr

/-- The enum virVirtualPortType as switched over in vpAssociatePortProfileId. -/
inductive virVirtualPortType
  | VIR_VIRTUALPORT_NONE
  | VIR_VIRTUALPORT_8021QBG
  | VIR_VIRTUALPORT_8021QBH
  | VIR_VIRTUALPORT_TYPE_LAST
  deriving DecidableEq, Repr

/-- The struct virVirtualPortProfileParams: the type tag and the members of both
union arms that macvtap.c reads. -/
structure virVirtualPortProfileParams where
  virtPortType : virVirtualPortType
  managerID : Nat
  typeID : Nat
  typeIDVersion : Nat
  instanceID : List Nat
  profileID : String
  deriving DecidableEq, Repr

/-- The struct ifla_port_vsi as filled by doPortProfileOp8021Qbg. -/
structure ifla_port_vsi where
  vsi_mgr_id : Nat
  vsi_type_id : List Nat
  vsi_type_version : Nat
  deriving DecidableEq, Repr

/-- Attributes of one port block of a set-link request, in wire order. -/
inductive PortAttr
  | IFLA_PORT_PROFILE (profileId : String)
  | IFLA_PORT_VSI_TYPE (portVsi : ifla_port_vsi)
  | IFLA_PORT_INSTANCE_UUID (uuid : List Nat)
  | IFLA_PORT_HOST_UUID (uuid : List Nat)
  | IFLA_PORT_VF (vf : Int)
  | IFLA_PORT_REQUEST (op : Nat)
  deriving DecidableEq, Repr

/-- Attributes of the IFLA_VF_INFO block of a set-link request. -/
inductive VfInfoAttr
  | IFLA_VF_MAC (vf : Int) (mac : List Nat)
  | IFLA_VF_VLAN (vf : Int) (vlan : Int) (qos : Nat)
  deriving DecidableEq, Repr

/-- Top-level attributes of a set-link request, in wire order. -/
inductive NlAttr
  | IFLA_IFNAME (name : String)
  | IFLA_VFINFO_LIST (infos : List (List VfInfoAttr))
  | IFLA_PORT_SELF (port : List PortAttr)
  | IFLA_VF_PORTS (ports : List (List PortAttr))
  deriving DecidableEq, Repr

/-- The request built by doPortProfileOpSetLink: message type, the ifinfomsg index
and the attribute tree. -/
structure NlMsg where
  nlmsg_type : Nat
  ifi_index : Int
  attrs : List NlAttr
  deriving DecidableEq, Repr

/-- What doPortProfileOpSetLink reads of the buffer returned by nlComm: the buffer
pointer (is it NULL), its length, and the header fields behind the pointer. -/
structure NlResp where
  recvbufNull : Bool
  recvbuflen : Nat
  nlmsg_type : Nat
  nlmsg_len : Nat
  error : Int
  deriving DecidableEq, Repr

/-- The table tb_port produced by nla_parse_nested for one port block: the
attributes getPortProfileStatus reads (none = attribute absent). -/
structure PortTb where
  IFLA_PORT_INSTANCE_UUID : Option (List Nat)
  IFLA_PORT_VF : Option Nat
  IFLA_PORT_RESPONSE : Option Nat
  deriving DecidableEq, Repr

/-- One nested attribute: its nla_type and the outcome of nla_parse_nested on it
(none = the parse reports an error). -/
structure NestedAttr where
  nla_type : Nat
  parsed : Option PortTb
  deriving DecidableEq, Repr

/-- The table tb filled by ifaceMacvtapLinkDump, restricted to the two attributes
getPortProfileStatus reads (none = attribute absent). -/
structure LinkTb where
  IFLA_PORT_SELF : Option NestedAttr
  IFLA_VF_PORTS : Option (List NestedAttr)
  deriving DecidableEq, Repr

/-- Externally visible actions, in the order the code performs them. -/
inductive Event
  | debugAssociating (ifname : String) (vmOp : virVMOperationType)
  | debugDisassociating (ifname : String) (vmOp : virVMOperationType)
  | ifaceReplaceMacAddress (mac : List Nat) (linkdev : String)
  | ifaceRestoreMacAddress (linkdev : String)
  | ifaceGetIndex (name : String)
  | ifaceMacvtapLinkAdd (name : String) (linkdev : String) (mode : Nat)
  | ifaceLinkDel (name : String)
  | ifaceUp (name : String)
  | ifaceDown (name : String)
  | readIfindex (ifname : String)
  | openTapDev (ifindex : Int)
  | usleep (usec : Nat)
  | close (fd : Int)
  | TUNGETIFF (fd : Int)
  | TUNGETFEATURES (fd : Int)
  | TUNSETIFF (fd : Int) (flags : Nat)
  | virBandwidthEnable (name : String)
  | openPidFile
  | saferead (fd : Int)
  | nlComm (msg : NlMsg) (pid : Nat)
  | ifaceMacvtapLinkDump (nltarget_kernel : Bool) (ifindex : Int)
  | ifaceGetNthParent (ifindex : Int) (ifname : Option String)
  | ifaceGetVlanID (ifname : String)
  | ifaceIsVirtualFunction (linkdev : String)
  | ifaceGetPhysicalFunction (linkdev : String)
  | ifaceGetVirtualFunctionIndex (pfname : String) (linkdev : String)
  | virGetHostUUID
  deriving DecidableEq, Repr

/-- The answer of ifaceGetNthParent: return value and the values of its three
output parameters after the call. -/
structure NthParent where
  ret : Int
  root_ifindex : Int
  root_ifname : String
  nth : Nat
  deriving DecidableEq, Repr

/-- The external collaborators of macvtap.c. -/
structure Env where
  /-- interface.c; arguments: macaddress, linkdev. -/
  ifaceReplaceMacAddress : List Nat → String → Int
  /-- interface.c; argument: linkdev. -/
  ifaceRestoreMacAddress : String → Int
  /-- interface.c; arguments: call number, name; result: return value and index. -/
  ifaceGetIndex : Nat → String → Int × Int
  /-- interface.c; arguments: call number, name, linkdev, mode; result: return
  value and the value stored in do_retry. -/
  ifaceMacvtapLinkAdd : Nat → String → String → Nat → Int × Int
  /-- interface.c. -/
  ifaceLinkDel : String → Int
  /-- interface.c. -/
  ifaceUp : String → Int
  /-- interface.c. -/
  ifaceDown : String → Int
  /-- The sysfs file /sys/class/net/NAME/ifindex: none = fopen fails,
  some none = fscanf does not read an integer. -/
  readIfindex : String → Option (Option Int)
  /-- The system call open on /dev/tapN; arguments: call number, N. -/
  openTapDev : Nat → Int → Int
  /-- The ioctl TUNGETIFF: return value and ifr_flags (16 bit pattern). -/
  TUNGETIFF : Int → Int × Nat
  /-- The ioctl TUNGETFEATURES: return value, features, errno after a failure. -/
  TUNGETFEATURES : Int → Int × Nat × Nat
  /-- The ioctl TUNSETIFF with the given flags. -/
  TUNSETIFF : Int → Nat → Int
  /-- The function virBandwidthEnable applied to the bandwidth of this call. -/
  virBandwidthEnable : String → Int
  /-- The libc strdup (none = out of memory). -/
  strdup : String → Option String
  /-- The system call open on LLDPAD_PID_FILE: the descriptor; argument: call
  number. -/
  openPidFile : Nat → Int
  /-- util.c saferead into the 10 byte buffer: return value and the contents of
  the buffer after the call. -/
  saferead : Int → Int × List Nat
  /-- util.c virStrToLong_ui in base 10 on the buffer: return value, the
  character endptr points at, and the parsed value. -/
  virStrToLong_ui : List Nat → Int × Nat × Nat
  /-- libnl: nlmsg_alloc_simple succeeds; argument: call number. -/
  nlmsgAlloc : Nat → Bool
  /-- libnl: every nlmsg_append / nla_put / nla_nest_start of this message fits
  the buffer. -/
  nlaFits : NlMsg → Bool
  /-- netlink.c; arguments: call number, message, pid. -/
  nlComm : Nat → NlMsg → Nat → Int × NlResp
  /-- interface.c; arguments: call number, nltarget_kernel, ifindex. -/
  ifaceMacvtapLinkDump : Nat → Bool → Int → Int × LinkTb
  /-- interface.c; arguments: call number, ifindex, ifname, and the current
  contents of the output parameters root_ifindex and root_ifname. -/
  ifaceGetNthParent : Nat → Int → Option String → Int → String → NthParent
  /-- interface.c: return value and the value stored in the vlanid. -/
  ifaceGetVlanID : String → Int × Int
  /-- interface.c. -/
  ifaceIsVirtualFunction : String → Int
  /-- interface.c: return value and the physical function name. -/
  ifaceGetPhysicalFunction : String → Int × String
  /-- interface.c: return value and the VF index. -/
  ifaceGetVirtualFunctionIndex : String → String → Int × Int
  /-- uuid.c: return value and the host UUID. -/
  virGetHostUUID : Int × List Nat

/-- The state threaded through the code: the trace and the oracle call counters. -/
structure St where
  trace : List Event
  nGetIndex : Nat
  nLinkAdd : Nat
  nOpen : Nat
  nPid : Nat
  nAlloc : Nat
  nComm : Nat
  nDump : Nat
  nParent : Nat
  deriving DecidableEq, Repr

/-- The state at the start of an invocation. -/
def St.init : St := ⟨[], 0, 0, 0, 0, 0, 0, 0, 0⟩

/-- Append one event to the trace. -/
def St.log (s : St) (e : Event) : St := { s with trace := s.trace ++ [e] }

/-! ## Port profile status parsing -/

/-- The match condition of the VF-ports scan, macvtap.c lines 517-524: the
request has an instance id, the entry has an instance UUID whose first
VIR_UUID_BUFLEN bytes equal it, the entry has a VF attribute, and the VF index
(compared as uint32_t) equals it. -/
def vfPortMatches (vf : Int) (instanceId : Option (List Nat)) (tb_port : PortTb) : Bool :=
  match instanceId, tb_port.IFLA_PORT_INSTANCE_UUID, tb_port.IFLA_PORT_VF with
  | some iid, some uuid, some pvf =>
      decide (iid.take VIR_UUID_BUFLEN = uuid.take VIR_UUID_BUFLEN) &&
        decide (vf % 4294967296 = (pvf : Int))
  | _, _, _ => false

/-- The loop nla_for_each_nested of getPortProfileStatus, macvtap.c lines
504-534: the table of the first matching entry, or the error message. -/
def scanVfPorts (vf : Int) (instanceId : Option (List Nat)) :
    List NestedAttr → Except String PortTb
  | [] => .error "Could not find netlink response with expected parameters"
  | e :: rest =>
      if e.nla_type ≠ IFLA_VF_PORT then
        .error "error while iterating over IFLA_VF_PORTS part"
      else
        match e.parsed with
        | none => .error "error parsing IFLA_VF_PORT part"
        | some tb_port =>
            if vfPortMatches vf instanceId tb_port then .ok tb_port
            else scanVfPorts vf instanceId rest

/-- The first half of getPortProfileStatus, macvtap.c lines 487-539: locate the
port block and parse it into tb_port. -/
def locatePort (tb : LinkTb) (vf : Int) (instanceId : Option (List Nat))
    (nltarget_kernel : Bool) : Except String PortTb :=
  if vf = PORT_SELF_VF ∧ nltarget_kernel = true then
    match tb.IFLA_PORT_SELF with
    | some a =>
        match a.parsed with
        | none => .error "error parsing IFLA_PORT_SELF part"
        | some tb_port => .ok tb_port
    | none => .error "IFLA_PORT_SELF is missing"
  else
    match tb.IFLA_VF_PORTS with
    | some entries => scanVfPorts vf instanceId entries
    | none => .error "IFLA_VF_PORTS is missing"

/-- The second half of getPortProfileStatus, macvtap.c lines 541-559, on the
located table: return value and the value written to the status (none = the
status is not written). -/
def statusOfPort (tb_port : PortTb) (is8021Qbg : Bool) : Int × Option Nat :=
  match tb_port.IFLA_PORT_RESPONSE with
  | some v => (0, some v)
  | none =>
      if is8021Qbg then (0, some PORT_PROFILE_RESPONSE_INPROGRESS)
      else (1, none)

/-- The function getPortProfileStatus, macvtap.c lines 476-560: return value
(rc starts as 1) and the value written to the status, if any. -/
def getPortProfileStatus (tb : LinkTb) (vf : Int) (instanceId : Option (List Nat))
    (nltarget_kernel : Bool) (is8021Qbg : Bool) : Int × Option Nat :=
  match locatePort tb vf instanceId nltarget_kernel with
  | .error _ => (1, none)
  | .ok tb_port => statusOfPort tb_port is8021Qbg

/-! ## Sending the set-link request -/

/-- The gnulib c_isspace. -/
def c_isspace (c : Nat) : Bool :=
  c = 32 || c = 9 || c = 10 || c = 11 || c = 12 || c = 13

/-- The function getLldpadPid, macvtap.c lines 431-461. -/
def getLldpadPid (env : Env) (s : St) : Nat × St :=
  let fd := env.openPidFile s.nPid
  let s1 := { s.log .openPidFile with nPid := s.nPid + 1 }
  if 0 ≤ fd then
    let rd := env.saferead fd
    let s2 := s1.log (.saferead fd)
    let pid :=
      if rd.1 % 18446744073709551616 ≤ 10 then
        let p := env.virStrToLong_ui rd.2
        if p.1 = 0 ∧ (p.2.1 = 0 ∨ c_isspace p.2.1 = true) ∧ p.2.2 ≠ 0 then p.2.2 else 0
      else 0
    (pid, s2.log (.close fd))
  else (0, s1)

/-- The arguments shared by doPortProfileOpSetLink and doPortProfileOpCommon. -/
structure OpArgs where
  nltarget_kernel : Bool
  ifname : Option String
  ifindex : Int
  macaddr : Option (List Nat)
  vlanid : Int
  profileId : Option String
  portVsi : Option ifla_port_vsi
  instanceId : Option (List Nat)
  hostUUID : Option (List Nat)
  vf : Int
  op : Nat
  deriving DecidableEq, Repr

/-- The port block written by doPortProfileOpSetLink, macvtap.c lines 651-681. -/
def portBlock (a : OpArgs) : List PortAttr :=
  (match a.profileId with | some p => [PortAttr.IFLA_PORT_PROFILE p] | none => []) ++
  (match a.portVsi with | some v => [PortAttr.IFLA_PORT_VSI_TYPE v] | none => []) ++
  (match a.instanceId with
    | some u => [PortAttr.IFLA_PORT_INSTANCE_UUID (u.take VIR_UUID_BUFLEN)] | none => []) ++
  (match a.hostUUID with
    | some u => [PortAttr.IFLA_PORT_HOST_UUID (u.take VIR_UUID_BUFLEN)] | none => []) ++
  (if a.vf ≠ PORT_SELF_VF then [PortAttr.IFLA_PORT_VF a.vf] else []) ++
  [PortAttr.IFLA_PORT_REQUEST (a.op % 256)]

/-- The VF info block written by doPortProfileOpSetLink, macvtap.c lines 601-637. -/
def vfInfoBlock (a : OpArgs) : List NlAttr :=
  if a.macaddr.isSome = true ∨ 0 ≤ a.vlanid then
    [NlAttr.IFLA_VFINFO_LIST
      [(match a.macaddr with
          | some m => [VfInfoAttr.IFLA_VF_MAC a.vf (m.take 6)] | none => []) ++
        (if 0 ≤ a.vlanid then [VfInfoAttr.IFLA_VF_VLAN a.vf a.vlanid 0] else [])]]
  else []

/-- The message built by doPortProfileOpSetLink, macvtap.c lines 588-689. -/
def setLinkMsg (a : OpArgs) : NlMsg :=
  { nlmsg_type := RTM_SETLINK
    ifi_index := a.ifindex
    attrs :=
      (match a.ifname with | some n => [NlAttr.IFLA_IFNAME n] | none => []) ++
      vfInfoBlock a ++
      [if a.vf = PORT_SELF_VF ∧ a.nltarget_kernel = true then
          NlAttr.IFLA_PORT_SELF (portBlock a)
        else NlAttr.IFLA_VF_PORTS [portBlock a]] }

/-- The classification of the response, macvtap.c lines 704-728, with the
malformed_resp exit: the return value. -/
def classifyResp (resp : NlResp) : Int :=
  if resp.recvbuflen < NLMSG_LENGTH 0 ∨ resp.recvbufNull = true then -1
  else if resp.nlmsg_type = NLMSG_ERROR then
    if resp.nlmsg_len < NLMSG_LENGTH SIZEOF_NLMSGERR then -1
    else if resp.error ≠ 0 then -1 else 0
  else if resp.nlmsg_type = NLMSG_DONE then 0
  else -1

/-- The function doPortProfileOpSetLink, macvtap.c lines 563-751. -/
def doPortProfileOpSetLink (env : Env) (a : OpArgs) (s : St) : Int × St :=
  let s0 := { s with nAlloc := s.nAlloc + 1 }
  if env.nlmsgAlloc s.nAlloc = false then (-1, s0)
  else if env.nlaFits (setLinkMsg a) = false then (-1, s0)
  else
    let p := if a.nltarget_kernel = false then getLldpadPid env s0 else (0, s0)
    if a.nltarget_kernel = false ∧ p.1 = 0 then (-1, p.2)
    else
      let r := env.nlComm p.2.nComm (setLinkMsg a) p.1
      let s2 := { p.2.log (.nlComm (setLinkMsg a) p.1) with nComm := p.2.nComm + 1 }
      if r.1 < 0 then (-1, s2)
      else (classifyResp r.2, s2)

/-! ## The negotiator -/

/-- The code after the polling loop of doPortProfileOpCommon, macvtap.c lines
818-827. -/
def afterPoll (rc : Int) (status : Nat) : Int :=
  if status = PORT_PROFILE_RESPONSE_INPROGRESS then -ETIMEDOUT else rc

/-- The polling loop of doPortProfileOpCommon, macvtap.c lines 790-827, with
the number of iterations left, the current rc and the current status. -/
def pollLoop (env : Env) (a : OpArgs) (is8021Qbg : Bool) : Nat → Int → Nat → St → Int × St
  | 0, rc, status, s => (afterPoll rc status, s)
  | n + 1, _, status, s =>
      let d := env.ifaceMacvtapLinkDump s.nDump a.nltarget_kernel a.ifindex
      let s1 := { s.log (.ifaceMacvtapLinkDump a.nltarget_kernel a.ifindex) with
                  nDump := s.nDump + 1 }
      if d.1 ≠ 0 then (d.1, s1)
      else
        let g := getPortProfileStatus d.2 a.vf a.instanceId a.nltarget_kernel is8021Qbg
        if g.1 ≠ 0 then (g.1, s1)
        else
          let status1 := g.2.getD status
          if status1 = PORT_PROFILE_RESPONSE_SUCCESS ∨ status1 = PORT_VDP_RESPONSE_SUCCESS then
            (afterPoll g.1 status1, s1)
          else if status1 = PORT_PROFILE_RESPONSE_INPROGRESS then
            pollLoop env a is8021Qbg n g.1 status1 (s1.log (.usleep STATUS_POLL_INTERVL_USEC))
          else
            (afterPoll 1 status1, s1)

/-- The function doPortProfileOpCommon, macvtap.c lines 754-828. -/
def doPortProfileOpCommon (env : Env) (a : OpArgs) (s : St) : Int × St :=
  let repeats := STATUS_POLL_TIMEOUT_USEC / STATUS_POLL_INTERVL_USEC
  let is8021Qbg := a.profileId.isNone
  let r := doPortProfileOpSetLink env a s
  if r.1 ≠ 0 then (r.1, r.2)
  else pollLoop env a is8021Qbg repeats r.1 0 r.2

/-! ## Physical device resolution and the two protocols -/

/-- The results of getPhysdevAndVlan: return value and output parameters. -/
structure PhysdevVlan where
  ret : Int
  root_ifindex : Int
  root_ifname : String
  vlanid : Int
  deriving DecidableEq, Repr

/-- The loop of getPhysdevAndVlan, macvtap.c lines 844-859, with the current
values of ifindex, ifname, the output parameters and the vlanid; the first
argument is the fuel. -/
def getPhysdevAndVlanLoop (env : Env) :
    Nat → Int → Option String → Int → String → Int → St → Option (PhysdevVlan × St)
  | 0, _, _, _, _, _, _ => none
  | fuel + 1, ifindex, ifname, root_ifindex, root_ifname, vlanid, s =>
      let p := env.ifaceGetNthParent s.nParent ifindex ifname root_ifindex root_ifname
      let s1 := { s.log (.ifaceGetNthParent ifindex ifname) with nParent := s.nParent + 1 }
      if p.ret ≠ 0 then some (⟨p.ret, p.root_ifindex, p.root_ifname, vlanid⟩, s1)
      else if p.nth = 0 then some (⟨0, p.root_ifindex, p.root_ifname, vlanid⟩, s1)
      else if vlanid = -1 then
        let g := env.ifaceGetVlanID p.root_ifname
        getPhysdevAndVlanLoop env fuel p.root_ifindex none p.root_ifindex p.root_ifname
          (if g.1 < 0 then -1 else g.2) (s1.log (.ifaceGetVlanID p.root_ifname))
      else
        getPhysdevAndVlanLoop env fuel p.root_ifindex none p.root_ifindex p.root_ifname
          vlanid s1

/-- The function getPhysdevAndVlan, macvtap.c lines 835-860; root_ifindex and
root_ifname are the contents of the output parameters on entry. -/
def getPhysdevAndVlan (env : Env) (fuel : Nat) (ifname : String) (root_ifindex : Int)
    (root_ifname : String) (s : St) : Option (PhysdevVlan × St) :=
  getPhysdevAndVlanLoop env fuel (-1) (some ifname) root_ifindex root_ifname (-1) s

/-- The function doPortProfileOp8021Qbg, macvtap.c lines 864-941 (the branch
with IFLA_VF_PORT_MAX defined). -/
def doPortProfileOp8021Qbg (env : Env) (fuel : Nat) (ifname : String)
    (macaddr : Option (List Nat)) (virtPort : virVirtualPortProfileParams)
    (virtPortOp : virVirtualPortOp) (s : St) : Option (Int × St) :=
  match getPhysdevAndVlan env fuel ifname 0 "" s with
  | none => none
  | some (p, s1) =>
      if p.ret ≠ 0 then some (1, s1)
      else
        let vlanid := if p.vlanid < 0 then 0 else p.vlanid
        let portVsi : ifla_port_vsi :=
          { vsi_mgr_id := virtPort.managerID
            vsi_type_version := virtPort.typeIDVersion
            vsi_type_id := [virtPort.typeID % 256, (virtPort.typeID >>> 8) % 256,
                            (virtPort.typeID >>> 16) % 256] }
        let common := fun (op : Nat) =>
          some (doPortProfileOpCommon env
            { nltarget_kernel := false, ifname := some p.root_ifname,
              ifindex := p.root_ifindex, macaddr := macaddr, vlanid := vlanid,
              profileId := none, portVsi := some portVsi,
              instanceId := some virtPort.instanceID, hostUUID := none,
              vf := PORT_SELF_VF, op := op } s1)
        match virtPortOp with
        | .PREASSOCIATE => common PORT_REQUEST_PREASSOCIATE
        | .ASSOCIATE => common PORT_REQUEST_ASSOCIATE
        | .DISASSOCIATE => common PORT_REQUEST_DISASSOCIATE
        | .PREASSOCIATE_RR => some (1, s1)

/-- The function getPhysfnDev, macvtap.c lines 945-975: return value, the VF
index and the physical function name (none = NULL). -/
def getPhysfnDev (env : Env) (linkdev : String) (s : St) : (Int × Int × Option String) × St :=
  let s1 := s.log (.ifaceIsVirtualFunction linkdev)
  if env.ifaceIsVirtualFunction linkdev ≠ 0 then
    let pf := env.ifaceGetPhysicalFunction linkdev
    let s2 := s1.log (.ifaceGetPhysicalFunction linkdev)
    if pf.1 = 0 then
      let ix := env.ifaceGetVirtualFunctionIndex pf.2 linkdev
      ((ix.1, ix.2, some pf.2), s2.log (.ifaceGetVirtualFunctionIndex pf.2 linkdev))
    else ((pf.1, 0, some pf.2), s2)
  else
    match env.strdup linkdev with
    | some d => ((0, PORT_SELF_VF, some d), s1)
    | none => ((-1, PORT_SELF_VF, none), s1)

/-- The disassociate request of doPortProfileOp8021Qbh, macvtap.c lines
1036-1044 and 1048-1056. -/
def qbhDisassociateArgs (ifindex : Int) (vf : Int) : OpArgs :=
  { nltarget_kernel := true, ifname := none, ifindex := ifindex, macaddr := none,
    vlanid := -1, profileId := none, portVsi := none, instanceId := none,
    hostUUID := none, vf := vf, op := PORT_REQUEST_DISASSOCIATE }

/-- The function doPortProfileOp8021Qbh, macvtap.c lines 978-1071 (the branch
with IFLA_VF_PORT_MAX defined). -/
def doPortProfileOp8021Qbh (env : Env) (ifname : String) (macaddr : Option (List Nat))
    (virtPort : virVirtualPortProfileParams) (vm_uuid : Option (List Nat))
    (virtPortOp : virVirtualPortOp) (s : St) : Int × St :=
  let pf := getPhysfnDev env ifname s
  if pf.1.1 ≠ 0 then (pf.1.1, pf.2)
  else
    let physfndev := pf.1.2.2.getD ""
    let vf := pf.1.2.1
    let gi := env.ifaceGetIndex pf.2.nGetIndex physfndev
    let s1 := { pf.2.log (.ifaceGetIndex physfndev) with nGetIndex := pf.2.nGetIndex + 1 }
    if gi.1 < 0 then (1, s1)
    else
      let ifindex := gi.2
      let assoc := fun (op : Nat) =>
        let s2 := s1.log .virGetHostUUID
        if env.virGetHostUUID.1 ≠ 0 then (env.virGetHostUUID.1, s2)
        else
          let r := doPortProfileOpCommon env
            { nltarget_kernel := true, ifname := none, ifindex := ifindex,
              macaddr := macaddr, vlanid := -1, profileId := some virtPort.profileID,
              portVsi := none, instanceId := vm_uuid,
              hostUUID := some env.virGetHostUUID.2, vf := vf, op := op } s2
          if r.1 = -ETIMEDOUT then
            (r.1, (doPortProfileOpCommon env (qbhDisassociateArgs ifindex vf) r.2).2)
          else r
      match virtPortOp with
      | .PREASSOCIATE_RR => assoc PORT_REQUEST_PREASSOCIATE_RR
      | .ASSOCIATE => assoc PORT_REQUEST_ASSOCIATE
      | .DISASSOCIATE => doPortProfileOpCommon env (qbhDisassociateArgs ifindex vf) s1
      | .PREASSOCIATE => (1, s1)

/-- The function vpAssociatePortProfileId, macvtap.c lines 1090-1133. -/
def vpAssociatePortProfileId (env : Env) (fuel : Nat) (macvtap_ifname : String)
    (macvtap_macaddr : Option (List Nat)) (linkdev : String)
    (virtPort : Option virVirtualPortProfileParams) (vmuuid : Option (List Nat))
    (vmOp : virVMOperationType) (s : St) : Option (Int × St) :=
  let s0 := s.log (.debugAssociating macvtap_ifname vmOp)
  match virtPort with
  | none => some (0, s0)
  | some vp =>
      if vmOp = .VIR_VM_OP_NO_OP then some (0, s0)
      else
        match vp.virtPortType with
        | .VIR_VIRTUALPORT_NONE => some (0, s0)
        | .VIR_VIRTUALPORT_TYPE_LAST => some (0, s0)
        | .VIR_VIRTUALPORT_8021QBG =>
            doPortProfileOp8021Qbg env fuel macvtap_ifname macvtap_macaddr vp
              (if vmOp = .VIR_VM_OP_MIGRATE_IN_START then .PREASSOCIATE else .ASSOCIATE) s0
        | .VIR_VIRTUALPORT_8021QBH =>
            let r := doPortProfileOp8021Qbh env linkdev macvtap_macaddr vp vmuuid
              (if vmOp = .VIR_VM_OP_MIGRATE_IN_START then .PREASSOCIATE_RR else .ASSOCIATE) s0
            if vmOp ≠ .VIR_VM_OP_MIGRATE_IN_START ∧ r.1 = 0 then
              some (r.1, r.2.log (.ifaceUp linkdev))
            else some r

/-- The function vpDisassociatePortProfileId, macvtap.c lines 1147-1185. -/
def vpDisassociatePortProfileId (env : Env) (fuel : Nat) (macvtap_ifname : String)
    (macvtap_macaddr : Option (List Nat)) (linkdev : String)
    (virtPort : Option virVirtualPortProfileParams)
    (vmOp : virVMOperationType) (s : St) : Option (Int × St) :=
  let s0 := s.log (.debugDisassociating macvtap_ifname vmOp)
  match virtPort with
  | none => some (0, s0)
  | some vp =>
      match vp.virtPortType with
      | .VIR_VIRTUALPORT_NONE => some (0, s0)
      | .VIR_VIRTUALPORT_TYPE_LAST => some (0, s0)
      | .VIR_VIRTUALPORT_8021QBG =>
          doPortProfileOp8021Qbg env fuel macvtap_ifname macvtap_macaddr vp .DISASSOCIATE s0
      | .VIR_VIRTUALPORT_8021QBH =>
          if vmOp = .VIR_VM_OP_MIGRATE_IN_FINISH then some (0, s0)
          else
            some (doPortProfileOp8021Qbh env linkdev macvtap_macaddr vp none .DISASSOCIATE
              (s0.log (.ifaceDown linkdev)))

/-! ## The lifecycle manager -/

/-- The retry loop of openTap, macvtap.c lines 155-164, with the retries left. -/
def openTapLoop (env : Env) (ifindex : Int) : Nat → St → Int × St
  | retries, s =>
      let tapfd := env.openTapDev s.nOpen ifindex
      let s1 := { s.log (.openTapDev ifindex) with nOpen := s.nOpen + 1 }
      match retries with
      | 0 => (tapfd, s1)
      | r + 1 =>
          if tapfd < 0 then openTapLoop env ifindex r (s1.log (.usleep 20000))
          else (tapfd, s1)

/-- The function openTap, macvtap.c lines 110-172.  The path buffer holds 64
bytes and the fixed part of the path has 23; the tap name always fits. -/
def openTap (env : Env) (ifname : String) (retries : Int) (s : St) : Int × St :=
  if 64 ≤ 23 + ifname.utf8ByteSize then (-1, s)
  else
    let s1 := s.log (.readIfindex ifname)
    match env.readIfindex ifname with
    | none => (-1, s1)
    | some none => (-1, s1)
    | some (some ifindex) => openTapLoop env ifindex retries.toNat s1

/-- The function configMacvtapTap, macvtap.c lines 189-230; flags are 16 bit
patterns. -/
def configMacvtapTap (env : Env) (tapfd : Int) (vnet_hdr : Int) (s : St) : Int × St :=
  let g := env.TUNGETIFF tapfd
  let s1 := s.log (.TUNGETIFF tapfd)
  if g.1 < 0 then (-1, s1)
  else
    let flags := g.2 % 65536
    let setFlags := fun (new_flags : Nat) (rc_on_fail : Int) (s2 : St) =>
      if new_flags ≠ flags then
        if env.TUNSETIFF tapfd new_flags < 0 then
          (rc_on_fail, s2.log (.TUNSETIFF tapfd new_flags))
        else (0, s2.log (.TUNSETIFF tapfd new_flags))
      else ((0 : Int), s2)
    if flags &&& IFF_VNET_HDR ≠ 0 ∧ vnet_hdr = 0 then
      setFlags (flags &&& (65535 ^^^ IFF_VNET_HDR)) (-1) s1
    else if flags &&& IFF_VNET_HDR = 0 ∧ vnet_hdr ≠ 0 then
      let f := env.TUNGETFEATURES tapfd
      let s2 := s1.log (.TUNGETFEATURES tapfd)
      if f.1 ≠ 0 then ((f.2.2 : Int), s2)
      else if f.2.1 &&& IFF_VNET_HDR ≠ 0 then setFlags (flags ||| IFF_VNET_HDR) 0 s2
      else setFlags flags 0 s2
    else setFlags flags 0 s1

/-- The table modeMap, macvtap.c lines 233-238. -/
def modeMap : virMacvtapMode → Nat
  | .VIR_MACVTAP_MODE_VEPA => MACVLAN_MODE_VEPA
  | .VIR_MACVTAP_MODE_PRIVATE => MACVLAN_MODE_PRIVATE
  | .VIR_MACVTAP_MODE_BRIDGE => MACVLAN_MODE_BRIDGE
  | .VIR_MACVTAP_MODE_PASSTHRU => MACVLAN_MODE_PASSTHRU

/-- The name MACVTAP_NAME_PATTERN printed with index c, macvtap.c line 319. -/
def MACVTAP_NAME_PATTERN (c : Nat) : String := MACVTAP_NAME_PREFIX ++ toString c

/-- The loop at create_name, macvtap.c lines 317-331: iterations left, the
index c, the contents of the buffer ifname and the retries left.  The result
is the name in cr_ifname, or none for return -1. -/
def createNameLoop (env : Env) (linkdev : String) (macvtapMode : Nat) :
    Nat → Nat → String → Int → St → Option String × St
  | 0, _, ifname, _, s => (some ifname, s)
  | n + 1, c, _, retries, s =>
      let ifname := MACVTAP_NAME_PATTERN c
      let g := env.ifaceGetIndex s.nGetIndex ifname
      let s1 := { s.log (.ifaceGetIndex ifname) with nGetIndex := s.nGetIndex + 1 }
      if g.1 = -ENODEV then
        let r := env.ifaceMacvtapLinkAdd s1.nLinkAdd ifname linkdev macvtapMode
        let s2 := { s1.log (.ifaceMacvtapLinkAdd ifname linkdev macvtapMode) with
                    nLinkAdd := s1.nLinkAdd + 1 }
        if r.1 = 0 then (some ifname, s2)
        else if r.2 ≠ 0 ∧ retries - 1 ≠ 0 then
          createNameLoop env linkdev macvtapMode n (c + 1) ifname (retries - 1) s2
        else (none, s2)
      else createNameLoop env linkdev macvtapMode n (c + 1) ifname retries s1

/-- The name selection and creation of openMacvtapTap, macvtap.c lines 300-332:
the name in cr_ifname, or none for return -1. -/
def selectAndCreate (env : Env) (tgifname : Option String) (linkdev : String)
    (macvtapMode : Nat) (s : St) : Option String × St :=
  match tgifname with
  | some tg =>
      let g := env.ifaceGetIndex s.nGetIndex tg
      let s1 := { s.log (.ifaceGetIndex tg) with nGetIndex := s.nGetIndex + 1 }
      if g.1 = 0 then
        if MACVTAP_NAME_PREFIX.data.isPrefixOf tg.data then
          createNameLoop env linkdev macvtapMode 8192 0 "" 5 s1
        else (none, s1)
      else
        let r := env.ifaceMacvtapLinkAdd s1.nLinkAdd tg linkdev macvtapMode
        let s2 := { s1.log (.ifaceMacvtapLinkAdd tg linkdev macvtapMode) with
                    nLinkAdd := s1.nLinkAdd + 1 }
        if r.1 < 0 then (none, s2) else (some tg, s2)
  | none => createNameLoop env linkdev macvtapMode 8192 0 "" 5 s

/-- The results of openMacvtapTap: return value and the contents of res_ifname. -/
structure OpenResult where
  rc : Int
  res_ifname : Option String
  deriving DecidableEq, Repr

/-- The exit link_del_exit of openMacvtapTap, macvtap.c lines 383-386. -/
def link_del_exit (cr_ifname : String) (rc : Int) (res_ifname : Option String) (s : St) :
    OpenResult × St :=
  (⟨rc, res_ifname⟩, s.log (.ifaceLinkDel cr_ifname))

/-- The exit disassociate_exit of openMacvtapTap, macvtap.c lines 376-386. -/
def disassociate_exit (env : Env) (fuel : Nat) (cr_ifname : String) (macaddress : List Nat)
    (linkdev : String) (virtPortProfile : Option virVirtualPortProfileParams)
    (vmOp : virVMOperationType) (rc : Int) (res_ifname : Option String) (s : St) :
    Option (OpenResult × St) :=
  match vpDisassociatePortProfileId env fuel cr_ifname (some macaddress) linkdev
      virtPortProfile vmOp s with
  | none => none
  | some d => some (link_del_exit cr_ifname rc res_ifname d.2)

/-- Where the steps between the association and the exits of openMacvtapTap
end: at the label disassociate_exit or at the final return, with the value of
rc, the contents of res_ifname and the state at that point. -/
inductive StepsEnd
  | disassociate_exit (rc : Int) (res_ifname : Option String) (s : St)
  | returns (rc : Int) (res_ifname : Option String) (s : St)
  deriving DecidableEq, Repr

/-- The steps of openMacvtapTap after a successful association, macvtap.c lines
343-374: bring the interface up, open the tap device, configure the header
mode, store the name, apply the bandwidth. -/
def stepsAfterAssociation (env : Env) (cr_ifname : String) (vnet_hdr : Int) (s : St) :
    StepsEnd :=
  let s2 := s.log (.ifaceUp cr_ifname)
  if env.ifaceUp cr_ifname < 0 then .disassociate_exit (-1) none s2
  else
    let t := openTap env cr_ifname 10 s2
    if 0 ≤ t.1 then
      let c := configMacvtapTap env t.1 vnet_hdr t.2
      if c.1 < 0 then .disassociate_exit (-1) none (c.2.log (.close t.1))
      else
        let res_ifname := env.strdup cr_ifname
        let s5 := c.2.log (.virBandwidthEnable cr_ifname)
        if env.virBandwidthEnable cr_ifname < 0 then .disassociate_exit (-1) res_ifname s5
        else .returns t.1 res_ifname s5
    else .disassociate_exit t.1 none t.2

/-- The state at the end of the steps. -/
def StepsEnd.st : StepsEnd → St
  | .disassociate_exit _ _ s => s
  | .returns _ _ s => s

/-- The part of openMacvtapTap that follows the creation of the interface
cr_ifname, macvtap.c lines 334-387. -/
def attachCreated (env : Env) (fuel : Nat) (cr_ifname : String) (macaddress : List Nat)
    (linkdev : String) (vnet_hdr : Int) (vmuuid : List Nat)
    (virtPortProfile : Option virVirtualPortProfileParams)
    (vmOp : virVMOperationType) (s : St) : Option (OpenResult × St) :=
  match vpAssociatePortProfileId env fuel cr_ifname (some macaddress) linkdev
      virtPortProfile (some vmuuid) vmOp s with
  | none => none
  | some a =>
      if a.1 ≠ 0 then some (link_del_exit cr_ifname (-1) none a.2)
      else
        match stepsAfterAssociation env cr_ifname vnet_hdr a.2 with
        | .disassociate_exit rc res_ifname sf =>
            disassociate_exit env fuel cr_ifname macaddress linkdev virtPortProfile vmOp
              rc res_ifname sf
        | .returns rc res_ifname s5 => some (⟨rc, res_ifname⟩, s5)

/-- The part of openMacvtapTap that precedes the association, macvtap.c lines
281-332: the MAC override of passthrough mode, then the name selection and the
creation of the interface.  The result is the name in cr_ifname, or none for
return -1. -/
def createInterface (env : Env) (tgifname : Option String) (macaddress : List Nat)
    (linkdev : String) (mode : virMacvtapMode) (s : St) : Option String × St :=
  if mode = .VIR_MACVTAP_MODE_PASSTHRU then
    let s0 := s.log (.ifaceReplaceMacAddress macaddress linkdev)
    if env.ifaceReplaceMacAddress macaddress linkdev ≠ 0 then (none, s0)
    else selectAndCreate env tgifname linkdev (modeMap mode) s0
  else selectAndCreate env tgifname linkdev (modeMap mode) s

/-- The function openMacvtapTap, macvtap.c lines 260-387. -/
def openMacvtapTap (env : Env) (fuel : Nat) (tgifname : Option String)
    (macaddress : List Nat) (linkdev : String) (mode : virMacvtapMode) (vnet_hdr : Int)
    (vmuuid : List Nat) (virtPortProfile : Option virVirtualPortProfileParams)
    (vmOp : virVMOperationType) (s : St) : Option (OpenResult × St) :=
  let n := createInterface env tgifname macaddress linkdev mode s
  match n.1 with
  | none => some (⟨-1, none⟩, n.2)
  | some cr_ifname =>
      attachCreated env fuel cr_ifname macaddress linkdev vnet_hdr vmuuid
        virtPortProfile vmOp n.2

/-- The function delMacvtap, macvtap.c lines 400-419. -/
def delMacvtap (env : Env) (fuel : Nat) (ifname : Option String) (macaddr : List Nat)
    (linkdev : String) (mode : virMacvtapMode)
    (virtPortProfile : Option virVirtualPortProfileParams) (s : St) : Option St :=
  let s0 := if mode = .VIR_MACVTAP_MODE_PASSTHRU then
      s.log (.ifaceRestoreMacAddress linkdev) else s
  match ifname with
  | none => some s0
  | some n =>
      match vpDisassociatePortProfileId env fuel n (some macaddr) linkdev virtPortProfile
          .VIR_VM_OP_DESTROY s0 with
      | none => none
      | some d => some (d.2.log (.ifaceLinkDel n))

/-! ## Specification vocabulary -/

/-- Is the event a status poll (a link dump)? -/
def isPoll : Event → Bool
  | .ifaceMacvtapLinkDump _ _ => true
  | _ => false

/-- Is the event a sleep? -/
def isSleep : Event → Bool
  | .usleep _ => true
  | _ => false

/-- Number of status polls in a trace. -/
def polls (t : List Event) : Nat := t.countP isPoll

/-- Number of sleeps in a trace. -/
def sleeps (t : List Event) : Nat := t.countP isSleep

/-- The link dump event of a poll of the negotiation with arguments a. -/
def pollEvent (a : OpArgs) : Event := .ifaceMacvtapLinkDump a.nltarget_kernel a.ifindex

/-- The events of k poll cycles that each end with the sleep of one poll
interval. -/
def pollCycles (a : OpArgs) : Nat → List Event
  | 0 => []
  | k + 1 => pollEvent a :: .usleep STATUS_POLL_INTERVL_USEC :: pollCycles a k

/-- The link dump number n succeeds and getPortProfileStatus, called as
doPortProfileOpCommon calls it, returns 0 with the given status. -/
def pollYields (env : Env) (a : OpArgs) (n : Nat) (status : Nat) : Prop :=
  (env.ifaceMacvtapLinkDump n a.nltarget_kernel a.ifindex).1 = 0 ∧
  getPortProfileStatus (env.ifaceMacvtapLinkDump n a.nltarget_kernel a.ifindex).2
    a.vf a.instanceId a.nltarget_kernel a.profileId.isNone = (0, some status)

/-- The link dump number n succeeds and getPortProfileStatus, called as
doPortProfileOpCommon calls it, returns 0: the poll is parsed without error. -/
def pollOk (env : Env) (a : OpArgs) (n : Nat) : Prop :=
  (env.ifaceMacvtapLinkDump n a.nltarget_kernel a.ifindex).1 = 0 ∧
  (getPortProfileStatus (env.ifaceMacvtapLinkDump n a.nltarget_kernel a.ifindex).2
    a.vf a.instanceId a.nltarget_kernel a.profileId.isNone).1 = 0

/-- The state after one poll: the dump is logged and counted. -/
def St.polled (s : St) (a : OpArgs) : St :=
  { s.log (pollEvent a) with nDump := s.nDump + 1 }

/-- The state after k poll cycles that each end with a sleep. -/
def St.cycled (s : St) (a : OpArgs) (k : Nat) : St :=
  { s with trace := s.trace ++ pollCycles a k, nDump := s.nDump + k }

/-- The trace t2 extends the trace t1 by events that all satisfy P. -/
def Grows (P : Event → Prop) (t1 t2 : List Event) : Prop :=
  ∃ l, t2 = t1 ++ l ∧ ∀ e ∈ l, P e

/-- The events doPortProfileOpSetLink can perform. -/
def emitsSetLink : Event → Bool
  | .openPidFile => true
  | .saferead _ => true
  | .close _ => true
  | .nlComm _ _ => true
  | _ => false

/-- The events doPortProfileOpCommon can perform. -/
def emitsCommon (e : Event) : Bool := emitsSetLink e || isPoll e || isSleep e

/-- The events the protocol functions below vpAssociatePortProfileId and
vpDisassociatePortProfileId, and these two after their debug line, can
perform. -/
def emitsPort (e : Event) : Bool :=
  emitsCommon e ||
  match e with
  | .ifaceGetNthParent _ _ => true
  | .ifaceGetVlanID _ => true
  | .ifaceIsVirtualFunction _ => true
  | .ifaceGetPhysicalFunction _ => true
  | .ifaceGetVirtualFunctionIndex _ _ => true
  | .ifaceGetIndex _ => true
  | .virGetHostUUID => true
  | .ifaceUp _ => true
  | .ifaceDown _ => true
  | _ => false

/-- The events of the steps between association and exit of openMacvtapTap. -/
def emitsSteps : Event → Bool
  | .ifaceUp _ => true
  | .readIfindex _ => true
  | .openTapDev _ => true
  | .usleep _ => true
  | .close _ => true
  | .TUNGETIFF _ => true
  | .TUNGETFEATURES _ => true
  | .TUNSETIFF _ _ => true
  | .virBandwidthEnable _ => true
  | _ => false

/-- The events of the part of openMacvtapTap that precedes the association. -/
def emitsCreate : Event → Bool
  | .ifaceReplaceMacAddress _ _ => true
  | .ifaceGetIndex _ => true
  | .ifaceMacvtapLinkAdd _ _ _ => true
  | _ => false

/-- Is the event the entry of vpDisassociatePortProfileId? -/
def isDisassociateCall : Event → Bool
  | .debugDisassociating _ _ => true
  | _ => false

/-- Is the event the entry of vpAssociatePortProfileId? -/
def isAssociateCall : Event → Bool
  | .debugAssociating _ _ => true
  | _ => false

/-- Is the event a restoration of a hardware address? -/
def isRestore : Event → Bool
  | .ifaceRestoreMacAddress _ => true
  | _ => false

/-- Is the event the deletion of an interface? -/
def isLinkDel : Event → Bool
  | .ifaceLinkDel _ => true
  | _ => false

/-- Number of entries of vpDisassociatePortProfileId in a trace. -/
def disassociateCalls (t : List Event) : Nat := t.countP isDisassociateCall

/-- The request operation code of a port block. -/
def portOp : List PortAttr → Option Nat
  | [] => none
  | .IFLA_PORT_REQUEST op :: _ => some op
  | _ :: rest => portOp rest

/-- The request operation code of the port block of a set-link request. -/
def requestOp : List NlAttr → Option Nat
  | [] => none
  | .IFLA_PORT_SELF port :: _ => portOp port
  | .IFLA_VF_PORTS (port :: _) :: _ => portOp port
  | _ :: rest => requestOp rest

/-- Is the event a sent request to associate, preassociate or preassociate with
reassociation? -/
def isAssociateRequest : Event → Bool
  | .nlComm msg _ =>
      requestOp msg.attrs = some PORT_REQUEST_ASSOCIATE ||
      requestOp msg.attrs = some PORT_REQUEST_PREASSOCIATE ||
      requestOp msg.attrs = some PORT_REQUEST_PREASSOCIATE_RR
  | _ => false

/-- Is the event a sent request to disassociate? -/
def isDisassociateRequest : Event → Bool
  | .nlComm msg _ => requestOp msg.attrs = some PORT_REQUEST_DISASSOCIATE
  | _ => false

/-- Number of association requests sent in a trace. -/
def associateRequests (t : List Event) : Nat := t.countP isAssociateRequest

/-- Number of disassociation requests sent in a trace. -/
def disassociateRequests (t : List Event) : Nat := t.countP isDisassociateRequest

/-- Every parent walk in the environment ends within fuel calls: from every call
number on, one of the next fuel calls of ifaceGetNthParent reports an error or
no further parent, whatever its arguments. -/
def walkEndsWithin (env : Env) (fuel : Nat) : Prop :=
  ∀ n, ∃ j, j < fuel ∧ ∀ ix nm ri rn,
    (env.ifaceGetNthParent (n + j) ix nm ri rn).ret ≠ 0 ∨
      (env.ifaceGetNthParent (n + j) ix nm ri rn).nth = 0

/-- The events openMacvtapTap can perform. -/
def emitsOpen (e : Event) : Bool :=
  emitsCreate e || emitsPort e || emitsSteps e || isAssociateCall e ||
    isDisassociateCall e || isLinkDel e

/-! ## Concrete environments and inputs -/

/-- The table tb of a link dump whose VF-ports list has one entry with the
given instance UUID, VF index and response attributes. -/
def tbVfPort (uuid : List Nat) (vf : Nat) (response : Option Nat) : LinkTb :=
  { IFLA_PORT_SELF := none
    IFLA_VF_PORTS := some [⟨IFLA_VF_PORT, some ⟨some uuid, some vf, response⟩⟩] }

/-- The table tb of a link dump with a self port block with the given response. -/
def tbSelf (response : Option Nat) : LinkTb :=
  { IFLA_PORT_SELF := some ⟨0, some ⟨none, none, response⟩⟩
    IFLA_VF_PORTS := none }

/-- A sample instance UUID. -/
def sampleUuid : List Nat := [1, 2, 3, 4, 5, 6, 7, 8, 9, 10, 11, 12, 13, 14, 15, 16]

/-- A sample MAC address. -/
def sampleMac : List Nat := [82, 84, 0, 18, 52, 86]

/-- An environment in which every collaborator succeeds at once: eth0 with
index 2 is the only existing interface, the PID file of the agent holds 1234, requests are acknowledged,
every link dump reports PORT_PROFILE_RESPONSE_SUCCESS for the sample instance,
and the device has no parent. -/
def envOk : Env where
  ifaceReplaceMacAddress := fun _ _ => 0
  ifaceRestoreMacAddress := fun _ => 0
  ifaceGetIndex := fun _ name => if name = "eth0" then (0, 2) else (-ENODEV, 0)
  ifaceMacvtapLinkAdd := fun _ _ _ _ => (0, 0)
  ifaceLinkDel := fun _ => 0
  ifaceUp := fun _ => 0
  ifaceDown := fun _ => 0
  readIfindex := fun _ => some (some 7)
  openTapDev := fun _ _ => 5
  TUNGETIFF := fun _ => (0, 0)
  TUNGETFEATURES := fun _ => (0, 0, 0)
  TUNSETIFF := fun _ _ => 0
  virBandwidthEnable := fun _ => 0
  strdup := fun x => some x
  openPidFile := fun _ => 3
  saferead := fun _ => (5, [49, 50, 51, 52, 10, 0, 0, 0, 0, 0])
  virStrToLong_ui := fun _ => (0, 10, 1234)
  nlmsgAlloc := fun _ => true
  nlaFits := fun _ => true
  nlComm := fun _ _ _ => (0, ⟨false, 36, NLMSG_ERROR, 36, 0⟩)
  ifaceMacvtapLinkDump := fun _ _ _ =>
    (0, tbVfPort sampleUuid 4294967295 (some PORT_PROFILE_RESPONSE_SUCCESS))
  ifaceGetNthParent := fun _ _ _ _ _ => ⟨0, 2, "eth0", 0⟩
  ifaceGetVlanID := fun _ => (-1, 0)
  ifaceIsVirtualFunction := fun _ => 0
  ifaceGetPhysicalFunction := fun _ => (0, "eth0")
  ifaceGetVirtualFunctionIndex := fun _ _ => (0, 0)
  virGetHostUUID := (0, List.replicate 16 0)

/-- The arguments doPortProfileOp8021Qbg passes for an associate request of the
sample instance on eth0. -/
def qbgAssociateArgs : OpArgs :=
  { nltarget_kernel := false, ifname := some "eth0", ifindex := 2,
    macaddr := some sampleMac, vlanid := 0, profileId := none,
    portVsi := some ⟨1, [5, 0, 0], 1⟩, instanceId := some sampleUuid, hostUUID := none,
    vf := PORT_SELF_VF, op := PORT_REQUEST_ASSOCIATE }

/-- The environment envOk in which the first three link dumps report in-progress
and all later ones the given status. -/
def envThreeThen (status : Nat) : Env :=
  { envOk with
    ifaceMacvtapLinkDump := fun n _ _ =>
      (0, tbVfPort sampleUuid 4294967295
        (some (if n < 3 then PORT_PROFILE_RESPONSE_INPROGRESS else status))) }

/-- The environment envOk in which every link dump reports in-progress. -/
def envInProgress : Env :=
  { envOk with
    ifaceMacvtapLinkDump := fun _ _ _ =>
      (0, tbVfPort sampleUuid 4294967295 (some PORT_PROFILE_RESPONSE_INPROGRESS)) }

/-- A sample 802.1Qbh profile. -/
def qbhProfile : virVirtualPortProfileParams :=
  ⟨.VIR_VIRTUALPORT_8021QBH, 0, 0, 0, [], "profile-a"⟩

/-- A sample 802.1Qbg profile for the sample instance. -/
def qbgProfile : virVirtualPortProfileParams :=
  ⟨.VIR_VIRTUALPORT_8021QBG, 1, 5, 1, sampleUuid, ""⟩

/-- The environment envOk in which every link dump carries a self port block
without the status attribute IFLA_PORT_RESPONSE. -/
def envSelfNoStatus : Env :=
  { envOk with ifaceMacvtapLinkDump := fun _ _ _ => (0, tbSelf none) }

/-- The environment envOk in which bringing an interface up fails. -/
def envUpFails : Env := { envOk with ifaceUp := fun _ => -1 }

/-- The environment envOk in which applying the bandwidth fails. -/
def envBandwidthFails : Env := { envOk with virBandwidthEnable := fun _ => -1 }

/-- The environment envOk in which reading the flags of the tap device fails, so
that configMacvtapTap returns -1. -/
def envConfigFails : Env := { envOk with TUNGETIFF := fun _ => (-1, 0) }

/-- The environment envOk in which every link dump reports the failure status
258 (PORT_PROFILE_RESPONSE_INVALID). -/
def envStatusFails : Env :=
  { envOk with
    ifaceMacvtapLinkDump := fun _ _ _ => (0, tbVfPort sampleUuid 4294967295 (some 258)) }

/-- The environment envOk in which every interface name is in use. -/
def envNameTaken : Env := { envOk with ifaceGetIndex := fun _ _ => (0, 3) }

/-- The result of the 802.1Qbg association of macvtap0 in envUpFails. -/
def upFailsAssociated : Int × St :=
  (vpAssociatePortProfileId envUpFails 1 "macvtap0" (some sampleMac) "eth0"
    (some qbgProfile) (some sampleUuid) .VIR_VM_OP_CREATE
    (createInterface envUpFails none sampleMac "eth0" .VIR_MACVTAP_MODE_VEPA St.init).2).getD
    (0, St.init)

/-- The result of openMacvtapTap for an 802.1Qbg profile when bringing the
interface up fails. -/
def upFailsFinal : OpenResult × St :=
  (openMacvtapTap envUpFails 1 none sampleMac "eth0" .VIR_MACVTAP_MODE_VEPA 0
    sampleUuid (some qbgProfile) .VIR_VM_OP_CREATE St.init).getD (⟨0, none⟩, St.init)

/-- The lookups of k candidate names from index c on. -/
def nameLookups : Nat → Nat → List Event
  | _, 0 => []
  | c, k + 1 => .ifaceGetIndex (MACVTAP_NAME_PATTERN c) :: nameLookups (c + 1) k

/-- The state after the lookups of k candidate names from index c on. -/
def St.lookedUp (s : St) (c k : Nat) : St :=
  { s with trace := s.trace ++ nameLookups c k, nGetIndex := s.nGetIndex + k }

/-- The state after one creation call for the given name. -/
def St.added (s : St) (name linkdev : String) (mode : Nat) : St :=
  { s with trace := s.trace ++ [.ifaceMacvtapLinkAdd name linkdev mode],
           nLinkAdd := s.nLinkAdd + 1 }

/-- Is the event a lookup of an interface index? -/
def isLookup : Event → Bool
  | .ifaceGetIndex _ => true
  | _ => false

/-- Is the event a creation call? -/
def isLinkAdd : Event → Bool
  | .ifaceMacvtapLinkAdd _ _ _ => true
  | _ => false

/-- The environment envOk in which the names macvtap0, macvtap1 and macvtap2
are in use as well. -/
def envThreeTaken : Env :=
  { envOk with
    ifaceGetIndex := fun _ name =>
      if name = "eth0" then (0, 2)
      else if name = "macvtap0" ∨ name = "macvtap1" ∨ name = "macvtap2" then (0, 9)
      else (-ENODEV, 0) }

/-- The environment envOk in which no interface name is in use and every
creation call fails and flags the failure as retryable. -/
def envAddFailsRetry : Env :=
  { envOk with
    ifaceGetIndex := fun _ _ => (-ENODEV, 0)
    ifaceMacvtapLinkAdd := fun _ _ _ _ => (-1, 1) }

/-- The lookup of the candidate name of index c followed by its creation call. -/
def lookupAndAdd (c : Nat) (linkdev : String) (mode : Nat) : List Event :=
  [.ifaceGetIndex (MACVTAP_NAME_PATTERN c),
   .ifaceMacvtapLinkAdd (MACVTAP_NAME_PATTERN c) linkdev mode]

/-- The environment envNameTaken in which bringing an interface up fails. -/
def envNameTakenUpFails : Env := { envNameTaken with ifaceUp := fun _ => -1 }

/-- The events of k failed attempts to open the tap device that are each
followed by the sleep before the retry. -/
def tapRetries (ifindex : Int) : Nat → List Event
  | 0 => []
  | k + 1 => .openTapDev ifindex :: .usleep 20000 :: tapRetries ifindex k

/-- The state after k failed attempts to open the tap device that are each
followed by a sleep. -/
def St.tapRetried (s : St) (ifindex : Int) (k : Nat) : St :=
  { s with trace := s.trace ++ tapRetries ifindex k, nOpen := s.nOpen + k }

/-- The state after one attempt to open the tap device. -/
def St.tapOpened (s : St) (ifindex : Int) : St :=
  { s with trace := s.trace ++ [.openTapDev ifindex], nOpen := s.nOpen + 1 }

/-- Is the event an attempt to open the tap device? -/
def isTapOpen : Event → Bool
  | .openTapDev _ => true
  | _ => false

/-- The environment envOk in which the first ten attempts to open the tap device
fail and the eleventh succeeds. -/
def envOpenTenFail : Env :=
  { envOk with openTapDev := fun n _ => if n < 10 then -1 else 5 }

/-- The environment envOk in which the tap device has the flags IFF_VNET_HDR
and 1 set and a request to set flags fails. -/
def envVnetSet : Env :=
  { envOk with TUNGETIFF := fun _ => (0, 16385), TUNSETIFF := fun _ _ => -1 }

/-- The environment envOk in which the tap device has only the flag 1 set, the
feature query does not report IFF_VNET_HDR, and a request to set flags fails. -/
def envVnetUnsupported : Env :=
  { envOk with
    TUNGETIFF := fun _ => (0, 1), TUNGETFEATURES := fun _ => (0, 1, 0),
    TUNSETIFF := fun _ _ => -1 }

/-- The entry has the type IFLA_VF_PORT, its nested attributes parse, and it
does not match the request. -/
def NestedAttr.passedOver (vf : Int) (instanceId : Option (List Nat)) (e : NestedAttr) : Prop :=
  e.nla_type = IFLA_VF_PORT ∧
    ∃ t, e.parsed = some t ∧ vfPortMatches vf instanceId t = false

/-- The entry has another type than IFLA_VF_PORT, or its nested attributes do
not parse. -/
def NestedAttr.malformed (e : NestedAttr) : Prop :=
  e.nla_type ≠ IFLA_VF_PORT ∨ e.parsed = none

/-- A table with a VF-ports list and no self port block. -/
def tbVfPorts (entries : List NestedAttr) : LinkTb :=
  { IFLA_PORT_SELF := none, IFLA_VF_PORTS := some entries }

/-- A VF-ports entry of the sample instance and the self VF index (as uint32_t)
that reports PORT_PROFILE_RESPONSE_SUCCESS. -/
def entrySuccess : NestedAttr :=
  ⟨IFLA_VF_PORT, some ⟨some sampleUuid, some 4294967295, some PORT_PROFILE_RESPONSE_SUCCESS⟩⟩

/-- A VF-ports entry of the sample instance for the VF index 3. -/
def entryOtherVf : NestedAttr :=
  ⟨IFLA_VF_PORT, some ⟨some sampleUuid, some 3, some 258⟩⟩

/-- A nested attribute of type 7 inside the VF-ports list. -/
def entryWrongType : NestedAttr := ⟨7, some ⟨none, none, none⟩⟩

/-- Is the top-level attribute a self port block? -/
def isPortSelfAttr : NlAttr → Bool
  | .IFLA_PORT_SELF _ => true
  | _ => false

/-- Is the top-level attribute a VF-ports list? -/
def isVfPortsAttr : NlAttr → Bool
  | .IFLA_VF_PORTS _ => true
  | _ => false

/-- The position of an attribute kind in the order profile-id, VSI descriptor,
instance UUID, host UUID, VF index, request operation. -/
def PortAttr.kind : PortAttr → Nat
  | .IFLA_PORT_PROFILE _ => 0
  | .IFLA_PORT_VSI_TYPE _ => 1
  | .IFLA_PORT_INSTANCE_UUID _ => 2
  | .IFLA_PORT_HOST_UUID _ => 3
  | .IFLA_PORT_VF _ => 4
  | .IFLA_PORT_REQUEST _ => 5

/-- Is the event a set-link request handed to the transport? -/
def isRequest : Event → Bool
  | .nlComm _ _ => true
  | _ => false

/-- Number of set-link requests handed to the transport in a trace. -/
def requests (t : List Event) : Nat := t.countP isRequest

/-- The events getLldpadPid can perform. -/
def emitsPid : Event → Bool
  | .openPidFile => true
  | .saferead _ => true
  | .close _ => true
  | _ => false

/-- The pid doPortProfileOpSetLink addresses and the state after determining
it, macvtap.c lines 691-697: the pid of the agent for an agent target, 0 for
the kernel. -/
def targetPid (env : Env) (a : OpArgs) (s : St) : Nat × St :=
  if a.nltarget_kernel = false then getLldpadPid env { s with nAlloc := s.nAlloc + 1 }
  else (0, { s with nAlloc := s.nAlloc + 1 })

/-- The request of doPortProfileOpSetLink is built and handed to nlComm: the
message is allocated, the attributes fit, and for an agent target the pid of
the agent is not 0. -/
def reachesTransport (env : Env) (a : OpArgs) (s : St) : Bool :=
  env.nlmsgAlloc s.nAlloc && env.nlaFits (setLinkMsg a) &&
    (a.nltarget_kernel || decide ((targetPid env a s).1 ≠ 0))

/-- The answer of nlComm to the request of doPortProfileOpSetLink. -/
def transportAnswer (env : Env) (a : OpArgs) (s : St) : Int × NlResp :=
  env.nlComm (targetPid env a s).2.nComm (setLinkMsg a) (targetPid env a s).1

/-- The environment envOk without a PID file of the agent. -/
def envPidMissing : Env := { envOk with openPidFile := fun _ => -1 }

/-- The environment envOk with an empty PID file: saferead reads no byte and
returns 0, and the buffer, which getLldpadPid does not initialise, still holds
the bytes 1234 and a newline; virStrToLong_ui parses these bytes as 1234 with
the end pointer at the newline and rejects every other buffer. -/
def envPidEmpty : Env :=
  { envOk with
    saferead := fun _ => (0, [49, 50, 51, 52, 10, 0, 0, 0, 0, 0])
    virStrToLong_ui := fun buf =>
      if buf = [49, 50, 51, 52, 10, 0, 0, 0, 0, 0] then (0, 10, 1234) else (-1, 0, 0) }

/-- Where the response handling of doPortProfileOpSetLink, macvtap.c lines
704-728, ends: at the label malformed_resp, which reports a malformed netlink
response message and returns -1, or at err_exit with the value of rc. -/
inductive RespExit
  | malformed_resp
  | err_exit (rc : Int)
  deriving DecidableEq, Repr

/-- The response handling of doPortProfileOpSetLink, macvtap.c lines 704-728,
with the exit taken; rc is 0 on entry. -/
def respExit (resp : NlResp) : RespExit :=
  if resp.recvbuflen < NLMSG_LENGTH 0 ∨ resp.recvbufNull = true then .malformed_resp
  else if resp.nlmsg_type = NLMSG_ERROR then
    if resp.nlmsg_len < NLMSG_LENGTH SIZEOF_NLMSGERR then .malformed_resp
    else if resp.error ≠ 0 then .err_exit (-1) else .err_exit 0
  else if resp.nlmsg_type = NLMSG_DONE then .err_exit 0
  else .malformed_resp

/-- The value doPortProfileOpSetLink returns at an exit, macvtap.c lines
730-742. -/
def RespExit.rc : RespExit → Int
  | .malformed_resp => -1
  | .err_exit rc => rc

/-- The events getPhysdevAndVlan can perform. -/
def emitsWalk : Event → Bool
  | .ifaceGetNthParent _ _ => true
  | .ifaceGetVlanID _ => true
  | _ => false

/-- The VSI descriptor doPortProfileOp8021Qbg fills, macvtap.c lines 884-887 and
904-906: the type-id as three bytes. -/
def qbgPortVsi (virtPort : virVirtualPortProfileParams) : ifla_port_vsi :=
  { vsi_mgr_id := virtPort.managerID
    vsi_type_version := virtPort.typeIDVersion
    vsi_type_id := [virtPort.typeID % 256, (virtPort.typeID >>> 8) % 256,
                    (virtPort.typeID >>> 16) % 256] }

/-- The request code doPortProfileOp8021Qbg chooses, macvtap.c lines 908-923
(none = operation type not supported). -/
def qbgOp : virVirtualPortOp → Option Nat
  | .PREASSOCIATE => some PORT_REQUEST_PREASSOCIATE
  | .ASSOCIATE => some PORT_REQUEST_ASSOCIATE
  | .DISASSOCIATE => some PORT_REQUEST_DISASSOCIATE
  | .PREASSOCIATE_RR => none

/-- The arguments doPortProfileOp8021Qbg passes to doPortProfileOpCommon,
macvtap.c lines 925-935, for the resolved physical device p. -/
def qbgArgs (p : PhysdevVlan) (macaddr : Option (List Nat))
    (virtPort : virVirtualPortProfileParams) (op : Nat) : OpArgs :=
  { nltarget_kernel := false, ifname := some p.root_ifname, ifindex := p.root_ifindex,
    macaddr := macaddr, vlanid := if p.vlanid < 0 then 0 else p.vlanid,
    profileId := none, portVsi := some (qbgPortVsi virtPort),
    instanceId := some virtPort.instanceID, hostUUID := none,
    vf := PORT_SELF_VF, op := op }

/-- The associate request of doPortProfileOp8021Qbh, macvtap.c lines 1021-1035,
after virGetHostUUID returned the host UUID. -/
def qbhAssociateArgs (ifindex : Int) (vf : Int) (macaddr : Option (List Nat))
    (virtPort : virVirtualPortProfileParams) (vm_uuid : Option (List Nat))
    (hostuuid : List Nat) (op : Nat) : OpArgs :=
  { nltarget_kernel := true, ifname := none, ifindex := ifindex, macaddr := macaddr,
    vlanid := -1, profileId := some virtPort.profileID, portVsi := none,
    instanceId := vm_uuid, hostUUID := some hostuuid, vf := vf, op := op }

/-- The request code doPortProfileOp8021Qbh sends for an operation it supports
on the association path, macvtap.c lines 1032-1034. -/
def qbhAssociateOp (virtPortOp : virVirtualPortOp) : Nat :=
  if virtPortOp = .PREASSOCIATE_RR then PORT_REQUEST_PREASSOCIATE_RR
  else PORT_REQUEST_ASSOCIATE

/-- The environment envOk in which every link device is a virtual function of
eth0 with the VF index 0, and every link dump carries a VF-ports entry of the
sample instance for the VF index 0 with the status success. -/
def envVf : Env :=
  { envOk with
    ifaceIsVirtualFunction := fun _ => 1
    ifaceMacvtapLinkDump := fun _ _ _ =>
      (0, tbVfPort sampleUuid 0 (some PORT_PROFILE_RESPONSE_SUCCESS)) }

/-- The environment envOk in which every link dump carries a self port block
that reports in-progress. -/
def envSelfBusy : Env :=
  { envOk with
    ifaceMacvtapLinkDump := fun _ _ _ =>
      (0, tbSelf (some PORT_PROFILE_RESPONSE_INPROGRESS)) }

/-- The VF index doPortProfileOp8021Qbh obtains from getPhysfnDev, macvtap.c
line 1008. -/
def qbhVf (env : Env) (linkdev : String) (s : St) : Int :=
  (getPhysfnDev env linkdev s).1.2.1

/-- The name of the physical function device doPortProfileOp8021Qbh obtains
from getPhysfnDev, macvtap.c line 1008. -/
def qbhPhysfndev (env : Env) (linkdev : String) (s : St) : String :=
  (getPhysfnDev env linkdev s).1.2.2.getD ""

/-- The lookup of the index of the physical function device in
doPortProfileOp8021Qbh, macvtap.c line 1012. -/
def qbhGetIndex (env : Env) (linkdev : String) (s : St) : Int × Int :=
  env.ifaceGetIndex (getPhysfnDev env linkdev s).2.nGetIndex (qbhPhysfndev env linkdev s)

/-- The state of doPortProfileOp8021Qbh before its switch, macvtap.c line 1017. -/
def qbhStart (env : Env) (linkdev : String) (s : St) : St :=
  { (getPhysfnDev env linkdev s).2.log (.ifaceGetIndex (qbhPhysfndev env linkdev s)) with
    nGetIndex := (getPhysfnDev env linkdev s).2.nGetIndex + 1 }

/-- The device resolution of doPortProfileOp8021Qbh succeeds, macvtap.c lines
1008-1015: getPhysfnDev returns 0 and the index of the device is found. -/
def qbhResolved (env : Env) (linkdev : String) (s : St) : Prop :=
  (getPhysfnDev env linkdev s).1.1 = 0 ∧ ¬ (qbhGetIndex env linkdev s).1 < 0

/-- The disassociate request of doPortProfileOp8021Qbh for the resolved device. -/
def qbhDisassociate (env : Env) (linkdev : String) (s : St) : OpArgs :=
  qbhDisassociateArgs (qbhGetIndex env linkdev s).2 (qbhVf env linkdev s)

/-- The negotiation of the associate request of doPortProfileOp8021Qbh for the
resolved device, macvtap.c lines 1025-1035. -/
def qbhAssociation (env : Env) (linkdev : String) (macaddr : Option (List Nat))
    (virtPort : virVirtualPortProfileParams) (vm_uuid : Option (List Nat))
    (virtPortOp : virVirtualPortOp) (s : St) : Int × St :=
  doPortProfileOpCommon env
    (qbhAssociateArgs (qbhGetIndex env linkdev s).2 (qbhVf env linkdev s) macaddr virtPort
      vm_uuid env.virGetHostUUID.2 (qbhAssociateOp virtPortOp))
    ((qbhStart env linkdev s).log .virGetHostUUID)

/-- The VLAN id the specification asks for, given the answers of the VLAN
lookups of the devices on the walk in order (return value and id): the id of the
first lookup that succeeds, -1 if none succeeds. -/
def specVlan : List (Int × Int) → Int
  | [] => -1
  | g :: rest => if g.1 < 0 then specVlan rest else g.2

/-- The parent chain seen from the lookup number n with the given arguments:
the successive answers of ifaceGetNthParent are the parents devs, each found
without error, and then the answer last, which reports no further parent.  Each
lookup starts from the device the one before has reached. -/
def walkChain (env : Env) : Nat → Int → Option String → Int → String →
    List NthParent → NthParent → Prop
  | n, ifindex, ifname, ri, rn, [], last =>
      env.ifaceGetNthParent n ifindex ifname ri rn = last ∧ last.ret = 0 ∧ last.nth = 0
  | n, ifindex, ifname, ri, rn, d :: rest, last =>
      env.ifaceGetNthParent n ifindex ifname ri rn = d ∧ d.ret = 0 ∧ d.nth ≠ 0 ∧
        walkChain env (n + 1) d.root_ifindex none d.root_ifindex d.root_ifname rest last

/-- The VLAN id the loop of getPhysdevAndVlan holds after the devices with the
given names are reached, starting from the id v. -/
def walkVlan (env : Env) : Int → List String → Int
  | v, [] => v
  | v, n :: rest =>
      walkVlan env
        (if v = -1 then (if (env.ifaceGetVlanID n).1 < 0 then -1 else (env.ifaceGetVlanID n).2)
          else v) rest

/-- The environment envOk in which the interface macvtap0 sits on the VLAN
device eth0.100 with the VLAN id 100, which sits on eth0; the VLAN lookup of
eth0 fails. -/
def envVlanChain : Env :=
  { envOk with
    ifaceGetNthParent := fun n _ _ _ _ =>
      if n = 0 then ⟨0, 5, "eth0.100", 1⟩
      else if n = 1 then ⟨0, 2, "eth0", 1⟩
      else ⟨0, 2, "eth0", 0⟩
    ifaceGetVlanID := fun name => if name = "eth0.100" then (0, 100) else (-1, 0) }

/-- The state of delMacvtap after its first step, macvtap.c lines 407-409: the
hardware address of the link device is restored in passthrough mode. -/
def St.restored (s : St) (mode : virMacvtapMode) (linkdev : String) : St :=
  if mode = .VIR_MACVTAP_MODE_PASSTHRU then s.log (.ifaceRestoreMacAddress linkdev) else s

/-- The environment envOk in which the sysfs file with the index of an interface
cannot be opened; every attempt to open a tap device would succeed. -/
def envNoIndex : Env := { envOk with readIfindex := fun _ => none }

/-! ## Theorems -/

section Traces

theorem Grows.refl (P : Event → Prop) (t : List Event) : Grows P t t :=
  ⟨[], by simp, by simp⟩

theorem Grows.snoc {P : Event → Prop} {t1 t2 : List Event} {e : Event}
    (h : Grows P t1 t2) (he : P e) : Grows P t1 (t2 ++ [e]) := by
  obtain ⟨l, rfl, hl⟩ := h
  refine ⟨l ++ [e], by simp, ?_⟩
  intro x hx
  rcases List.mem_append.mp hx with hx | hx
  · exact hl x hx
  · simp at hx; subst hx; exact he

theorem Grows.trans {P : Event → Prop} {t1 t2 t3 : List Event}
    (h : Grows P t1 t2) (h2 : Grows P t2 t3) : Grows P t1 t3 := by
  obtain ⟨l, rfl, hl⟩ := h
  obtain ⟨m, rfl, hm⟩ := h2
  refine ⟨l ++ m, by simp, ?_⟩
  intro x hx
  rcases List.mem_append.mp hx with hx | hx
  · exact hl x hx
  · exact hm x hx

theorem Grows.mono {P Q : Event → Prop} {t1 t2 : List Event}
    (h : Grows P t1 t2) (hPQ : ∀ e, P e → Q e) : Grows Q t1 t2 := by
  obtain ⟨l, rfl, hl⟩ := h
  exact ⟨l, rfl, fun e he => hPQ e (hl e he)⟩

theorem Grows.countP_eq {P : Event → Prop} {t1 t2 : List Event} (q : Event → Bool)
    (h : Grows P t1 t2) (hq : ∀ e, P e → q e = false) :
    t2.countP q = t1.countP q := by
  obtain ⟨l, rfl, hl⟩ := h
  rw [List.countP_append]
  have : l.countP q = 0 := by
    rw [List.countP_eq_zero]
    intro e he
    simp [hq e (hl e he)]
  omega

end Traces

section Negotiator

theorem polls_append (t u : List Event) : polls (t ++ u) = polls t + polls u := by
  simp [polls, List.countP_append]

theorem sleeps_append (t u : List Event) : sleeps (t ++ u) = sleeps t + sleeps u := by
  simp [sleeps, List.countP_append]

theorem polls_pollCycles (a : OpArgs) (k : Nat) : polls (pollCycles a k) = k := by
  induction k with
  | zero => rfl
  | succ k ih =>
      have h : pollCycles a (k + 1) =
          [pollEvent a, .usleep STATUS_POLL_INTERVL_USEC] ++ pollCycles a k := rfl
      rw [h, polls_append, ih]
      simp [polls, pollEvent, isPoll, List.countP_cons]
      omega

theorem sleeps_pollCycles (a : OpArgs) (k : Nat) : sleeps (pollCycles a k) = k := by
  induction k with
  | zero => rfl
  | succ k ih =>
      have h : pollCycles a (k + 1) =
          [pollEvent a, .usleep STATUS_POLL_INTERVL_USEC] ++ pollCycles a k := rfl
      rw [h, sleeps_append, ih]
      simp [sleeps, pollEvent, isSleep, List.countP_cons]
      omega

theorem getLldpadPid_nDump (env : Env) (s : St) : (getLldpadPid env s).2.nDump = s.nDump := by
  unfold getLldpadPid
  simp only [St.log]
  split <;> rfl

theorem getLldpadPid_grows (env : Env) (s : St) :
    Grows (fun e => emitsSetLink e = true) s.trace (getLldpadPid env s).2.trace := by
  unfold getLldpadPid
  simp only [St.log]
  split <;> repeat (first | exact Grows.refl _ _ | apply Grows.snoc | rfl)

theorem doPortProfileOpSetLink_nDump (env : Env) (a : OpArgs) (s : St) :
    (doPortProfileOpSetLink env a s).2.nDump = s.nDump := by
  unfold doPortProfileOpSetLink
  simp only [St.log]
  split_ifs <;> simp [getLldpadPid_nDump]

theorem doPortProfileOpSetLink_grows (env : Env) (a : OpArgs) (s : St) :
    Grows (fun e => emitsSetLink e = true) s.trace (doPortProfileOpSetLink env a s).2.trace := by
  have h := getLldpadPid_grows env { s with nAlloc := s.nAlloc + 1 }
  unfold doPortProfileOpSetLink
  simp only [St.log]
  split_ifs <;>
    repeat (first | exact Grows.refl _ _ | exact h | apply Grows.snoc | rfl)

theorem doPortProfileOpSetLink_polls (env : Env) (a : OpArgs) (s : St) :
    polls (doPortProfileOpSetLink env a s).2.trace = polls s.trace :=
  (doPortProfileOpSetLink_grows env a s).countP_eq isPoll
    (by intro e he; cases e <;> simp_all [emitsSetLink, isPoll])

theorem doPortProfileOpSetLink_sleeps (env : Env) (a : OpArgs) (s : St) :
    sleeps (doPortProfileOpSetLink env a s).2.trace = sleeps s.trace :=
  (doPortProfileOpSetLink_grows env a s).countP_eq isSleep
    (by intro e he; cases e <;> simp_all [emitsSetLink, isSleep])

theorem St.cycled_zero (s : St) (a : OpArgs) : s.cycled a 0 = s := by
  simp [St.cycled, pollCycles]

theorem St.cycled_succ (s : St) (a : OpArgs) (k : Nat) :
    (s.cycled a 1).cycled a k = s.cycled a (k + 1) := by
  simp [St.cycled, pollCycles, Nat.add_assoc, Nat.add_comm 1 k]

/-- One poll that reports in-progress: sleep and go on with one iteration less. -/
theorem pollLoop_inprogress (env : Env) (a : OpArgs) (n : Nat) (rc : Int) (st : Nat) (s : St)
    (h : pollYields env a s.nDump PORT_PROFILE_RESPONSE_INPROGRESS) :
    pollLoop env a a.profileId.isNone (n + 1) rc st s =
      pollLoop env a a.profileId.isNone n 0 PORT_PROFILE_RESPONSE_INPROGRESS (s.cycled a 1) := by
  obtain ⟨h1, h2⟩ := h
  rw [pollLoop]
  simp only [h1, h2, ne_eq, not_true_eq_false, if_false, Option.getD_some]
  have e1 : ¬ (PORT_PROFILE_RESPONSE_INPROGRESS = PORT_PROFILE_RESPONSE_SUCCESS ∨
      PORT_PROFILE_RESPONSE_INPROGRESS = PORT_VDP_RESPONSE_SUCCESS) := by decide
  simp only [e1, if_false, if_true]
  congr 1
  simp [St.cycled, St.log, pollCycles, pollEvent]

/-- One poll that reports a success status ends the loop with 0. -/
theorem pollLoop_success (env : Env) (a : OpArgs) (n : Nat) (rc : Int) (st v : Nat) (s : St)
    (h : pollYields env a s.nDump v)
    (hv : v = PORT_PROFILE_RESPONSE_SUCCESS ∨ v = PORT_VDP_RESPONSE_SUCCESS) :
    pollLoop env a a.profileId.isNone (n + 1) rc st s = (0, s.polled a) := by
  obtain ⟨h1, h2⟩ := h
  rw [pollLoop]
  simp only [h1, h2, ne_eq, not_true_eq_false, if_false, Option.getD_some, hv, if_true]
  have e1 : afterPoll 0 v = 0 := by
    rcases hv with hv | hv <;> subst hv <;> decide
  rw [e1]
  rfl

/-- One poll that reports any other status ends the loop with 1. -/
theorem pollLoop_failure (env : Env) (a : OpArgs) (n : Nat) (rc : Int) (st v : Nat) (s : St)
    (h : pollYields env a s.nDump v)
    (h1 : v ≠ PORT_PROFILE_RESPONSE_SUCCESS) (h2 : v ≠ PORT_VDP_RESPONSE_SUCCESS)
    (h3 : v ≠ PORT_PROFILE_RESPONSE_INPROGRESS) :
    pollLoop env a a.profileId.isNone (n + 1) rc st s = (1, s.polled a) := by
  obtain ⟨g1, g2⟩ := h
  rw [pollLoop]
  simp only [g1, g2, ne_eq, not_true_eq_false, if_false, Option.getD_some, h1, h2, h3,
    or_self, afterPoll]
  rfl

/-- Leading in-progress polls are consumed one cycle each. -/
theorem pollLoop_cycles (env : Env) (a : OpArgs) (k : Nat) :
    ∀ (m : Nat) (rc : Int) (st : Nat) (s : St), k ≤ m →
      (∀ i, i < k → pollYields env a (s.nDump + i) PORT_PROFILE_RESPONSE_INPROGRESS) →
      ∃ rc1 st1, (0 < k → st1 = PORT_PROFILE_RESPONSE_INPROGRESS) ∧ (k = 0 → st1 = st) ∧
        pollLoop env a a.profileId.isNone m rc st s =
          pollLoop env a a.profileId.isNone (m - k) rc1 st1 (s.cycled a k) := by
  induction k with
  | zero =>
      intro m rc st s _ _
      exact ⟨rc, st, by simp, by simp, by simp [St.cycled_zero]⟩
  | succ k ih =>
      intro m rc st s hm hp
      obtain ⟨m, rfl⟩ : ∃ m1, m = m1 + 1 := ⟨m - 1, by omega⟩
      have h0 : pollYields env a s.nDump PORT_PROFILE_RESPONSE_INPROGRESS := by
        simpa using hp 0 (by omega)
      rw [pollLoop_inprogress env a m rc st s h0]
      have hp1 : ∀ i, i < k →
          pollYields env a ((s.cycled a 1).nDump + i) PORT_PROFILE_RESPONSE_INPROGRESS := by
        intro i hi
        have := hp (i + 1) (by omega)
        simpa [St.cycled, Nat.add_assoc, Nat.add_comm 1 i] using this
      obtain ⟨rc1, st1, hs1, hs0, heq⟩ :=
        ih m 0 PORT_PROFILE_RESPONSE_INPROGRESS (s.cycled a 1) (by omega) hp1
      refine ⟨rc1, st1, ?_, by simp, ?_⟩
      · intro _
        rcases Nat.eq_zero_or_pos k with hk | hk
        · exact hs0 hk
        · exact hs1 hk
      · rw [heq, St.cycled_succ]
        congr 1
        omega

theorem doPortProfileOpCommon_sent (env : Env) (a : OpArgs) (s : St)
    (hsent : (doPortProfileOpSetLink env a s).1 = 0) :
    doPortProfileOpCommon env a s =
      pollLoop env a a.profileId.isNone 80 0 0 (doPortProfileOpSetLink env a s).2 := by
  unfold doPortProfileOpCommon
  simp only [hsent, ne_eq, not_true_eq_false, if_false]
  rfl

theorem pollLoop_terminal_trace (t : List Event) (a : OpArgs) (k : Nat) :
    polls (t ++ pollCycles a k ++ [pollEvent a]) = polls t + (k + 1) ∧
    sleeps (t ++ pollCycles a k ++ [pollEvent a]) = sleeps t + k := by
  rw [polls_append, polls_append, sleeps_append, sleeps_append, polls_pollCycles,
    sleeps_pollCycles]
  constructor
  · have : polls [pollEvent a] = 1 := rfl
    omega
  · have : sleeps [pollEvent a] = 0 := rfl
    omega

theorem getPortProfileStatus_ok (tb : LinkTb) (vf : Int) (iid : Option (List Nat))
    (k q : Bool) (h : (getPortProfileStatus tb vf iid k q).1 = 0) :
    ∃ v, getPortProfileStatus tb vf iid k q = (0, some v) := by
  unfold getPortProfileStatus at h ⊢
  cases hl : locatePort tb vf iid k with
  | error m => simp [hl] at h
  | ok tbp =>
      simp only [hl] at h ⊢
      unfold statusOfPort at h ⊢
      cases hr : tbp.IFLA_PORT_RESPONSE with
      | some v => exact ⟨v, rfl⟩
      | none =>
          cases q with
          | true => exact ⟨_, rfl⟩
          | false => simp [hr] at h

theorem pollLoop_nDump_le (env : Env) (a : OpArgs) (q : Bool) (n : Nat) :
    ∀ (rc : Int) (st : Nat) (s : St), s.nDump ≤ (pollLoop env a q n rc st s).2.nDump := by
  induction n with
  | zero => intro rc st s; simp [pollLoop]
  | succ n ih =>
      intro rc st s
      rw [pollLoop]
      simp only [St.log]
      split_ifs
      · simp
      · simp
      · simp
      · refine le_trans ?_ (ih _ _ _)
        simp
      · simp

theorem pollLoop_nDump_lt (env : Env) (a : OpArgs) (q : Bool) (n : Nat)
    (rc : Int) (st : Nat) (s : St) :
    s.nDump + 1 ≤ (pollLoop env a q (n + 1) rc st s).2.nDump := by
  rw [pollLoop]
  simp only [St.log]
  split_ifs
  · simp
  · simp
  · simp
  · refine le_trans ?_ (pollLoop_nDump_le env a q n _ _ _)
    simp
  · simp

/-- The loop performs at most as many polls and sleeps as it has iterations. -/
theorem pollLoop_bound (env : Env) (a : OpArgs) (q : Bool) (n : Nat) :
    ∀ (rc : Int) (st : Nat) (s : St),
      polls (pollLoop env a q n rc st s).2.trace ≤ polls s.trace + n ∧
      sleeps (pollLoop env a q n rc st s).2.trace ≤ sleeps s.trace + n := by
  induction n with
  | zero => intro rc st s; simp [pollLoop]
  | succ n ih =>
      intro rc st s
      have hp : polls (s.trace ++ [Event.ifaceMacvtapLinkDump a.nltarget_kernel a.ifindex]) =
          polls s.trace + 1 := by rw [polls_append]; rfl
      have hs : sleeps (s.trace ++ [Event.ifaceMacvtapLinkDump a.nltarget_kernel a.ifindex]) =
          sleeps s.trace := by rw [sleeps_append]; rfl
      rw [pollLoop]
      simp only [St.log]
      split_ifs
      · simp only [hp, hs]; omega
      · simp only [hp, hs]; omega
      · simp only [hp, hs]; omega
      · have e1 : polls [Event.usleep STATUS_POLL_INTERVL_USEC] = 0 := rfl
        have e2 : sleeps [Event.usleep STATUS_POLL_INTERVL_USEC] = 1 := rfl
        refine ⟨le_trans (ih _ _ _).1 ?_, le_trans (ih _ _ _).2 ?_⟩
        · show polls (s.trace ++ [_] ++ [_]) + n ≤ _
          rw [polls_append, hp, e1]; omega
        · show sleeps (s.trace ++ [_] ++ [_]) + n ≤ _
          rw [sleeps_append, hs, e2]; omega
      · simp only [hp, hs]; omega

/-- After k polls that report in-progress, a poll with a terminal status ends
the negotiation at once. -/
theorem doPortProfileOpCommon_terminal (env : Env) (a : OpArgs) (s : St) (k : Nat) (r : Int)
    (hk : k < 80)
    (hsent : (doPortProfileOpSetLink env a s).1 = 0)
    (hprog : ∀ i, i < k → pollYields env a (s.nDump + i) PORT_PROFILE_RESPONSE_INPROGRESS)
    (hstep : ∀ (n : Nat) (rc : Int) (st : Nat),
      pollLoop env a a.profileId.isNone (n + 1) rc st
          ((doPortProfileOpSetLink env a s).2.cycled a k) =
        (r, ((doPortProfileOpSetLink env a s).2.cycled a k).polled a)) :
    (doPortProfileOpCommon env a s).1 = r ∧
    (doPortProfileOpCommon env a s).2.trace =
      (doPortProfileOpSetLink env a s).2.trace ++ pollCycles a k ++ [pollEvent a] ∧
    polls (doPortProfileOpCommon env a s).2.trace = polls s.trace + (k + 1) ∧
    sleeps (doPortProfileOpCommon env a s).2.trace = sleeps s.trace + k := by
  have hd := doPortProfileOpSetLink_nDump env a s
  obtain ⟨rc1, st1, -, -, heq⟩ := pollLoop_cycles env a k 80 0 0
    (doPortProfileOpSetLink env a s).2 (by omega) (by rw [hd]; exact hprog)
  obtain ⟨n, hn⟩ : ∃ n, 80 - k = n + 1 := ⟨80 - k - 1, by omega⟩
  rw [hn, hstep n rc1 st1] at heq
  rw [doPortProfileOpCommon_sent env a s hsent, heq]
  have ht : (((doPortProfileOpSetLink env a s).2.cycled a k).polled a).trace =
      (doPortProfileOpSetLink env a s).2.trace ++ pollCycles a k ++ [pollEvent a] := rfl
  have hc := pollLoop_terminal_trace (doPortProfileOpSetLink env a s).2.trace a k
  rw [doPortProfileOpSetLink_polls, doPortProfileOpSetLink_sleeps] at hc
  exact ⟨rfl, ht, by rw [ht]; exact hc.1, by rw [ht]; exact hc.2⟩

/-- C1: in doPortProfileOpCommon, for every k below 80, if the request is sent
successfully, the first k status polls yield in-progress and poll k+1 yields
PORT_PROFILE_RESPONSE_SUCCESS or PORT_VDP_RESPONSE_SUCCESS, then the result is
0, the events after the request are exactly k cycles of link dump and sleep of
one poll interval followed by one link dump, so that k+1 polls and k sleeps
were performed. -/
theorem doPortProfileOpCommon_success_after_inprogress (env : Env) (a : OpArgs) (s : St)
    (k : Nat) (hk : k < 80)
    (hsent : (doPortProfileOpSetLink env a s).1 = 0)
    (hprog : ∀ i, i < k → pollYields env a (s.nDump + i) PORT_PROFILE_RESPONSE_INPROGRESS)
    (hsucc : pollYields env a (s.nDump + k) PORT_PROFILE_RESPONSE_SUCCESS ∨
      pollYields env a (s.nDump + k) PORT_VDP_RESPONSE_SUCCESS) :
    (doPortProfileOpCommon env a s).1 = 0 ∧
    (doPortProfileOpCommon env a s).2.trace =
      (doPortProfileOpSetLink env a s).2.trace ++ pollCycles a k ++ [pollEvent a] ∧
    polls (doPortProfileOpCommon env a s).2.trace = polls s.trace + (k + 1) ∧
    sleeps (doPortProfileOpCommon env a s).2.trace = sleeps s.trace + k := by
  apply doPortProfileOpCommon_terminal env a s k 0 hk hsent hprog
  intro n rc st
  have hd : ((doPortProfileOpSetLink env a s).2.cycled a k).nDump = s.nDump + k := by
    simp [St.cycled, doPortProfileOpSetLink_nDump]
  rcases hsucc with h | h
  · exact pollLoop_success env a n rc st _ _ (by rw [hd]; exact h) (Or.inl rfl)
  · exact pollLoop_success env a n rc st _ _ (by rw [hd]; exact h) (Or.inr rfl)

/-- Witness of C1: the scenario of the specification, three polls in progress
and the fourth successful, under protocol A. -/
theorem doPortProfileOpCommon_success_after_inprogress_witness :
    (doPortProfileOpCommon (envThreeThen PORT_PROFILE_RESPONSE_SUCCESS) qbgAssociateArgs
        St.init).1 = 0 ∧
    (doPortProfileOpCommon (envThreeThen PORT_PROFILE_RESPONSE_SUCCESS) qbgAssociateArgs
        St.init).2.trace =
      (doPortProfileOpSetLink (envThreeThen PORT_PROFILE_RESPONSE_SUCCESS) qbgAssociateArgs
        St.init).2.trace ++ pollCycles qbgAssociateArgs 3 ++ [pollEvent qbgAssociateArgs] ∧
    polls (doPortProfileOpCommon (envThreeThen PORT_PROFILE_RESPONSE_SUCCESS)
        qbgAssociateArgs St.init).2.trace = polls St.init.trace + (3 + 1) ∧
    sleeps (doPortProfileOpCommon (envThreeThen PORT_PROFILE_RESPONSE_SUCCESS)
        qbgAssociateArgs St.init).2.trace = sleeps St.init.trace + 3 :=
  doPortProfileOpCommon_success_after_inprogress (envThreeThen PORT_PROFILE_RESPONSE_SUCCESS)
    qbgAssociateArgs St.init 3 (by decide) (by decide)
    (by intro i hi; interval_cases i <;> exact ⟨rfl, rfl⟩)
    (Or.inl ⟨rfl, rfl⟩)

/-- C3: in doPortProfileOpCommon the first poll whose status is neither a
success code nor in-progress (poll k+1 after k polls in progress, the only
course on which a later poll is reached) ends the negotiation: the link dump of
that poll is the last event, so no further poll and no further sleep is
performed, and the result is 1, which is neither 0 nor the timeout value
-ETIMEDOUT. -/
theorem doPortProfileOpCommon_failure_status_stops (env : Env) (a : OpArgs) (s : St)
    (k v : Nat) (hk : k < 80)
    (hsent : (doPortProfileOpSetLink env a s).1 = 0)
    (hprog : ∀ i, i < k → pollYields env a (s.nDump + i) PORT_PROFILE_RESPONSE_INPROGRESS)
    (hfail : pollYields env a (s.nDump + k) v)
    (h1 : v ≠ PORT_PROFILE_RESPONSE_SUCCESS) (h2 : v ≠ PORT_VDP_RESPONSE_SUCCESS)
    (h3 : v ≠ PORT_PROFILE_RESPONSE_INPROGRESS) :
    ((doPortProfileOpCommon env a s).1 = 1 ∧
      (doPortProfileOpCommon env a s).1 ≠ 0 ∧
      (doPortProfileOpCommon env a s).1 ≠ -ETIMEDOUT) ∧
    (doPortProfileOpCommon env a s).2.trace =
      (doPortProfileOpSetLink env a s).2.trace ++ pollCycles a k ++ [pollEvent a] ∧
    polls (doPortProfileOpCommon env a s).2.trace = polls s.trace + (k + 1) ∧
    sleeps (doPortProfileOpCommon env a s).2.trace = sleeps s.trace + k := by
  have hd : ((doPortProfileOpSetLink env a s).2.cycled a k).nDump = s.nDump + k := by
    simp [St.cycled, doPortProfileOpSetLink_nDump]
  obtain ⟨hr, ht, hp, hs⟩ := doPortProfileOpCommon_terminal env a s k 1 hk hsent hprog
    (fun n rc st => pollLoop_failure env a n rc st v _ (by rw [hd]; exact hfail) h1 h2 h3)
  refine ⟨⟨hr, ?_, ?_⟩, ht, hp, hs⟩
  · rw [hr]; decide
  · rw [hr]; decide

/-- Witness of C3: three polls in progress, then the status 258
(PORT_PROFILE_RESPONSE_INVALID). -/
theorem doPortProfileOpCommon_failure_status_stops_witness :
    ((doPortProfileOpCommon (envThreeThen 258) qbgAssociateArgs St.init).1 = 1 ∧
      (doPortProfileOpCommon (envThreeThen 258) qbgAssociateArgs St.init).1 ≠ 0 ∧
      (doPortProfileOpCommon (envThreeThen 258) qbgAssociateArgs St.init).1 ≠ -ETIMEDOUT) ∧
    (doPortProfileOpCommon (envThreeThen 258) qbgAssociateArgs St.init).2.trace =
      (doPortProfileOpSetLink (envThreeThen 258) qbgAssociateArgs St.init).2.trace ++
        pollCycles qbgAssociateArgs 3 ++ [pollEvent qbgAssociateArgs] ∧
    polls (doPortProfileOpCommon (envThreeThen 258) qbgAssociateArgs St.init).2.trace =
      polls St.init.trace + (3 + 1) ∧
    sleeps (doPortProfileOpCommon (envThreeThen 258) qbgAssociateArgs St.init).2.trace =
      sleeps St.init.trace + 3 :=
  doPortProfileOpCommon_failure_status_stops (envThreeThen 258) qbgAssociateArgs St.init 3 258
    (by decide) (by decide)
    (by intro i hi; interval_cases i <;> exact ⟨rfl, rfl⟩)
    ⟨rfl, rfl⟩ (by decide) (by decide) (by decide)

theorem pollYields_unique (env : Env) (a : OpArgs) (n v w : Nat)
    (hv : pollYields env a n v) (hw : pollYields env a n w) : v = w := by
  have h := hv.2.symm.trans hw.2
  simpa using h

theorem pollLoop_timeout_iff (env : Env) (a : OpArgs) (n : Nat) :
    ∀ (rc : Int) (st : Nat) (s : St),
      (∀ i, s.nDump + i < (pollLoop env a a.profileId.isNone (n + 1) rc st s).2.nDump →
        pollOk env a (s.nDump + i)) →
      ((pollLoop env a a.profileId.isNone (n + 1) rc st s).1 = -ETIMEDOUT ↔
        ∀ i, i < n + 1 → pollYields env a (s.nDump + i) PORT_PROFILE_RESPONSE_INPROGRESS) := by
  induction n with
  | zero =>
      intro rc st s hok
      have h0 := hok 0 (by have := pollLoop_nDump_lt env a a.profileId.isNone 0 rc st s; omega)
      obtain ⟨v, hv⟩ := getPortProfileStatus_ok _ _ _ _ _ h0.2
      have hy : pollYields env a s.nDump v := ⟨h0.1, hv⟩
      by_cases hp : v = PORT_PROFILE_RESPONSE_INPROGRESS
      · subst hp
        rw [pollLoop_inprogress env a 0 rc st s hy]
        constructor
        · intro _ i hi
          obtain rfl : i = 0 := by omega
          exact hy
        · intro _
          simp [pollLoop, afterPoll]
      · have hne : ¬ ∀ i, i < 0 + 1 →
            pollYields env a (s.nDump + i) PORT_PROFILE_RESPONSE_INPROGRESS := by
          intro hall
          exact hp (pollYields_unique env a _ _ _ hy (hall 0 (by omega)))
        by_cases hs : v = PORT_PROFILE_RESPONSE_SUCCESS ∨ v = PORT_VDP_RESPONSE_SUCCESS
        · rw [pollLoop_success env a 0 rc st v s hy hs]
          simp only [hne, iff_false]
          decide
        · rw [pollLoop_failure env a 0 rc st v s hy (fun h => hs (Or.inl h))
            (fun h => hs (Or.inr h)) hp]
          simp only [hne, iff_false]
          decide
  | succ n ih =>
      intro rc st s hok
      have h0 := hok 0
        (by have := pollLoop_nDump_lt env a a.profileId.isNone (n + 1) rc st s; omega)
      obtain ⟨v, hv⟩ := getPortProfileStatus_ok _ _ _ _ _ h0.2
      have hy : pollYields env a s.nDump v := ⟨h0.1, hv⟩
      by_cases hp : v = PORT_PROFILE_RESPONSE_INPROGRESS
      · subst hp
        rw [pollLoop_inprogress env a (n + 1) rc st s hy] at hok ⊢
        have hd : (s.cycled a 1).nDump = s.nDump + 1 := rfl
        rw [ih 0 PORT_PROFILE_RESPONSE_INPROGRESS (s.cycled a 1)
          (by intro i hi
              rw [hd] at hi ⊢
              have := hok (1 + i) (by omega)
              rwa [Nat.add_assoc])]
        rw [hd]
        constructor
        · intro hall i hi
          rcases Nat.eq_zero_or_pos i with h | h
          · subst h; exact hy
          · have := hall (i - 1) (by omega)
            have e : s.nDump + 1 + (i - 1) = s.nDump + i := by omega
            rwa [e] at this
        · intro hall i hi
          have := hall (i + 1) (by omega)
          have e : s.nDump + (i + 1) = s.nDump + 1 + i := by omega
          rwa [e] at this
      · have hne : ¬ ∀ i, i < n + 1 + 1 →
            pollYields env a (s.nDump + i) PORT_PROFILE_RESPONSE_INPROGRESS := by
          intro hall
          exact hp (pollYields_unique env a _ _ _ hy (hall 0 (by omega)))
        by_cases hs : v = PORT_PROFILE_RESPONSE_SUCCESS ∨ v = PORT_VDP_RESPONSE_SUCCESS
        · rw [pollLoop_success env a (n + 1) rc st v s hy hs]
          simp only [hne, iff_false]
          decide
        · rw [pollLoop_failure env a (n + 1) rc st v s hy (fun h => hs (Or.inl h))
            (fun h => hs (Or.inr h)) hp]
          simp only [hne, iff_false]
          decide

/-- C2: doPortProfileOpCommon has 80 iterations (10 s timeout / 125 ms
interval); for every environment it performs at most 80 status polls and at
most 80 sleeps; and when the request was sent and every poll it performed was
parsed without error, it returns -ETIMEDOUT exactly when all 80 polls reported
in-progress. -/
theorem doPortProfileOpCommon_poll_bound_and_timeout (env : Env) (a : OpArgs) (s : St) :
    (STATUS_POLL_TIMEOUT_USEC = 10000000 ∧ STATUS_POLL_INTERVL_USEC = 125000 ∧
      STATUS_POLL_TIMEOUT_USEC / STATUS_POLL_INTERVL_USEC = 80) ∧
    (polls (doPortProfileOpCommon env a s).2.trace ≤ polls s.trace + 80 ∧
      sleeps (doPortProfileOpCommon env a s).2.trace ≤ sleeps s.trace + 80) ∧
    ((doPortProfileOpSetLink env a s).1 = 0 →
      (∀ i, s.nDump + i < (doPortProfileOpCommon env a s).2.nDump →
        pollOk env a (s.nDump + i)) →
      ((doPortProfileOpCommon env a s).1 = -ETIMEDOUT ↔
        ∀ i, i < 80 → pollYields env a (s.nDump + i) PORT_PROFILE_RESPONSE_INPROGRESS)) := by
  refine ⟨⟨rfl, rfl, rfl⟩, ?_, ?_⟩
  · by_cases hsent : (doPortProfileOpSetLink env a s).1 = 0
    · rw [doPortProfileOpCommon_sent env a s hsent]
      have h := pollLoop_bound env a a.profileId.isNone 80 0 0 (doPortProfileOpSetLink env a s).2
      rw [doPortProfileOpSetLink_polls, doPortProfileOpSetLink_sleeps] at h
      exact h
    · have e : doPortProfileOpCommon env a s = doPortProfileOpSetLink env a s := by
        unfold doPortProfileOpCommon
        simp [hsent]
      rw [e, doPortProfileOpSetLink_polls, doPortProfileOpSetLink_sleeps]
      omega
  · intro hsent hok
    rw [doPortProfileOpCommon_sent env a s hsent] at hok ⊢
    have hd := doPortProfileOpSetLink_nDump env a s
    have h := pollLoop_timeout_iff env a 79 0 0 (doPortProfileOpSetLink env a s).2
      (by rw [hd]; exact hok)
    rw [hd] at h
    exact h

/-- Witness of C2: when every link dump reports in-progress the negotiation
ends with -ETIMEDOUT. -/
theorem doPortProfileOpCommon_poll_bound_and_timeout_witness :
    (doPortProfileOpCommon envInProgress qbgAssociateArgs St.init).1 = -ETIMEDOUT :=
  ((doPortProfileOpCommon_poll_bound_and_timeout envInProgress qbgAssociateArgs St.init).2.2
    (by decide) (fun _ _ => ⟨rfl, rfl⟩)).mpr (fun _ _ => ⟨rfl, rfl⟩)

/-- C4: once locatePort has located the port block, getPortProfileStatus
returns 0 and the value of the status attribute when one is present, whatever
the flag; when the attribute is absent it returns 0 with the status in-progress
if is8021Qbg is set, and returns a non-zero value without writing a status if
the flag is not set, so that the two flags give different results on the same
response. -/
theorem getPortProfileStatus_located (tb : LinkTb) (vf : Int) (instanceId : Option (List Nat))
    (nltarget_kernel : Bool) (tb_port : PortTb)
    (hloc : locatePort tb vf instanceId nltarget_kernel = .ok tb_port) :
    (∀ v q, tb_port.IFLA_PORT_RESPONSE = some v →
      getPortProfileStatus tb vf instanceId nltarget_kernel q = (0, some v)) ∧
    (tb_port.IFLA_PORT_RESPONSE = none →
      getPortProfileStatus tb vf instanceId nltarget_kernel true =
        (0, some PORT_PROFILE_RESPONSE_INPROGRESS) ∧
      (getPortProfileStatus tb vf instanceId nltarget_kernel false).1 ≠ 0 ∧
      (getPortProfileStatus tb vf instanceId nltarget_kernel false).2 = none ∧
      getPortProfileStatus tb vf instanceId nltarget_kernel true ≠
        getPortProfileStatus tb vf instanceId nltarget_kernel false) := by
  constructor
  · intro v q hv
    simp [getPortProfileStatus, hloc, statusOfPort, hv]
  · intro hv
    simp [getPortProfileStatus, hloc, statusOfPort, hv]

/-- Witness of C4: a self port block without status attribute. -/
theorem getPortProfileStatus_located_witness :
    getPortProfileStatus (tbSelf none) PORT_SELF_VF none true true =
        (0, some PORT_PROFILE_RESPONSE_INPROGRESS) ∧
      (getPortProfileStatus (tbSelf none) PORT_SELF_VF none true false).1 ≠ 0 ∧
      (getPortProfileStatus (tbSelf none) PORT_SELF_VF none true false).2 = none ∧
      getPortProfileStatus (tbSelf none) PORT_SELF_VF none true true ≠
        getPortProfileStatus (tbSelf none) PORT_SELF_VF none true false :=
  (getPortProfileStatus_located (tbSelf none) PORT_SELF_VF none true ⟨none, none, none⟩
    rfl).2 rfl

set_option maxRecDepth 100000 in
/-- C5, the code at the failing input: the device is not a virtual function and
every link dump carries a self port block without status attribute.  The
802.1Qbh associate and preassociate-with-reassociation negotiations fail with 1
after one poll; the 802.1Qbh disassociate negotiation treats the absence as
in-progress, polls 80 times and ends with -ETIMEDOUT. -/
theorem doPortProfileOp8021Qbh_missing_status :
    ((doPortProfileOp8021Qbh envSelfNoStatus "eth0" (some sampleMac) qbhProfile
        (some sampleUuid) .ASSOCIATE St.init).1 = 1 ∧
      polls (doPortProfileOp8021Qbh envSelfNoStatus "eth0" (some sampleMac) qbhProfile
        (some sampleUuid) .ASSOCIATE St.init).2.trace = 1) ∧
    ((doPortProfileOp8021Qbh envSelfNoStatus "eth0" (some sampleMac) qbhProfile
        (some sampleUuid) .PREASSOCIATE_RR St.init).1 = 1 ∧
      polls (doPortProfileOp8021Qbh envSelfNoStatus "eth0" (some sampleMac) qbhProfile
        (some sampleUuid) .PREASSOCIATE_RR St.init).2.trace = 1) ∧
    ((doPortProfileOp8021Qbh envSelfNoStatus "eth0" (some sampleMac) qbhProfile
        none .DISASSOCIATE St.init).1 = -ETIMEDOUT ∧
      polls (doPortProfileOp8021Qbh envSelfNoStatus "eth0" (some sampleMac) qbhProfile
        none .DISASSOCIATE St.init).2.trace = 80 ∧
      sleeps (doPortProfileOp8021Qbh envSelfNoStatus "eth0" (some sampleMac) qbhProfile
        none .DISASSOCIATE St.init).2.trace = 80) := by
  decide

theorem pollLoop_grows (env : Env) (a : OpArgs) (q : Bool) (n : Nat) :
    ∀ (rc : Int) (st : Nat) (s : St),
      Grows (fun e => emitsCommon e = true) s.trace (pollLoop env a q n rc st s).2.trace := by
  induction n with
  | zero => intro rc st s; exact Grows.refl _ _
  | succ n ih =>
      intro rc st s
      rw [pollLoop]
      simp only [St.log]
      split_ifs <;>
        first
        | (refine Grows.trans ?_ (ih _ _ _)
           repeat (first | exact Grows.refl _ _ | apply Grows.snoc | rfl))
        | (repeat (first | exact Grows.refl _ _ | apply Grows.snoc | rfl))

theorem doPortProfileOpCommon_grows (env : Env) (a : OpArgs) (s : St) :
    Grows (fun e => emitsCommon e = true) s.trace (doPortProfileOpCommon env a s).2.trace := by
  have h : Grows (fun e => emitsCommon e = true) s.trace
      (doPortProfileOpSetLink env a s).2.trace :=
    (doPortProfileOpSetLink_grows env a s).mono (by intro e he; simp [emitsCommon, he])
  unfold doPortProfileOpCommon
  simp only
  split_ifs
  · exact h
  · exact h.trans (pollLoop_grows env a _ _ _ _ _)

theorem doPortProfileOpCommon_grows_port (env : Env) (a : OpArgs) (s : St) :
    Grows (fun e => emitsPort e = true) s.trace (doPortProfileOpCommon env a s).2.trace :=
  (doPortProfileOpCommon_grows env a s).mono (by intro e he; simp [emitsPort, he])

end Negotiator

section Protocols

theorem getPhysdevAndVlanLoop_grows (env : Env) (fuel : Nat) :
    ∀ (ifindex : Int) (ifname : Option String) (ri : Int) (rn : String) (vlanid : Int)
      (s : St) (r : PhysdevVlan × St),
      getPhysdevAndVlanLoop env fuel ifindex ifname ri rn vlanid s = some r →
      Grows (fun e => emitsPort e = true) s.trace r.2.trace := by
  induction fuel with
  | zero => intro ifindex ifname ri rn vlanid s r h; simp [getPhysdevAndVlanLoop] at h
  | succ fuel ih =>
      intro ifindex ifname ri rn vlanid s r h
      rw [getPhysdevAndVlanLoop] at h
      simp only [St.log] at h
      split_ifs at h <;>
        first
        | (refine Grows.trans ?_ (ih _ _ _ _ _ _ _ h)
           repeat (first | exact Grows.refl _ _ | apply Grows.snoc | rfl))
        | (cases h
           repeat (first | exact Grows.refl _ _ | apply Grows.snoc | rfl))

theorem getPhysdevAndVlanLoop_returns (env : Env) (j : Nat) :
    ∀ (fuel : Nat) (ifindex : Int) (ifname : Option String) (ri : Int) (rn : String)
      (vlanid : Int) (s : St), j < fuel →
      (∀ ix nm ri rn, (env.ifaceGetNthParent (s.nParent + j) ix nm ri rn).ret ≠ 0 ∨
        (env.ifaceGetNthParent (s.nParent + j) ix nm ri rn).nth = 0) →
      ∃ r, getPhysdevAndVlanLoop env fuel ifindex ifname ri rn vlanid s = some r := by
  induction j with
  | zero =>
      intro fuel ifindex ifname ri rn vlanid s hf hstop
      obtain ⟨f, rfl⟩ : ∃ f, fuel = f + 1 := ⟨fuel - 1, by omega⟩
      rw [getPhysdevAndVlanLoop]
      simp only
      rcases hstop ifindex ifname ri rn with h | h
      · simp only [Nat.add_zero] at h
        rw [if_pos h]
        exact ⟨_, rfl⟩
      · simp only [Nat.add_zero] at h
        split_ifs
        · exact ⟨_, rfl⟩
        · exact ⟨_, rfl⟩
  | succ j ih =>
      intro fuel ifindex ifname ri rn vlanid s hf hstop
      obtain ⟨f, rfl⟩ : ∃ f, fuel = f + 1 := ⟨fuel - 1, by omega⟩
      rw [getPhysdevAndVlanLoop]
      simp only
      have hs : ∀ (s2 : St), s2.nParent = s.nParent + 1 →
          ∀ ix nm ri rn, (env.ifaceGetNthParent (s2.nParent + j) ix nm ri rn).ret ≠ 0 ∨
            (env.ifaceGetNthParent (s2.nParent + j) ix nm ri rn).nth = 0 := by
        intro s2 h2 ix nm ri rn
        have := hstop ix nm ri rn
        rw [h2]
        rwa [show s.nParent + (j + 1) = s.nParent + 1 + j by omega] at this
      split_ifs <;>
        first
        | exact ⟨_, rfl⟩
        | exact ih f _ _ _ _ _ _ (by omega) (hs _ rfl)

theorem doPortProfileOp8021Qbg_returns (env : Env) (fuel : Nat) (ifname : String)
    (macaddr : Option (List Nat)) (vp : virVirtualPortProfileParams)
    (op : virVirtualPortOp) (s : St) (hw : walkEndsWithin env fuel) :
    ∃ r, doPortProfileOp8021Qbg env fuel ifname macaddr vp op s = some r := by
  obtain ⟨j, hj, hstop⟩ := hw s.nParent
  obtain ⟨w, hw2⟩ := getPhysdevAndVlanLoop_returns env j fuel (-1) (some ifname) 0 "" (-1) s
    hj hstop
  unfold doPortProfileOp8021Qbg getPhysdevAndVlan
  simp only [hw2]
  by_cases hret : w.1.ret ≠ 0
  · rw [if_pos hret]; exact ⟨_, rfl⟩
  · rw [if_neg hret]
    cases op <;> exact ⟨_, rfl⟩

theorem doPortProfileOp8021Qbg_grows (env : Env) (fuel : Nat) (ifname : String)
    (macaddr : Option (List Nat)) (vp : virVirtualPortProfileParams)
    (op : virVirtualPortOp) (s : St) (r : Int × St)
    (h : doPortProfileOp8021Qbg env fuel ifname macaddr vp op s = some r) :
    Grows (fun e => emitsPort e = true) s.trace r.2.trace := by
  unfold doPortProfileOp8021Qbg getPhysdevAndVlan at h
  cases hw : getPhysdevAndVlanLoop env fuel (-1) (some ifname) 0 "" (-1) s with
  | none => simp [hw] at h
  | some w =>
      have hg := getPhysdevAndVlanLoop_grows env fuel _ _ _ _ _ _ _ hw
      simp only [hw] at h
      by_cases hret : w.1.ret ≠ 0
      · rw [if_pos hret] at h
        cases h; exact hg
      · rw [if_neg hret] at h
        cases op <;> simp only [Option.some.injEq] at h <;> subst h <;>
          first
          | exact hg.trans (doPortProfileOpCommon_grows_port env _ _)
          | exact hg

theorem getPhysfnDev_grows (env : Env) (linkdev : String) (s : St) :
    Grows (fun e => emitsPort e = true) s.trace (getPhysfnDev env linkdev s).2.trace := by
  unfold getPhysfnDev
  simp only [St.log]
  split_ifs
  · repeat (first | exact Grows.refl _ _ | apply Grows.snoc | rfl)
  · repeat (first | exact Grows.refl _ _ | apply Grows.snoc | rfl)
  · split <;> repeat (first | exact Grows.refl _ _ | apply Grows.snoc | rfl)

theorem doPortProfileOp8021Qbh_grows (env : Env) (ifname : String)
    (macaddr : Option (List Nat)) (vp : virVirtualPortProfileParams)
    (vm_uuid : Option (List Nat)) (op : virVirtualPortOp) (s : St) :
    Grows (fun e => emitsPort e = true) s.trace
      (doPortProfileOp8021Qbh env ifname macaddr vp vm_uuid op s).2.trace := by
  have hg := getPhysfnDev_grows env ifname s
  have hc := doPortProfileOpCommon_grows_port env
  cases op <;> unfold doPortProfileOp8021Qbh <;> simp only [St.log] <;> split_ifs <;>
    first
    | (refine Grows.trans ?_ (hc _ _)
       refine Grows.trans ?_ (hc _ _)
       repeat (first | exact hg | apply Grows.snoc | rfl))
    | (refine Grows.trans ?_ (hc _ _)
       repeat (first | exact hg | apply Grows.snoc | rfl))
    | (repeat (first | exact hg | apply Grows.snoc | rfl))

theorem vpAssociatePortProfileId_grows (env : Env) (fuel : Nat) (ifname : String)
    (macaddr : Option (List Nat)) (linkdev : String)
    (virtPort : Option virVirtualPortProfileParams) (vmuuid : Option (List Nat))
    (vmOp : virVMOperationType) (s : St) (a : Int × St)
    (h : vpAssociatePortProfileId env fuel ifname macaddr linkdev virtPort vmuuid vmOp s
      = some a) :
    Grows (fun e => emitsPort e = true) (s.trace ++ [.debugAssociating ifname vmOp])
      a.2.trace := by
  unfold vpAssociatePortProfileId at h
  cases virtPort with
  | none => simp only [Option.some.injEq] at h; subst h; exact Grows.refl _ _
  | some vp =>
      simp only at h
      by_cases hno : vmOp = .VIR_VM_OP_NO_OP
      · rw [if_pos hno] at h
        simp only [Option.some.injEq] at h; subst h; exact Grows.refl _ _
      · rw [if_neg hno] at h
        cases ht : vp.virtPortType <;> simp only [ht] at h
        · simp only [Option.some.injEq] at h; subst h; exact Grows.refl _ _
        · exact doPortProfileOp8021Qbg_grows env fuel _ _ _ _ _ _ h
        · generalize (if vmOp = virVMOperationType.VIR_VM_OP_MIGRATE_IN_START then
            virVirtualPortOp.PREASSOCIATE_RR else virVirtualPortOp.ASSOCIATE) = op at h
          have hq := doPortProfileOp8021Qbh_grows env linkdev macaddr vp vmuuid op
            (s.log (.debugAssociating ifname vmOp))
          split_ifs at h <;> simp only [Option.some.injEq] at h <;> subst h
          · exact hq.snoc rfl
          · exact hq
        · simp only [Option.some.injEq] at h; subst h; exact Grows.refl _ _

theorem vpDisassociatePortProfileId_grows (env : Env) (fuel : Nat) (ifname : String)
    (macaddr : Option (List Nat)) (linkdev : String)
    (virtPort : Option virVirtualPortProfileParams)
    (vmOp : virVMOperationType) (s : St) (d : Int × St)
    (h : vpDisassociatePortProfileId env fuel ifname macaddr linkdev virtPort vmOp s
      = some d) :
    Grows (fun e => emitsPort e = true) (s.trace ++ [.debugDisassociating ifname vmOp])
      d.2.trace := by
  unfold vpDisassociatePortProfileId at h
  cases virtPort with
  | none => simp only [Option.some.injEq] at h; subst h; exact Grows.refl _ _
  | some vp =>
      simp only at h
      cases ht : vp.virtPortType <;> simp only [ht] at h
      · simp only [Option.some.injEq] at h; subst h; exact Grows.refl _ _
      · exact doPortProfileOp8021Qbg_grows env fuel _ _ _ _ _ _ h
      · split_ifs at h <;> simp only [Option.some.injEq] at h <;> subst h
        · exact Grows.refl _ _
        · refine Grows.trans ?_
            (doPortProfileOp8021Qbh_grows env linkdev macaddr vp none .DISASSOCIATE _)
          exact (Grows.refl _ _).snoc rfl
      · simp only [Option.some.injEq] at h; subst h; exact Grows.refl _ _

theorem vpAssociatePortProfileId_returns (env : Env) (fuel : Nat) (ifname : String)
    (macaddr : Option (List Nat)) (linkdev : String)
    (virtPort : Option virVirtualPortProfileParams) (vmuuid : Option (List Nat))
    (vmOp : virVMOperationType) (s : St) (hw : walkEndsWithin env fuel) :
    ∃ a, vpAssociatePortProfileId env fuel ifname macaddr linkdev virtPort vmuuid vmOp s
      = some a := by
  unfold vpAssociatePortProfileId
  cases virtPort with
  | none => exact ⟨_, rfl⟩
  | some vp =>
      simp only
      by_cases hno : vmOp = .VIR_VM_OP_NO_OP
      · rw [if_pos hno]; exact ⟨_, rfl⟩
      · rw [if_neg hno]
        cases ht : vp.virtPortType <;> simp only
        · exact ⟨_, rfl⟩
        · exact doPortProfileOp8021Qbg_returns env fuel _ _ _ _ _ hw
        · split_ifs <;> exact ⟨_, rfl⟩
        · exact ⟨_, rfl⟩

theorem vpDisassociatePortProfileId_returns (env : Env) (fuel : Nat) (ifname : String)
    (macaddr : Option (List Nat)) (linkdev : String)
    (virtPort : Option virVirtualPortProfileParams)
    (vmOp : virVMOperationType) (s : St) (hw : walkEndsWithin env fuel) :
    ∃ d, vpDisassociatePortProfileId env fuel ifname macaddr linkdev virtPort vmOp s
      = some d := by
  unfold vpDisassociatePortProfileId
  cases virtPort with
  | none => exact ⟨_, rfl⟩
  | some vp =>
      simp only
      cases ht : vp.virtPortType <;> simp only
      · exact ⟨_, rfl⟩
      · exact doPortProfileOp8021Qbg_returns env fuel _ _ _ _ _ hw
      · split_ifs <;> exact ⟨_, rfl⟩
      · exact ⟨_, rfl⟩

end Protocols

section Lifecycle

theorem openTapLoop_grows (env : Env) (ifindex : Int) (n : Nat) :
    ∀ s : St, Grows (fun e => emitsSteps e = true) s.trace
      (openTapLoop env ifindex n s).2.trace := by
  induction n with
  | zero =>
      intro s
      rw [openTapLoop]
      exact (Grows.refl _ _).snoc rfl
  | succ n ih =>
      intro s
      rw [openTapLoop]
      simp only [St.log]
      split_ifs
      · refine Grows.trans ?_ (ih _)
        repeat (first | exact Grows.refl _ _ | apply Grows.snoc | rfl)
      · exact (Grows.refl _ _).snoc rfl

theorem openTap_grows (env : Env) (ifname : String) (retries : Int) (s : St) :
    Grows (fun e => emitsSteps e = true) s.trace (openTap env ifname retries s).2.trace := by
  unfold openTap
  simp only [St.log]
  split_ifs
  · exact Grows.refl _ _
  · split
    · exact (Grows.refl _ _).snoc rfl
    · exact (Grows.refl _ _).snoc rfl
    · refine Grows.trans ?_ (openTapLoop_grows env _ _ _)
      exact (Grows.refl _ _).snoc rfl

theorem configMacvtapTap_grows (env : Env) (tapfd : Int) (vnet_hdr : Int) (s : St) :
    Grows (fun e => emitsSteps e = true) s.trace
      (configMacvtapTap env tapfd vnet_hdr s).2.trace := by
  unfold configMacvtapTap
  simp only [St.log]
  split_ifs <;> repeat (first | exact Grows.refl _ _ | apply Grows.snoc | rfl)

theorem stepsAfterAssociation_grows (env : Env) (cr : String) (vnet_hdr : Int) (s : St) :
    Grows (fun e => emitsSteps e = true) s.trace
      (stepsAfterAssociation env cr vnet_hdr s).st.trace := by
  have ht := openTap_grows env cr 10 (s.log (.ifaceUp cr))
  have hc := configMacvtapTap_grows env (openTap env cr 10 (s.log (.ifaceUp cr))).1 vnet_hdr
    (openTap env cr 10 (s.log (.ifaceUp cr))).2
  have h0 : Grows (fun e => emitsSteps e = true) s.trace (s.log (.ifaceUp cr)).trace :=
    (Grows.refl _ _).snoc rfl
  unfold stepsAfterAssociation
  simp only
  split_ifs
  · exact h0
  · exact ((h0.trans ht).trans hc).snoc rfl
  · exact ((h0.trans ht).trans hc).snoc rfl
  · exact ((h0.trans ht).trans hc).snoc rfl
  · exact h0.trans ht

theorem createNameLoop_grows (env : Env) (linkdev : String) (mode : Nat) (n : Nat) :
    ∀ (c : Nat) (ifname : String) (retries : Int) (s : St),
      Grows (fun e => emitsCreate e = true) s.trace
        (createNameLoop env linkdev mode n c ifname retries s).2.trace := by
  induction n with
  | zero => intro c ifname retries s; exact Grows.refl _ _
  | succ n ih =>
      intro c ifname retries s
      rw [createNameLoop]
      simp only [St.log]
      split_ifs <;>
        first
        | (refine Grows.trans ?_ (ih _ _ _ _)
           repeat (first | exact Grows.refl _ _ | apply Grows.snoc | rfl))
        | (repeat (first | exact Grows.refl _ _ | apply Grows.snoc | rfl))

theorem selectAndCreate_grows (env : Env) (tgifname : Option String) (linkdev : String)
    (mode : Nat) (s : St) :
    Grows (fun e => emitsCreate e = true) s.trace
      (selectAndCreate env tgifname linkdev mode s).2.trace := by
  unfold selectAndCreate
  cases tgifname with
  | none => exact createNameLoop_grows env linkdev mode _ _ _ _ _
  | some tg =>
      simp only [St.log]
      split_ifs <;>
        first
        | (refine Grows.trans ?_ (createNameLoop_grows env linkdev mode _ _ _ _ _)
           repeat (first | exact Grows.refl _ _ | apply Grows.snoc | rfl))
        | (repeat (first | exact Grows.refl _ _ | apply Grows.snoc | rfl))

theorem createInterface_grows (env : Env) (tgifname : Option String) (mac : List Nat)
    (linkdev : String) (mode : virMacvtapMode) (s : St) :
    Grows (fun e => emitsCreate e = true) s.trace
      (createInterface env tgifname mac linkdev mode s).2.trace := by
  unfold createInterface
  simp only [St.log]
  split_ifs
  · exact (Grows.refl _ _).snoc rfl
  · refine Grows.trans ?_ (selectAndCreate_grows env _ _ _ _)
    exact (Grows.refl _ _).snoc rfl
  · exact selectAndCreate_grows env _ _ _ _

theorem stepsAfterAssociation_returns (env : Env) (cr : String) (vnet_hdr : Int) (s : St)
    (rc : Int) (res : Option String) (s5 : St)
    (h : stepsAfterAssociation env cr vnet_hdr s = .returns rc res s5) : 0 ≤ rc := by
  unfold stepsAfterAssociation at h
  simp only at h
  split_ifs at h with h1 h2 h3 h4
  cases h
  exact h2

theorem stepsAfterAssociation_exit (env : Env) (cr : String) (vnet_hdr : Int) (s : St)
    (rc : Int) (res : Option String) (sf : St)
    (h : stepsAfterAssociation env cr vnet_hdr s = .disassociate_exit rc res sf) : rc < 0 := by
  unfold stepsAfterAssociation at h
  simp only at h
  split_ifs at h with h1 h2 h3 h4 <;> cases h
  · decide
  · decide
  · decide
  · omega

theorem stepsAfterAssociation_exit_iff (env : Env) (cr : String) (vnet_hdr : Int) (s : St) :
    (∃ rc res sf, stepsAfterAssociation env cr vnet_hdr s = .disassociate_exit rc res sf) ↔
      (env.ifaceUp cr < 0 ∨
        (openTap env cr 10 (s.log (.ifaceUp cr))).1 < 0 ∨
        (configMacvtapTap env (openTap env cr 10 (s.log (.ifaceUp cr))).1 vnet_hdr
          (openTap env cr 10 (s.log (.ifaceUp cr))).2).1 < 0 ∨
        env.virBandwidthEnable cr < 0) := by
  unfold stepsAfterAssociation
  simp only
  split_ifs with h1 h2 h3 h4
  · simp [h1]
  · simp [h3]
  · simp [h4]
  · simp only [false_iff, exists_false, not_or, not_lt, reduceCtorEq]
    exact ⟨by omega, by omega, by omega, by omega⟩
  · have : (openTap env cr 10 (s.log (.ifaceUp cr))).1 < 0 := by omega
    simp [this]

theorem openMacvtapTap_not_created (env : Env) (fuel : Nat) (tg : Option String)
    (mac : List Nat) (linkdev : String) (mode : virMacvtapMode) (vnet_hdr : Int)
    (uuid : List Nat) (prof : Option virVirtualPortProfileParams)
    (vmOp : virVMOperationType) (s : St)
    (h : (createInterface env tg mac linkdev mode s).1 = none) :
    openMacvtapTap env fuel tg mac linkdev mode vnet_hdr uuid prof vmOp s =
      some (⟨-1, none⟩, (createInterface env tg mac linkdev mode s).2) := by
  unfold openMacvtapTap
  simp only [h]

theorem openMacvtapTap_created (env : Env) (fuel : Nat) (tg : Option String)
    (mac : List Nat) (linkdev : String) (mode : virMacvtapMode) (vnet_hdr : Int)
    (uuid : List Nat) (prof : Option virVirtualPortProfileParams)
    (vmOp : virVMOperationType) (s : St) (cr : String)
    (h : (createInterface env tg mac linkdev mode s).1 = some cr) :
    openMacvtapTap env fuel tg mac linkdev mode vnet_hdr uuid prof vmOp s =
      attachCreated env fuel cr mac linkdev vnet_hdr uuid prof vmOp
        (createInterface env tg mac linkdev mode s).2 := by
  unfold openMacvtapTap
  simp only [h]

theorem attachCreated_association_fails (env : Env) (fuel : Nat) (cr : String)
    (mac : List Nat) (linkdev : String) (vnet_hdr : Int) (uuid : List Nat)
    (prof : Option virVirtualPortProfileParams) (vmOp : virVMOperationType) (s : St)
    (a : Int × St)
    (hassoc : vpAssociatePortProfileId env fuel cr (some mac) linkdev prof (some uuid) vmOp s
      = some a)
    (ha : a.1 ≠ 0) :
    attachCreated env fuel cr mac linkdev vnet_hdr uuid prof vmOp s =
      some (⟨-1, none⟩, a.2.log (.ifaceLinkDel cr)) := by
  unfold attachCreated
  simp only [hassoc, ha, ne_eq, not_false_eq_true, if_true, link_del_exit]

theorem attachCreated_returns (env : Env) (fuel : Nat) (cr : String)
    (mac : List Nat) (linkdev : String) (vnet_hdr : Int) (uuid : List Nat)
    (prof : Option virVirtualPortProfileParams) (vmOp : virVMOperationType) (s : St)
    (a : Int × St) (rc : Int) (res : Option String) (s5 : St)
    (hassoc : vpAssociatePortProfileId env fuel cr (some mac) linkdev prof (some uuid) vmOp s
      = some a)
    (ha : a.1 = 0)
    (hs : stepsAfterAssociation env cr vnet_hdr a.2 = .returns rc res s5) :
    attachCreated env fuel cr mac linkdev vnet_hdr uuid prof vmOp s =
      some (⟨rc, res⟩, s5) := by
  unfold attachCreated
  simp only [hassoc, ha, ne_eq, not_true_eq_false, if_false, hs]

theorem attachCreated_unwinds (env : Env) (fuel : Nat) (cr : String)
    (mac : List Nat) (linkdev : String) (vnet_hdr : Int) (uuid : List Nat)
    (prof : Option virVirtualPortProfileParams) (vmOp : virVMOperationType) (s : St)
    (a : Int × St) (rc : Int) (res : Option String) (sf : St)
    (hassoc : vpAssociatePortProfileId env fuel cr (some mac) linkdev prof (some uuid) vmOp s
      = some a)
    (ha : a.1 = 0)
    (hs : stepsAfterAssociation env cr vnet_hdr a.2 = .disassociate_exit rc res sf) :
    attachCreated env fuel cr mac linkdev vnet_hdr uuid prof vmOp s =
      (vpDisassociatePortProfileId env fuel cr (some mac) linkdev prof vmOp sf).map
        (fun d => (⟨rc, res⟩, d.2.log (.ifaceLinkDel cr))) := by
  unfold attachCreated
  simp only [hassoc, ha, ne_eq, not_true_eq_false, if_false, hs, disassociate_exit,
    link_del_exit]
  cases vpDisassociatePortProfileId env fuel cr (some mac) linkdev prof vmOp sf <;> rfl

theorem disassociateCalls_append (t u : List Event) :
    disassociateCalls (t ++ u) = disassociateCalls t + disassociateCalls u := by
  simp [disassociateCalls, List.countP_append]

theorem disassociateCalls_create (env : Env) (tg : Option String) (mac : List Nat)
    (linkdev : String) (mode : virMacvtapMode) (s : St) :
    disassociateCalls (createInterface env tg mac linkdev mode s).2.trace =
      disassociateCalls s.trace :=
  (createInterface_grows env tg mac linkdev mode s).countP_eq isDisassociateCall
    (by intro e he; cases e <;> simp_all [emitsCreate, isDisassociateCall])

theorem emitsPort_not_call (e : Event) (he : emitsPort e = true) :
    isDisassociateCall e = false := by
  cases e <;> simp_all [emitsPort, emitsCommon, emitsSetLink, isPoll, isSleep,
    isDisassociateCall]

theorem disassociateCalls_associate (env : Env) (fuel : Nat) (ifname : String)
    (macaddr : Option (List Nat)) (linkdev : String)
    (virtPort : Option virVirtualPortProfileParams) (vmuuid : Option (List Nat))
    (vmOp : virVMOperationType) (s : St) (a : Int × St)
    (h : vpAssociatePortProfileId env fuel ifname macaddr linkdev virtPort vmuuid vmOp s
      = some a) :
    disassociateCalls a.2.trace = disassociateCalls s.trace := by
  have hg := (vpAssociatePortProfileId_grows env fuel ifname macaddr linkdev virtPort vmuuid
    vmOp s a h).countP_eq isDisassociateCall emitsPort_not_call
  unfold disassociateCalls
  rw [hg, List.countP_append]
  rfl

theorem disassociateCalls_disassociate (env : Env) (fuel : Nat) (ifname : String)
    (macaddr : Option (List Nat)) (linkdev : String)
    (virtPort : Option virVirtualPortProfileParams)
    (vmOp : virVMOperationType) (s : St) (d : Int × St)
    (h : vpDisassociatePortProfileId env fuel ifname macaddr linkdev virtPort vmOp s
      = some d) :
    disassociateCalls d.2.trace = disassociateCalls s.trace + 1 := by
  have hg := (vpDisassociatePortProfileId_grows env fuel ifname macaddr linkdev virtPort
    vmOp s d h).countP_eq isDisassociateCall emitsPort_not_call
  unfold disassociateCalls
  rw [hg, List.countP_append]
  rfl

theorem disassociateCalls_steps (env : Env) (cr : String) (vnet_hdr : Int) (s : St) :
    disassociateCalls (stepsAfterAssociation env cr vnet_hdr s).st.trace =
      disassociateCalls s.trace :=
  (stepsAfterAssociation_grows env cr vnet_hdr s).countP_eq isDisassociateCall
    (by intro e he; cases e <;> simp_all [emitsSteps, isDisassociateCall])

theorem disassociateCalls_linkDel (s : St) (cr : String) :
    disassociateCalls (s.log (.ifaceLinkDel cr)).trace = disassociateCalls s.trace := by
  simp [St.log, disassociateCalls_append, disassociateCalls, isDisassociateCall]

theorem openMacvtapTap_grows (env : Env) (fuel : Nat) (tg : Option String)
    (mac : List Nat) (linkdev : String) (mode : virMacvtapMode) (vnet_hdr : Int)
    (uuid : List Nat) (prof : Option virVirtualPortProfileParams)
    (vmOp : virVMOperationType) (s : St) (r : OpenResult) (s1 : St)
    (h : openMacvtapTap env fuel tg mac linkdev mode vnet_hdr uuid prof vmOp s = some (r, s1)) :
    Grows (fun e => emitsOpen e = true) s.trace s1.trace := by
  have hc : Grows (fun e => emitsOpen e = true) s.trace
      (createInterface env tg mac linkdev mode s).2.trace :=
    (createInterface_grows env tg mac linkdev mode s).mono
      (by intro e he; simp [emitsOpen, he])
  cases hn : (createInterface env tg mac linkdev mode s).1 with
  | none =>
      rw [openMacvtapTap_not_created env fuel tg mac linkdev mode vnet_hdr uuid prof vmOp s hn]
        at h
      cases h
      exact hc
  | some cr =>
      rw [openMacvtapTap_created env fuel tg mac linkdev mode vnet_hdr uuid prof vmOp s cr hn]
        at h
      cases hassoc : vpAssociatePortProfileId env fuel cr (some mac) linkdev prof (some uuid)
          vmOp (createInterface env tg mac linkdev mode s).2 with
      | none => simp [attachCreated, hassoc] at h
      | some a =>
          have hga : Grows (fun e => emitsOpen e = true) s.trace a.2.trace :=
            (hc.snoc (e := .debugAssociating cr vmOp) rfl).trans
              ((vpAssociatePortProfileId_grows env fuel cr _ linkdev prof _ vmOp _ a hassoc).mono
                (by intro e he; simp [emitsOpen, he]))
          by_cases ha : a.1 = 0
          · have hgs : Grows (fun e => emitsOpen e = true) s.trace
                (stepsAfterAssociation env cr vnet_hdr a.2).st.trace :=
              hga.trans ((stepsAfterAssociation_grows env cr vnet_hdr a.2).mono
                (by intro e he; simp [emitsOpen, he]))
            cases hs : stepsAfterAssociation env cr vnet_hdr a.2 with
            | returns rc res s5 =>
                rw [attachCreated_returns env fuel cr mac linkdev vnet_hdr uuid prof vmOp _ a
                  rc res s5 hassoc ha hs] at h
                cases h
                simpa [hs, StepsEnd.st] using hgs
            | disassociate_exit rc res sf =>
                rw [attachCreated_unwinds env fuel cr mac linkdev vnet_hdr uuid prof vmOp _ a
                  rc res sf hassoc ha hs] at h
                cases hd : vpDisassociatePortProfileId env fuel cr (some mac) linkdev prof
                    vmOp sf with
                | none => simp [hd] at h
                | some d =>
                    simp only [hd, Option.map_some', Option.some.injEq, Prod.mk.injEq] at h
                    obtain ⟨-, rfl⟩ := h
                    have hsf : Grows (fun e => emitsOpen e = true) s.trace sf.trace := by
                      simpa [hs, StepsEnd.st] using hgs
                    exact (((hsf.snoc (e := .debugDisassociating cr vmOp) rfl).trans
                      ((vpDisassociatePortProfileId_grows env fuel cr _ linkdev prof vmOp _ d
                        hd).mono (by intro e he; simp [emitsOpen, he]))).snoc rfl)
          · rw [attachCreated_association_fails env fuel cr mac linkdev vnet_hdr uuid prof vmOp
              _ a hassoc ha] at h
            cases h
            exact hga.snoc rfl

/-- C6, counterexample: three invocations of openMacvtapTap with an 802.1Qbg
profile in which the numbers of association and disassociation requests sent
differ.  (1) The association request is sent and the poll reports the failure
status 258: the invocation fails with one association request and no
disassociation request.  (2) The operation context is no-op and bringing the
interface up fails: no association request, one disassociation request.
(3) Every step succeeds: one association request, no disassociation request. -/
theorem openMacvtapTap_requests_unbalanced :
    (openMacvtapTap envStatusFails 1 none sampleMac "eth0" .VIR_MACVTAP_MODE_VEPA 0
        sampleUuid (some qbgProfile) .VIR_VM_OP_CREATE St.init).map
      (fun r => (r.1.rc, associateRequests r.2.trace, disassociateRequests r.2.trace)) =
      some (-1, 1, 0) ∧
    (openMacvtapTap envUpFails 1 none sampleMac "eth0" .VIR_MACVTAP_MODE_VEPA 0
        sampleUuid (some qbgProfile) .VIR_VM_OP_NO_OP St.init).map
      (fun r => (r.1.rc, associateRequests r.2.trace, disassociateRequests r.2.trace)) =
      some (-1, 0, 1) ∧
    (openMacvtapTap envOk 1 none sampleMac "eth0" .VIR_MACVTAP_MODE_VEPA 0
        sampleUuid (some qbgProfile) .VIR_VM_OP_CREATE St.init).map
      (fun r => (r.1.rc, associateRequests r.2.trace, disassociateRequests r.2.trace)) =
      some (5, 1, 0) := by
  decide

/-- C6, amended: in every invocation of openMacvtapTap that returns,
vpDisassociatePortProfileId is entered exactly once when
vpAssociatePortProfileId returned 0 and the invocation fails afterwards, and is
not entered at all when the invocation succeeds, when the interface was not
created, or when vpAssociatePortProfileId returned a non-zero value. -/
theorem openMacvtapTap_disassociate_calls (env : Env) (fuel : Nat) (tg : Option String)
    (mac : List Nat) (linkdev : String) (mode : virMacvtapMode) (vnet_hdr : Int)
    (uuid : List Nat) (prof : Option virVirtualPortProfileParams)
    (vmOp : virVMOperationType) (s : St) (r : OpenResult) (s1 : St)
    (h : openMacvtapTap env fuel tg mac linkdev mode vnet_hdr uuid prof vmOp s = some (r, s1)) :
    (0 ≤ r.rc → disassociateCalls s1.trace = disassociateCalls s.trace) ∧
    ((createInterface env tg mac linkdev mode s).1 = none →
      disassociateCalls s1.trace = disassociateCalls s.trace) ∧
    (∀ cr a, (createInterface env tg mac linkdev mode s).1 = some cr →
      vpAssociatePortProfileId env fuel cr (some mac) linkdev prof (some uuid) vmOp
        (createInterface env tg mac linkdev mode s).2 = some a →
      (a.1 ≠ 0 → disassociateCalls s1.trace = disassociateCalls s.trace) ∧
      (a.1 = 0 → r.rc < 0 → disassociateCalls s1.trace = disassociateCalls s.trace + 1)) := by
  have hcr := disassociateCalls_create env tg mac linkdev mode s
  cases hn : (createInterface env tg mac linkdev mode s).1 with
  | none =>
      rw [openMacvtapTap_not_created env fuel tg mac linkdev mode vnet_hdr uuid prof vmOp s hn]
        at h
      cases h
      exact ⟨fun _ => hcr, fun _ => hcr, fun cr a hc => by simp at hc⟩
  | some cr =>
      rw [openMacvtapTap_created env fuel tg mac linkdev mode vnet_hdr uuid prof vmOp s cr hn]
        at h
      cases hassoc : vpAssociatePortProfileId env fuel cr (some mac) linkdev prof (some uuid)
          vmOp (createInterface env tg mac linkdev mode s).2 with
      | none => simp [attachCreated, hassoc] at h
      | some a =>
          have hca := disassociateCalls_associate env fuel cr _ linkdev prof _ vmOp _ a hassoc
          by_cases ha : a.1 = 0
          · have hst := disassociateCalls_steps env cr vnet_hdr a.2
            cases hs : stepsAfterAssociation env cr vnet_hdr a.2 with
            | returns rc res s5 =>
                rw [attachCreated_returns env fuel cr mac linkdev vnet_hdr uuid prof vmOp _ a
                  rc res s5 hassoc ha hs] at h
                have hrc := stepsAfterAssociation_returns env cr vnet_hdr a.2 rc res s5 hs
                simp only [hs, StepsEnd.st] at hst
                simp only [Option.some.injEq, Prod.mk.injEq] at h
                obtain ⟨rfl, rfl⟩ := h
                refine ⟨fun _ => by omega, fun hc => by simp at hc, ?_⟩
                intro cr2 a2 hc2 ha2
                simp only [Option.some.injEq] at hc2
                subst hc2
                rw [hassoc] at ha2
                cases ha2
                exact ⟨fun hne => absurd ha hne, fun _ hneg => by simp at hneg; omega⟩
            | disassociate_exit rc res sf =>
                rw [attachCreated_unwinds env fuel cr mac linkdev vnet_hdr uuid prof vmOp _ a
                  rc res sf hassoc ha hs] at h
                cases hd : vpDisassociatePortProfileId env fuel cr (some mac) linkdev prof
                    vmOp sf with
                | none => simp [hd] at h
                | some d =>
                    simp only [hd, Option.map_some', Option.some.injEq, Prod.mk.injEq] at h
                    obtain ⟨rfl, rfl⟩ := h
                    have hrc := stepsAfterAssociation_exit env cr vnet_hdr a.2 rc res sf hs
                    have hdd := disassociateCalls_disassociate env fuel cr _ linkdev prof vmOp
                      sf d hd
                    simp only [hs, StepsEnd.st] at hst
                    have hfin : disassociateCalls (d.2.log (.ifaceLinkDel cr)).trace =
                        disassociateCalls s.trace + 1 := by
                      rw [disassociateCalls_linkDel]; omega
                    refine ⟨fun hnn => by simp at hnn; omega, fun hc => by simp at hc, ?_⟩
                    intro cr2 a2 hc2 ha2
                    simp only [Option.some.injEq] at hc2
                    subst hc2
                    rw [hassoc] at ha2
                    cases ha2
                    exact ⟨fun hne => absurd ha hne, fun _ _ => hfin⟩
          · rw [attachCreated_association_fails env fuel cr mac linkdev vnet_hdr uuid prof vmOp
              _ a hassoc ha] at h
            cases h
            have hfin : disassociateCalls (a.2.log (.ifaceLinkDel cr)).trace =
                disassociateCalls s.trace := by
              rw [disassociateCalls_linkDel]; omega
            refine ⟨fun _ => hfin, fun hc => by simp at hc, ?_⟩
            intro cr2 a2 hc2 ha2
            simp only [Option.some.injEq] at hc2
            subst hc2
            rw [hassoc] at ha2
            cases ha2
            exact ⟨fun _ => hfin, fun h0 => absurd h0 ha⟩

/-- Witness of the amended C6: an 802.1Qbg association succeeds, bringing the
interface up fails, and vpDisassociatePortProfileId is entered once. -/
theorem openMacvtapTap_disassociate_calls_witness :
    disassociateCalls upFailsFinal.2.trace = disassociateCalls St.init.trace + 1 :=
  ((openMacvtapTap_disassociate_calls envUpFails 1 none sampleMac "eth0"
    .VIR_MACVTAP_MODE_VEPA 0 sampleUuid (some qbgProfile) .VIR_VM_OP_CREATE St.init
    upFailsFinal.1 upFailsFinal.2 rfl).2.2 "macvtap0" _ rfl rfl).2 rfl (by decide)

/-- When every parent walk ends within the fuel, openMacvtapTap returns. -/
theorem openMacvtapTap_returns (env : Env) (fuel : Nat) (tg : Option String)
    (mac : List Nat) (linkdev : String) (mode : virMacvtapMode) (vnet_hdr : Int)
    (uuid : List Nat) (prof : Option virVirtualPortProfileParams)
    (vmOp : virVMOperationType) (s : St) (hwalk : walkEndsWithin env fuel) :
    ∃ r, openMacvtapTap env fuel tg mac linkdev mode vnet_hdr uuid prof vmOp s = some r := by
  cases hn : (createInterface env tg mac linkdev mode s).1 with
  | none =>
      exact ⟨_, openMacvtapTap_not_created env fuel tg mac linkdev mode vnet_hdr uuid prof
        vmOp s hn⟩
  | some cr =>
      rw [openMacvtapTap_created env fuel tg mac linkdev mode vnet_hdr uuid prof vmOp s cr hn]
      obtain ⟨a, hassoc⟩ := vpAssociatePortProfileId_returns env fuel cr (some mac) linkdev
        prof (some uuid) vmOp (createInterface env tg mac linkdev mode s).2 hwalk
      by_cases ha : a.1 = 0
      · cases hs : stepsAfterAssociation env cr vnet_hdr a.2 with
        | returns rc res s5 =>
            exact ⟨_, attachCreated_returns env fuel cr mac linkdev vnet_hdr uuid prof vmOp _ a
              rc res s5 hassoc ha hs⟩
        | disassociate_exit rc res sf =>
            obtain ⟨d, hd⟩ := vpDisassociatePortProfileId_returns env fuel cr (some mac)
              linkdev prof vmOp sf hwalk
            refine ⟨(⟨rc, res⟩, d.2.log (.ifaceLinkDel cr)), ?_⟩
            rw [attachCreated_unwinds env fuel cr mac linkdev vnet_hdr uuid prof vmOp _ a
              rc res sf hassoc ha hs, hd]
            rfl
      · exact ⟨_, attachCreated_association_fails env fuel cr mac linkdev vnet_hdr uuid prof
          vmOp _ a hassoc ha⟩

/-- C7: let every parent walk end within the fuel, let openMacvtapTap have
created the interface cr and let the association have returned a.  (1) If the
association failed, the function returns -1 right after deleting cr, and
vpDisassociatePortProfileId has not been entered.  (2) If the association
succeeded, the steps jump to disassociate_exit exactly when bringing the
interface up, opening the tap device, configuring the header mode or applying
the bandwidth fails; then vpDisassociatePortProfileId returns, the function
returns a negative value, the trace ends with the entry of
vpDisassociatePortProfileId, the events of that call and the deletion of cr, in
this order, and vpDisassociatePortProfileId was entered exactly once. -/
theorem openMacvtapTap_unwind (env : Env) (fuel : Nat) (tg : Option String)
    (mac : List Nat) (linkdev : String) (mode : virMacvtapMode) (vnet_hdr : Int)
    (uuid : List Nat) (prof : Option virVirtualPortProfileParams)
    (vmOp : virVMOperationType) (s : St) (cr : String) (s1 : St) (a : Int × St)
    (hwalk : walkEndsWithin env fuel)
    (hcreate : createInterface env tg mac linkdev mode s = (some cr, s1))
    (hassoc : vpAssociatePortProfileId env fuel cr (some mac) linkdev prof (some uuid) vmOp s1
      = some a) :
    (a.1 ≠ 0 →
      openMacvtapTap env fuel tg mac linkdev mode vnet_hdr uuid prof vmOp s =
        some (⟨-1, none⟩, a.2.log (.ifaceLinkDel cr)) ∧
      disassociateCalls (a.2.log (.ifaceLinkDel cr)).trace = disassociateCalls s.trace) ∧
    (a.1 = 0 →
      ((∃ rc res sf, stepsAfterAssociation env cr vnet_hdr a.2 = .disassociate_exit rc res sf) ↔
        (env.ifaceUp cr < 0 ∨
          (openTap env cr 10 (a.2.log (.ifaceUp cr))).1 < 0 ∨
          (configMacvtapTap env (openTap env cr 10 (a.2.log (.ifaceUp cr))).1 vnet_hdr
            (openTap env cr 10 (a.2.log (.ifaceUp cr))).2).1 < 0 ∨
          env.virBandwidthEnable cr < 0)) ∧
      ∀ rc res sf,
        stepsAfterAssociation env cr vnet_hdr a.2 = .disassociate_exit rc res sf →
        ∃ d, vpDisassociatePortProfileId env fuel cr (some mac) linkdev prof vmOp sf = some d ∧
          openMacvtapTap env fuel tg mac linkdev mode vnet_hdr uuid prof vmOp s =
            some (⟨rc, res⟩, d.2.log (.ifaceLinkDel cr)) ∧
          rc < 0 ∧
          Grows (fun e => emitsPort e = true) (sf.trace ++ [.debugDisassociating cr vmOp])
            d.2.trace ∧
          disassociateCalls (d.2.log (.ifaceLinkDel cr)).trace =
            disassociateCalls s.trace + 1) := by
  have hn : (createInterface env tg mac linkdev mode s).1 = some cr := by rw [hcreate]
  have hs1 : (createInterface env tg mac linkdev mode s).2 = s1 := by rw [hcreate]
  have hcr := disassociateCalls_create env tg mac linkdev mode s
  rw [hs1] at hcr
  have hca := disassociateCalls_associate env fuel cr _ linkdev prof _ vmOp _ a hassoc
  have hopen := openMacvtapTap_created env fuel tg mac linkdev mode vnet_hdr uuid prof vmOp s
    cr hn
  rw [hs1] at hopen
  constructor
  · intro ha
    rw [hopen, attachCreated_association_fails env fuel cr mac linkdev vnet_hdr uuid prof vmOp
      _ a hassoc ha]
    refine ⟨rfl, ?_⟩
    rw [disassociateCalls_linkDel]; omega
  · intro ha
    refine ⟨stepsAfterAssociation_exit_iff env cr vnet_hdr a.2, ?_⟩
    intro rc res sf hs
    obtain ⟨d, hd⟩ := vpDisassociatePortProfileId_returns env fuel cr (some mac) linkdev prof
      vmOp sf hwalk
    have hst := disassociateCalls_steps env cr vnet_hdr a.2
    simp only [hs, StepsEnd.st] at hst
    have hdd := disassociateCalls_disassociate env fuel cr _ linkdev prof vmOp sf d hd
    refine ⟨d, hd, ?_, stepsAfterAssociation_exit env cr vnet_hdr a.2 rc res sf hs,
      vpDisassociatePortProfileId_grows env fuel cr _ linkdev prof vmOp sf d hd, ?_⟩
    · rw [hopen, attachCreated_unwinds env fuel cr mac linkdev vnet_hdr uuid prof vmOp _ a
        rc res sf hassoc ha hs, hd]
      rfl
    · rw [disassociateCalls_linkDel]; omega

/-- Witness of C7: an 802.1Qbg association succeeds and bringing the interface
up fails; the disassociation returns and the function returns -1 after one
entry of vpDisassociatePortProfileId. -/
theorem openMacvtapTap_unwind_witness :
    ∃ d, vpDisassociatePortProfileId envUpFails 1 "macvtap0" (some sampleMac) "eth0"
        (some qbgProfile) .VIR_VM_OP_CREATE (upFailsAssociated.2.log (.ifaceUp "macvtap0")) =
        some d ∧
      openMacvtapTap envUpFails 1 none sampleMac "eth0" .VIR_MACVTAP_MODE_VEPA 0
          sampleUuid (some qbgProfile) .VIR_VM_OP_CREATE St.init =
        some (⟨-1, none⟩, d.2.log (.ifaceLinkDel "macvtap0")) ∧
      (-1 : Int) < 0 ∧
      Grows (fun e => emitsPort e = true)
        ((upFailsAssociated.2.log (.ifaceUp "macvtap0")).trace ++
          [.debugDisassociating "macvtap0" .VIR_VM_OP_CREATE]) d.2.trace ∧
      disassociateCalls (d.2.log (.ifaceLinkDel "macvtap0")).trace =
        disassociateCalls St.init.trace + 1 :=
  ((openMacvtapTap_unwind envUpFails 1 none sampleMac "eth0"
    .VIR_MACVTAP_MODE_VEPA 0 sampleUuid (some qbgProfile) .VIR_VM_OP_CREATE St.init
    "macvtap0" _ upFailsAssociated (fun _ => ⟨0, by decide, fun _ _ _ _ => Or.inr rfl⟩)
    rfl rfl).2 rfl).2 (-1) none _ rfl

/-- C8, counterexample: openMacvtapTap in passthrough mode, the MAC override of
the uplink eth0 succeeds.  (1) The requested name vnet0 is in use: the function
returns -1 after the override and the lookup, without restoring the hardware
address.  (2) Applying the bandwidth fails: the function returns -1 and no
event of its trace is a restoration. -/
theorem openMacvtapTap_passthrough_failure_no_restore :
    envNameTaken.ifaceReplaceMacAddress sampleMac "eth0" = 0 ∧
    (openMacvtapTap envNameTaken 1 (some "vnet0") sampleMac "eth0"
        .VIR_MACVTAP_MODE_PASSTHRU 0 sampleUuid none .VIR_VM_OP_CREATE St.init).map
      (fun r => (r.1.rc, r.2.trace)) =
      some (-1, [.ifaceReplaceMacAddress sampleMac "eth0", .ifaceGetIndex "vnet0"]) ∧
    (openMacvtapTap envBandwidthFails 1 none sampleMac "eth0"
        .VIR_MACVTAP_MODE_PASSTHRU 0 sampleUuid none .VIR_VM_OP_CREATE St.init).map
      (fun r => (r.1.rc, r.2.trace.countP isRestore,
        decide (Event.ifaceReplaceMacAddress sampleMac "eth0" ∈ r.2.trace))) =
      some (-1, 0, true) := by
  decide

/-- C8, amended: openMacvtapTap performs no restoration of a hardware address on
any path, whatever the mode and whichever step fails; the restoration is
performed by delMacvtap, which in passthrough mode restores the hardware address
of the uplink as its first action, also when it is given no interface name. -/
theorem openMacvtapTap_never_restores (env : Env) (fuel : Nat) (tg : Option String)
    (mac : List Nat) (linkdev : String) (mode : virMacvtapMode) (vnet_hdr : Int)
    (uuid : List Nat) (prof : Option virVirtualPortProfileParams)
    (vmOp : virVMOperationType) (s : St) (r : OpenResult) (s1 : St)
    (h : openMacvtapTap env fuel tg mac linkdev mode vnet_hdr uuid prof vmOp s = some (r, s1)) :
    Grows (fun e => isRestore e = false) s.trace s1.trace ∧
    delMacvtap env fuel none mac linkdev .VIR_MACVTAP_MODE_PASSTHRU prof s1 =
      some (s1.log (.ifaceRestoreMacAddress linkdev)) ∧
    (∀ ifname s2, delMacvtap env fuel ifname mac linkdev .VIR_MACVTAP_MODE_PASSTHRU prof s1 =
        some s2 →
      Grows (fun e => isRestore e = false)
        (s1.trace ++ [.ifaceRestoreMacAddress linkdev]) s2.trace) := by
  refine ⟨?_, rfl, ?_⟩
  · exact (openMacvtapTap_grows env fuel tg mac linkdev mode vnet_hdr uuid prof vmOp s r s1
      h).mono (by
        intro e he
        cases e <;> simp_all [emitsOpen, emitsCreate, emitsPort, emitsCommon, emitsSetLink,
          isPoll, isSleep, emitsSteps, isAssociateCall, isDisassociateCall, isLinkDel,
          isRestore])
  · intro ifname s2 hdel
    unfold delMacvtap at hdel
    cases ifname with
    | none =>
        simp only [if_true, Option.some.injEq] at hdel
        subst hdel
        exact Grows.refl _ _
    | some n =>
        simp only [if_true] at hdel
        cases hd : vpDisassociatePortProfileId env fuel n (some mac) linkdev prof
            .VIR_VM_OP_DESTROY (s1.log (.ifaceRestoreMacAddress linkdev)) with
        | none => simp [hd] at hdel
        | some d =>
            simp only [hd, Option.some.injEq] at hdel
            subst hdel
            have hg := vpDisassociatePortProfileId_grows env fuel n _ linkdev prof _ _ d hd
            have hg2 : Grows (fun e => isRestore e = false)
                ((s1.log (.ifaceRestoreMacAddress linkdev)).trace ++
                  [.debugDisassociating n .VIR_VM_OP_DESTROY]) d.2.trace :=
              hg.mono (by
                intro e he
                cases e <;> simp_all [emitsPort, emitsCommon, emitsSetLink, isPoll, isSleep,
                  isRestore])
            have h0 : Grows (fun e => isRestore e = false)
                (s1.trace ++ [.ifaceRestoreMacAddress linkdev])
                ((s1.log (.ifaceRestoreMacAddress linkdev)).trace ++
                  [.debugDisassociating n .VIR_VM_OP_DESTROY]) :=
              (Grows.refl _ _).snoc rfl
            exact (h0.trans hg2).snoc rfl

/-- Witness of the amended C8: the failing passthrough invocation with the name
vnet0 in use. -/
theorem openMacvtapTap_never_restores_witness :
    Grows (fun e => isRestore e = false) St.init.trace
      [.ifaceReplaceMacAddress sampleMac "eth0", .ifaceGetIndex "vnet0"] :=
  (openMacvtapTap_never_restores envNameTaken 1 (some "vnet0") sampleMac "eth0"
    .VIR_MACVTAP_MODE_PASSTHRU 0 sampleUuid none .VIR_VM_OP_CREATE St.init ⟨-1, none⟩
    ⟨[.ifaceReplaceMacAddress sampleMac "eth0", .ifaceGetIndex "vnet0"], 1, 0, 0, 0, 0, 0, 0, 0⟩
    rfl).1

/-- C9, the code at the failing input: every step up to the header
configuration succeeds, the tap device /dev/tap7 is opened as descriptor 5, and
applying the bandwidth fails.  The function returns -1, sends one disassociation
request and deletes macvtap0, but never closes descriptor 5; when instead the
header configuration fails, descriptor 5 is closed. -/
theorem openMacvtapTap_bandwidth_failure_keeps_fd_open :
    (openMacvtapTap envBandwidthFails 1 none sampleMac "eth0" .VIR_MACVTAP_MODE_VEPA 0
        sampleUuid (some qbgProfile) .VIR_VM_OP_CREATE St.init).map
      (fun r => (r.1.rc, decide (Event.openTapDev 7 ∈ r.2.trace),
        decide (Event.close 5 ∈ r.2.trace), disassociateRequests r.2.trace,
        decide (Event.ifaceLinkDel "macvtap0" ∈ r.2.trace))) =
      some (-1, true, false, 1, true) ∧
    (openMacvtapTap envConfigFails 1 none sampleMac "eth0" .VIR_MACVTAP_MODE_VEPA 0
        sampleUuid (some qbgProfile) .VIR_VM_OP_CREATE St.init).map
      (fun r => (r.1.rc, decide (Event.openTapDev 7 ∈ r.2.trace),
        decide (Event.close 5 ∈ r.2.trace), disassociateRequests r.2.trace,
        decide (Event.ifaceLinkDel "macvtap0" ∈ r.2.trace))) =
      some (-1, true, true, 1, true) := by
  decide

/-- C10, the code at the failing input: every step up to the header
configuration succeeds and applying the bandwidth fails.  The function returns
-1 while res_ifname holds the name macvtap0; when bringing the interface up
fails, res_ifname is NULL. -/
theorem openMacvtapTap_bandwidth_failure_keeps_res_ifname :
    (openMacvtapTap envBandwidthFails 1 none sampleMac "eth0" .VIR_MACVTAP_MODE_VEPA 0
        sampleUuid (some qbgProfile) .VIR_VM_OP_CREATE St.init).map (fun r => r.1) =
      some ⟨-1, some "macvtap0"⟩ ∧
    (openMacvtapTap envUpFails 1 none sampleMac "eth0" .VIR_MACVTAP_MODE_VEPA 0
        sampleUuid (some qbgProfile) .VIR_VM_OP_CREATE St.init).map (fun r => r.1) =
      some ⟨-1, none⟩ := by
  decide

theorem nameLookups_succ (c k : Nat) :
    nameLookups c (k + 1) = nameLookups c k ++ [.ifaceGetIndex (MACVTAP_NAME_PATTERN (c + k))] := by
  induction k generalizing c with
  | zero => simp [nameLookups]
  | succ k ih =>
      rw [nameLookups, ih (c + 1), nameLookups]
      simp [Nat.add_assoc, Nat.add_comm 1 k]

theorem nameLookups_counts (c k : Nat) :
    (nameLookups c k).countP isLookup = k ∧ (nameLookups c k).countP isLinkAdd = 0 := by
  induction k generalizing c with
  | zero => simp [nameLookups]
  | succ k ih =>
      rw [nameLookups, List.countP_cons, List.countP_cons, (ih (c + 1)).1, (ih (c + 1)).2]
      simp [isLookup, isLinkAdd]

/-- One occupied candidate name: the loop goes on with the next index and the
same retry budget. -/
theorem createNameLoop_occupied (env : Env) (linkdev : String) (mode : Nat) (n c : Nat)
    (ifname : String) (retries : Int) (s : St)
    (h : (env.ifaceGetIndex s.nGetIndex (MACVTAP_NAME_PATTERN c)).1 ≠ -ENODEV) :
    createNameLoop env linkdev mode (n + 1) c ifname retries s =
      createNameLoop env linkdev mode n (c + 1) (MACVTAP_NAME_PATTERN c) retries
        (s.lookedUp c 1) := by
  rw [createNameLoop]
  simp only [h, if_false]
  congr 1

/-- The first k candidate names are occupied: the loop reaches index c + k with
the retry budget it started with. -/
theorem createNameLoop_skip (env : Env) (linkdev : String) (mode : Nat) (k : Nat) :
    ∀ (n c : Nat) (ifname : String) (retries : Int) (s : St), k ≤ n →
      (∀ i, i < k →
        (env.ifaceGetIndex (s.nGetIndex + i) (MACVTAP_NAME_PATTERN (c + i))).1 ≠ -ENODEV) →
      createNameLoop env linkdev mode n c ifname retries s =
        createNameLoop env linkdev mode (n - k) (c + k)
          (if k = 0 then ifname else MACVTAP_NAME_PATTERN (c + k - 1)) retries
          (s.lookedUp c k) := by
  induction k with
  | zero =>
      intro n c ifname retries s _ _
      simp [St.lookedUp, nameLookups]
  | succ k ih =>
      intro n c ifname retries s hn hocc
      obtain ⟨n, rfl⟩ : ∃ m, n = m + 1 := ⟨n - 1, by omega⟩
      have h0 := hocc 0 (by omega)
      simp only [Nat.add_zero] at h0
      rw [createNameLoop_occupied env linkdev mode n c ifname retries s h0]
      rw [ih n (c + 1) _ retries (s.lookedUp c 1) (by omega) (by
        intro i hi
        have := hocc (i + 1) (by omega)
        simpa [St.lookedUp, Nat.add_assoc, Nat.add_comm 1 i] using this)]
      have e1 : n + 1 - (k + 1) = n - k := by omega
      have e2 : c + 1 + k = c + (k + 1) := by omega
      have e3 : (s.lookedUp c 1).lookedUp (c + 1) k = s.lookedUp c (k + 1) := by
        simp [St.lookedUp, nameLookups, Nat.add_assoc, Nat.add_comm 1 k]
      rw [e1, e2, e3]
      congr 1
      rcases Nat.eq_zero_or_pos k with hk | hk
      · subst hk; simp
      · have : ¬ k = 0 := by omega
        simp only [this, if_false, Nat.succ_ne_zero]

/-- C11: when no name is requested, the lookups of the candidate names of
index below k do not report -ENODEV, the lookup of index k does (k below 8192)
and the creation call for that name succeeds, then the name selection creates
and returns the name macvtap followed by k in decimal; its events are exactly
the k+1 lookups of the indices 0 to k followed by one creation call; and the
loop reaches index k with the retry budget 5 it started with. -/
theorem selectAndCreate_least_free_index (env : Env) (linkdev : String) (mode : Nat) (s : St)
    (k : Nat) (hk : k < 8192)
    (hocc : ∀ i, i < k →
      (env.ifaceGetIndex (s.nGetIndex + i) (MACVTAP_NAME_PATTERN i)).1 ≠ -ENODEV)
    (hfree : (env.ifaceGetIndex (s.nGetIndex + k) (MACVTAP_NAME_PATTERN k)).1 = -ENODEV)
    (hadd : (env.ifaceMacvtapLinkAdd s.nLinkAdd (MACVTAP_NAME_PATTERN k) linkdev mode).1 = 0) :
    selectAndCreate env none linkdev mode s =
      (some (MACVTAP_NAME_PATTERN k),
        (s.lookedUp 0 (k + 1)).added (MACVTAP_NAME_PATTERN k) linkdev mode) ∧
    MACVTAP_NAME_PATTERN k = "macvtap" ++ toString k ∧
    (selectAndCreate env none linkdev mode s).2.trace =
      s.trace ++ nameLookups 0 (k + 1) ++
        [.ifaceMacvtapLinkAdd (MACVTAP_NAME_PATTERN k) linkdev mode] ∧
    (selectAndCreate env none linkdev mode s).2.trace.countP isLookup =
      s.trace.countP isLookup + (k + 1) ∧
    (selectAndCreate env none linkdev mode s).2.trace.countP isLinkAdd =
      s.trace.countP isLinkAdd + 1 ∧
    createNameLoop env linkdev mode 8192 0 "" 5 s =
      createNameLoop env linkdev mode (8192 - k) k
        (if k = 0 then "" else MACVTAP_NAME_PATTERN (0 + k - 1)) 5 (s.lookedUp 0 k) := by
  have hskip := createNameLoop_skip env linkdev mode k 8192 0 "" 5 s (by omega)
    (by intro i hi; simpa using hocc i hi)
  simp only [Nat.zero_add] at hskip
  have hmain : selectAndCreate env none linkdev mode s =
      (some (MACVTAP_NAME_PATTERN k),
        (s.lookedUp 0 (k + 1)).added (MACVTAP_NAME_PATTERN k) linkdev mode) := by
    unfold selectAndCreate
    simp only
    rw [hskip]
    obtain ⟨m, hm⟩ : ∃ m, 8192 - k = m + 1 := ⟨8192 - k - 1, by omega⟩
    rw [hm, createNameLoop]
    have e1 : (s.lookedUp 0 k).nGetIndex = s.nGetIndex + k := rfl
    have e2 : (s.lookedUp 0 k).nLinkAdd = s.nLinkAdd := rfl
    simp only [e1, e2, St.log, hfree, hadd, if_true]
    congr 1
    simp [St.added, St.lookedUp, nameLookups_succ, Nat.add_assoc]
  have ht : ((s.lookedUp 0 (k + 1)).added (MACVTAP_NAME_PATTERN k) linkdev mode).trace =
      s.trace ++ nameLookups 0 (k + 1) ++
        [.ifaceMacvtapLinkAdd (MACVTAP_NAME_PATTERN k) linkdev mode] := rfl
  have hc := nameLookups_counts 0 (k + 1)
  refine ⟨hmain, rfl, ?_, ?_, ?_, ?_⟩
  · rw [hmain]
    exact ht
  · rw [hmain]
    show List.countP isLookup ((s.lookedUp 0 (k + 1)).added (MACVTAP_NAME_PATTERN k) linkdev
      mode).trace = _
    rw [ht, List.countP_append, List.countP_append, hc.1]
    simp [isLookup]
  · rw [hmain]
    show List.countP isLinkAdd ((s.lookedUp 0 (k + 1)).added (MACVTAP_NAME_PATTERN k) linkdev
      mode).trace = _
    rw [ht, List.countP_append, List.countP_append, hc.2]
    simp [isLinkAdd]
  · simpa using hskip

/-- Witness of C11: the scenario of the specification with the pattern of the
code, the indices 0 to 2 occupied and index 3 free. -/
theorem selectAndCreate_least_free_index_witness :
    selectAndCreate envThreeTaken none "eth0" MACVLAN_MODE_VEPA St.init =
      (some (MACVTAP_NAME_PATTERN 3),
        (St.init.lookedUp 0 (3 + 1)).added (MACVTAP_NAME_PATTERN 3) "eth0"
          MACVLAN_MODE_VEPA) ∧
    MACVTAP_NAME_PATTERN 3 = "macvtap" ++ toString 3 ∧
    (selectAndCreate envThreeTaken none "eth0" MACVLAN_MODE_VEPA St.init).2.trace =
      St.init.trace ++ nameLookups 0 (3 + 1) ++
        [.ifaceMacvtapLinkAdd (MACVTAP_NAME_PATTERN 3) "eth0" MACVLAN_MODE_VEPA] ∧
    (selectAndCreate envThreeTaken none "eth0" MACVLAN_MODE_VEPA St.init).2.trace.countP
        isLookup = St.init.trace.countP isLookup + (3 + 1) ∧
    (selectAndCreate envThreeTaken none "eth0" MACVLAN_MODE_VEPA St.init).2.trace.countP
        isLinkAdd = St.init.trace.countP isLinkAdd + 1 ∧
    createNameLoop envThreeTaken "eth0" MACVLAN_MODE_VEPA 8192 0 "" 5 St.init =
      createNameLoop envThreeTaken "eth0" MACVLAN_MODE_VEPA (8192 - 3) 3
        (if 3 = 0 then "" else MACVTAP_NAME_PATTERN (0 + 3 - 1)) 5 (St.init.lookedUp 0 3) :=
  selectAndCreate_least_free_index envThreeTaken "eth0" MACVLAN_MODE_VEPA St.init 3
    (by decide) (by intro i hi; interval_cases i <;> decide) (by decide) (by decide)

theorem createNameLoop_add_fails (env : Env) (linkdev : String) (mode : Nat) (n c : Nat)
    (ifname : String) (retries : Int) (s : St)
    (hfree : (env.ifaceGetIndex s.nGetIndex (MACVTAP_NAME_PATTERN c)).1 = -ENODEV)
    (hfail : (env.ifaceMacvtapLinkAdd s.nLinkAdd (MACVTAP_NAME_PATTERN c) linkdev mode).1 ≠ 0) :
    createNameLoop env linkdev mode (n + 1) c ifname retries s =
      if (env.ifaceMacvtapLinkAdd s.nLinkAdd (MACVTAP_NAME_PATTERN c) linkdev mode).2 ≠ 0 ∧
          retries - 1 ≠ 0 then
        createNameLoop env linkdev mode n (c + 1) (MACVTAP_NAME_PATTERN c) (retries - 1)
          ((s.lookedUp c 1).added (MACVTAP_NAME_PATTERN c) linkdev mode)
      else (none, (s.lookedUp c 1).added (MACVTAP_NAME_PATTERN c) linkdev mode) := by
  rw [createNameLoop]
  simp only [hfree, hfail, if_true, if_false, St.log]
  split_ifs <;> congr 1

theorem createNameLoop_linkAdd_bound (env : Env) (linkdev : String) (mode : Nat)
    (hfail : ∀ n x, (env.ifaceMacvtapLinkAdd n x linkdev mode).1 ≠ 0) (n : Nat) :
    ∀ (c : Nat) (ifname : String) (r : Nat) (s : St), 1 ≤ r →
      (createNameLoop env linkdev mode n c ifname (r : Int) s).2.trace.countP isLinkAdd ≤
        s.trace.countP isLinkAdd + r := by
  induction n with
  | zero => intro c ifname r s _; simp [createNameLoop]
  | succ n ih =>
      intro c ifname r s hr
      by_cases hfree : (env.ifaceGetIndex s.nGetIndex (MACVTAP_NAME_PATTERN c)).1 = -ENODEV
      · rw [createNameLoop_add_fails env linkdev mode n c ifname r s hfree (hfail _ _)]
        have hcount : ((s.lookedUp c 1).added (MACVTAP_NAME_PATTERN c) linkdev mode).trace.countP
            isLinkAdd = s.trace.countP isLinkAdd + 1 := by
          simp [St.added, St.lookedUp, nameLookups, List.countP_append, isLinkAdd,
            List.countP_cons]
        split_ifs with h
        · have hr2 : 2 ≤ r := by
            have : (r : Int) ≠ 1 := by intro h1; exact h.2 (by omega)
            omega
          have hcast : ((r : Int) - 1) = ((r - 1 : Nat) : Int) := by omega
          rw [hcast]
          have := ih (c + 1) (MACVTAP_NAME_PATTERN c) (r - 1)
            ((s.lookedUp c 1).added (MACVTAP_NAME_PATTERN c) linkdev mode) (by omega)
          rw [hcount] at this
          omega
        · simp only [hcount]; omega
      · rw [createNameLoop_occupied env linkdev mode n c ifname r s hfree]
        have hcount : (s.lookedUp c 1).trace.countP isLinkAdd = s.trace.countP isLinkAdd := by
          simp [St.lookedUp, nameLookups, List.countP_append, isLinkAdd, List.countP_cons]
        have := ih (c + 1) (MACVTAP_NAME_PATTERN c) r (s.lookedUp c 1) hr
        rw [hcount] at this
        exact this

/-- C12: in the auto-generation loop of openMacvtapTap (the result none stands
for return -1), (1) a creation failure that is not flagged retryable ends the
function with failure right after that creation call; (2) a creation failure
flagged retryable with more than one unit of budget left goes on with the next
candidate name and one unit less; (3) with one unit left it ends the function
with failure; (4) when every creation call fails, at most 5 creation calls are
made; (5) when moreover every candidate name is free and every failure is
flagged retryable, exactly the names of index 0 to 4 are tried, with 5 creation
calls, and the function fails. -/
theorem createNameLoop_retry_budget (env : Env) (linkdev : String) (mode : Nat) :
    (∀ (n c : Nat) (ifname : String) (retries : Int) (s : St),
      (env.ifaceGetIndex s.nGetIndex (MACVTAP_NAME_PATTERN c)).1 = -ENODEV →
      (env.ifaceMacvtapLinkAdd s.nLinkAdd (MACVTAP_NAME_PATTERN c) linkdev mode).1 ≠ 0 →
      (env.ifaceMacvtapLinkAdd s.nLinkAdd (MACVTAP_NAME_PATTERN c) linkdev mode).2 = 0 →
      createNameLoop env linkdev mode (n + 1) c ifname retries s =
        (none, (s.lookedUp c 1).added (MACVTAP_NAME_PATTERN c) linkdev mode)) ∧
    (∀ (n c : Nat) (ifname : String) (retries : Int) (s : St),
      (env.ifaceGetIndex s.nGetIndex (MACVTAP_NAME_PATTERN c)).1 = -ENODEV →
      (env.ifaceMacvtapLinkAdd s.nLinkAdd (MACVTAP_NAME_PATTERN c) linkdev mode).1 ≠ 0 →
      (env.ifaceMacvtapLinkAdd s.nLinkAdd (MACVTAP_NAME_PATTERN c) linkdev mode).2 ≠ 0 →
      retries ≠ 1 →
      createNameLoop env linkdev mode (n + 1) c ifname retries s =
        createNameLoop env linkdev mode n (c + 1) (MACVTAP_NAME_PATTERN c) (retries - 1)
          ((s.lookedUp c 1).added (MACVTAP_NAME_PATTERN c) linkdev mode)) ∧
    (∀ (n c : Nat) (ifname : String) (s : St),
      (env.ifaceGetIndex s.nGetIndex (MACVTAP_NAME_PATTERN c)).1 = -ENODEV →
      (env.ifaceMacvtapLinkAdd s.nLinkAdd (MACVTAP_NAME_PATTERN c) linkdev mode).1 ≠ 0 →
      createNameLoop env linkdev mode (n + 1) c ifname 1 s =
        (none, (s.lookedUp c 1).added (MACVTAP_NAME_PATTERN c) linkdev mode)) ∧
    (∀ s : St, (∀ n x, (env.ifaceMacvtapLinkAdd n x linkdev mode).1 ≠ 0) →
      (selectAndCreate env none linkdev mode s).2.trace.countP isLinkAdd ≤
        s.trace.countP isLinkAdd + 5) ∧
    (∀ s : St, (∀ n x, (env.ifaceGetIndex n x).1 = -ENODEV) →
      (∀ n x, (env.ifaceMacvtapLinkAdd n x linkdev mode).1 ≠ 0 ∧
        (env.ifaceMacvtapLinkAdd n x linkdev mode).2 ≠ 0) →
      (selectAndCreate env none linkdev mode s).1 = none ∧
      (selectAndCreate env none linkdev mode s).2.trace =
        s.trace ++ (lookupAndAdd 0 linkdev mode ++ lookupAndAdd 1 linkdev mode ++
          lookupAndAdd 2 linkdev mode ++ lookupAndAdd 3 linkdev mode ++
          lookupAndAdd 4 linkdev mode) ∧
      (selectAndCreate env none linkdev mode s).2.trace.countP isLinkAdd =
        s.trace.countP isLinkAdd + 5) := by
  refine ⟨?_, ?_, ?_, ?_, ?_⟩
  · intro n c ifname retries s hfree hfail hno
    rw [createNameLoop_add_fails env linkdev mode n c ifname retries s hfree hfail]
    simp [hno]
  · intro n c ifname retries s hfree hfail hre hbudget
    rw [createNameLoop_add_fails env linkdev mode n c ifname retries s hfree hfail]
    have : retries - 1 ≠ 0 := by omega
    simp [hre, this]
  · intro n c ifname s hfree hfail
    rw [createNameLoop_add_fails env linkdev mode n c ifname 1 s hfree hfail]
    simp
  · intro s hfail
    exact createNameLoop_linkAdd_bound env linkdev mode hfail 8192 0 "" 5 s (by omega)
  · intro s hfree hfail
    have hstep : ∀ (n c : Nat) (ifname : String) (retries : Int) (s : St),
        createNameLoop env linkdev mode (n + 1) c ifname retries s =
          if retries - 1 ≠ 0 then
            createNameLoop env linkdev mode n (c + 1) (MACVTAP_NAME_PATTERN c) (retries - 1)
              ((s.lookedUp c 1).added (MACVTAP_NAME_PATTERN c) linkdev mode)
          else (none, (s.lookedUp c 1).added (MACVTAP_NAME_PATTERN c) linkdev mode) := by
      intro n c ifname retries s
      rw [createNameLoop_add_fails env linkdev mode n c ifname retries s (hfree _ _)
        (hfail _ _).1]
      simp [(hfail _ _).2]
    have hres : selectAndCreate env none linkdev mode s =
        (none, (((((((((s.lookedUp 0 1).added (MACVTAP_NAME_PATTERN 0) linkdev mode).lookedUp 1
          1).added (MACVTAP_NAME_PATTERN 1) linkdev mode).lookedUp 2 1).added
          (MACVTAP_NAME_PATTERN 2) linkdev mode).lookedUp 3 1).added (MACVTAP_NAME_PATTERN 3)
          linkdev mode).lookedUp 4 1).added (MACVTAP_NAME_PATTERN 4) linkdev mode) := by
      unfold selectAndCreate
      simp only
      rw [show (8192 : Nat) = 8187 + 1 + 1 + 1 + 1 + 1 from rfl]
      rw [hstep, if_pos (by decide), hstep, if_pos (by decide), hstep, if_pos (by decide),
        hstep, if_pos (by decide), hstep, if_neg (by decide)]
    rw [hres]
    refine ⟨rfl, ?_, ?_⟩
    · simp [St.added, St.lookedUp, nameLookups, lookupAndAdd]
    · simp [St.added, St.lookedUp, nameLookups, List.countP_append, List.countP_cons,
        isLinkAdd]

/-- Witness of C12: every candidate name is free and every creation call fails
retryably; five creation calls are made and the function fails. -/
theorem createNameLoop_retry_budget_witness :
    (selectAndCreate envAddFailsRetry none "eth0" MACVLAN_MODE_VEPA St.init).2.trace.countP
        isLinkAdd ≤ St.init.trace.countP isLinkAdd + 5 ∧
    (selectAndCreate envAddFailsRetry none "eth0" MACVLAN_MODE_VEPA St.init).1 = none ∧
    (selectAndCreate envAddFailsRetry none "eth0" MACVLAN_MODE_VEPA St.init).2.trace =
      St.init.trace ++ (lookupAndAdd 0 "eth0" MACVLAN_MODE_VEPA ++
        lookupAndAdd 1 "eth0" MACVLAN_MODE_VEPA ++ lookupAndAdd 2 "eth0" MACVLAN_MODE_VEPA ++
        lookupAndAdd 3 "eth0" MACVLAN_MODE_VEPA ++ lookupAndAdd 4 "eth0" MACVLAN_MODE_VEPA) ∧
    (selectAndCreate envAddFailsRetry none "eth0" MACVLAN_MODE_VEPA St.init).2.trace.countP
        isLinkAdd = St.init.trace.countP isLinkAdd + 5 :=
  ⟨(createNameLoop_retry_budget envAddFailsRetry "eth0" MACVLAN_MODE_VEPA).2.2.2.1 St.init
      (fun _ _ => (by decide : (-1 : Int) ≠ 0)),
    (createNameLoop_retry_budget envAddFailsRetry "eth0" MACVLAN_MODE_VEPA).2.2.2.2 St.init
      (fun _ _ => rfl)
      (fun _ _ => ⟨(by decide : (-1 : Int) ≠ 0), (by decide : (1 : Int) ≠ 0)⟩)⟩

/-- No candidate name is found free: the loop ends by exhaustion and hands on
the last name it printed, without any creation call. -/
theorem createNameLoop_exhausted (env : Env) (linkdev : String) (mode : Nat) (n c : Nat)
    (ifname : String) (retries : Int) (s : St)
    (hocc : ∀ i, i < n →
      (env.ifaceGetIndex (s.nGetIndex + i) (MACVTAP_NAME_PATTERN (c + i))).1 ≠ -ENODEV) :
    createNameLoop env linkdev mode n c ifname retries s =
      (some (if n = 0 then ifname else MACVTAP_NAME_PATTERN (c + n - 1)), s.lookedUp c n) := by
  rw [createNameLoop_skip env linkdev mode n n c ifname retries s (le_refl n) hocc,
    Nat.sub_self, createNameLoop]

/-- C13, the code at the failing input: no name is requested and all 8192
candidate names are in use.  The name selection makes no creation call and
hands on the name macvtap8191; the function associates, brings up and opens
that interface and returns its descriptor as success with res_ifname
macvtap8191; when bringing it up fails, the function deletes the interface
macvtap8191, which it has not created. -/
theorem openMacvtapTap_all_names_taken :
    createInterface envNameTaken none sampleMac "eth0" .VIR_MACVTAP_MODE_VEPA St.init =
      (some "macvtap8191", St.init.lookedUp 0 8192) ∧
    (St.init.lookedUp 0 8192).trace.countP isLinkAdd = 0 ∧
    (openMacvtapTap envNameTaken 1 none sampleMac "eth0" .VIR_MACVTAP_MODE_VEPA 0
        sampleUuid none .VIR_VM_OP_CREATE St.init).map (fun r => (r.1, r.2.trace)) =
      some (⟨5, some "macvtap8191"⟩,
        (St.init.lookedUp 0 8192).trace ++
          [.debugAssociating "macvtap8191" .VIR_VM_OP_CREATE, .ifaceUp "macvtap8191",
           .readIfindex "macvtap8191", .openTapDev 7, .TUNGETIFF 5,
           .virBandwidthEnable "macvtap8191"]) ∧
    (openMacvtapTap envNameTakenUpFails 1 none sampleMac "eth0" .VIR_MACVTAP_MODE_VEPA 0
        sampleUuid none .VIR_VM_OP_CREATE St.init).map (fun r => (r.1, r.2.trace)) =
      some (⟨-1, none⟩,
        (St.init.lookedUp 0 8192).trace ++
          [.debugAssociating "macvtap8191" .VIR_VM_OP_CREATE, .ifaceUp "macvtap8191",
           .debugDisassociating "macvtap8191" .VIR_VM_OP_CREATE,
           .ifaceLinkDel "macvtap8191"]) := by
  have hname : MACVTAP_NAME_PATTERN (0 + 8192 - 1) = "macvtap8191" := by decide
  have hlen : ¬ (64 ≤ 23 + "macvtap8191".utf8ByteSize) := by decide
  have hcreate : ∀ env : Env, (∀ n x, (env.ifaceGetIndex n x).1 = 0) →
      createInterface env none sampleMac "eth0" .VIR_MACVTAP_MODE_VEPA St.init =
        (some "macvtap8191", St.init.lookedUp 0 8192) := by
    intro env henv
    have h := createNameLoop_exhausted env "eth0" (modeMap .VIR_MACVTAP_MODE_VEPA) 8192 0 "" 5
      St.init (by intro i _; rw [henv]; decide)
    rw [if_neg (by decide), hname] at h
    unfold createInterface selectAndCreate
    rw [if_neg (by decide)]
    exact h
  have h1 := hcreate envNameTaken (fun _ _ => rfl)
  have h2 := hcreate envNameTakenUpFails (fun _ _ => rfl)
  refine ⟨h1, (nameLookups_counts 0 8192).2, ?_, ?_⟩
  · rw [openMacvtapTap_created envNameTaken 1 none sampleMac "eth0" .VIR_MACVTAP_MODE_VEPA 0
      sampleUuid none .VIR_VM_OP_CREATE St.init "macvtap8191" (by rw [h1]), h1]
    simp [attachCreated, vpAssociatePortProfileId, stepsAfterAssociation, openTap, openTapLoop,
      configMacvtapTap, St.log, envNameTaken, envOk, IFF_VNET_HDR, hlen]
  · rw [openMacvtapTap_created envNameTakenUpFails 1 none sampleMac "eth0"
      .VIR_MACVTAP_MODE_VEPA 0 sampleUuid none .VIR_VM_OP_CREATE St.init "macvtap8191"
      (by rw [h2]), h2]
    simp [attachCreated, vpAssociatePortProfileId, stepsAfterAssociation, disassociate_exit,
      link_del_exit, vpDisassociatePortProfileId, St.log, envNameTakenUpFails, envNameTaken,
      envOk]

theorem St.tapRetried_succ (s : St) (ifindex : Int) (k : Nat) :
    (s.tapRetried ifindex 1).tapRetried ifindex k = s.tapRetried ifindex (k + 1) := by
  simp [St.tapRetried, tapRetries, Nat.add_assoc, Nat.add_comm 1 k]

/-- The first k attempts fail and retries are left: the loop sleeps after each
and goes on. -/
theorem openTapLoop_retries (env : Env) (ifindex : Int) (k : Nat) :
    ∀ (r : Nat) (s : St), k ≤ r →
      (∀ i, i < k → env.openTapDev (s.nOpen + i) ifindex < 0) →
      openTapLoop env ifindex r s = openTapLoop env ifindex (r - k) (s.tapRetried ifindex k) := by
  induction k with
  | zero => intro r s _ _; simp [St.tapRetried, tapRetries]
  | succ k ih =>
      intro r s hr hfail
      obtain ⟨r, rfl⟩ : ∃ m, r = m + 1 := ⟨r - 1, by omega⟩
      have h0 := hfail 0 (by omega)
      simp only [Nat.add_zero] at h0
      have hstep : openTapLoop env ifindex (r + 1) s =
          openTapLoop env ifindex r (s.tapRetried ifindex 1) := by
        rw [openTapLoop]
        simp only [h0, if_true, St.log]
        congr 1
        simp [St.tapRetried, tapRetries]
      rw [hstep, ih r (s.tapRetried ifindex 1) (by omega) (by
        intro i hi
        have := hfail (i + 1) (by omega)
        simpa [St.tapRetried, Nat.add_assoc, Nat.add_comm 1 i] using this),
        St.tapRetried_succ]
      congr 1
      omega

/-- The last attempt of the loop, with no retries left, is returned as it is. -/
theorem openTapLoop_last (env : Env) (ifindex : Int) (s : St) :
    openTapLoop env ifindex 0 s = (env.openTapDev s.nOpen ifindex, s.tapOpened ifindex) := by
  rw [openTapLoop]
  rfl

theorem tapRetries_counts (ifindex : Int) (k : Nat) :
    (tapRetries ifindex k).countP isTapOpen = k ∧ (tapRetries ifindex k).countP isSleep = k := by
  induction k with
  | zero => simp [tapRetries]
  | succ k ih =>
      rw [tapRetries, List.countP_cons, List.countP_cons, List.countP_cons, List.countP_cons,
        ih.1, ih.2]
      simp [isTapOpen, isSleep]

theorem vnetBit_set_iff (f : Nat) : f &&& IFF_VNET_HDR ≠ 0 ↔ f.testBit 14 = true := by
  have h : IFF_VNET_HDR = 2 ^ 14 := rfl
  rw [h, Nat.and_two_pow]
  cases f.testBit 14 <;> simp

theorem vnetBit_cleared (f : Nat) (hf : f < 65536) (i : Nat) :
    (f &&& (65535 ^^^ IFF_VNET_HDR)).testBit i = (f.testBit i && decide (i ≠ 14)) := by
  have h1 : IFF_VNET_HDR = 2 ^ 14 := rfl
  have h2 : (65535 : Nat) = 2 ^ 16 - 1 := rfl
  rw [h1, h2, Nat.testBit_and, Nat.testBit_xor, Nat.testBit_two_pow_sub_one,
    Nat.testBit_two_pow]
  by_cases hi : i < 16
  · by_cases h14 : i = 14
    · subst h14; simp
    · have : ¬ 14 = i := fun h => h14 h.symm
      simp [hi, h14, this]
  · have hlt : f < 2 ^ i := by
      have : 2 ^ 16 ≤ 2 ^ i := Nat.pow_le_pow_right (by omega) (by omega)
      omega
    simp [Nat.testBit_lt_two_pow hlt]

theorem vnetBit_added (f : Nat) (i : Nat) :
    (f ||| IFF_VNET_HDR).testBit i = (f.testBit i || decide (i = 14)) := by
  have h1 : IFF_VNET_HDR = 2 ^ 14 := rfl
  rw [h1, Nat.testBit_or, Nat.testBit_two_pow]
  by_cases h14 : i = 14
  · subst h14; simp
  · have : ¬ 14 = i := fun h => h14 h.symm
    simp [h14, this]

theorem vnetBit_cleared_ne (f : Nat) (hf : f < 65536) (hset : f &&& IFF_VNET_HDR ≠ 0) :
    f &&& (65535 ^^^ IFF_VNET_HDR) ≠ f := by
  intro h
  have h14 := vnetBit_cleared f hf 14
  rw [h, (vnetBit_set_iff f).mp hset] at h14
  simp at h14

theorem vnetBit_added_ne (f : Nat) (habs : f &&& IFF_VNET_HDR = 0) :
    f ||| IFF_VNET_HDR ≠ f := by
  intro h
  have h14 := vnetBit_added f 14
  have hf : f.testBit 14 = false := by
    by_contra hc
    exact (vnetBit_set_iff f).mpr (by simpa using hc) habs
  rw [h, hf] at h14
  simp at h14

/-- C16: in configMacvtapTap, when the flags are read, IFF_VNET_HDR (bit 14) is
set in them and the header is not wanted, exactly one request to set the flags
is issued, with the current flags in which only bit 14 is cleared; the result is
0 when that request succeeds and -1 when it fails.  And when configMacvtapTap
returns a negative value in openMacvtapTap, the steps close the tap descriptor
and jump to disassociate_exit with rc -1 and an empty res_ifname. -/
theorem configMacvtapTap_clears_unwanted_flag (env : Env) (tapfd : Int) (vnet_hdr : Int)
    (s : St)
    (hget : ¬ (env.TUNGETIFF tapfd).1 < 0)
    (hset : (env.TUNGETIFF tapfd).2 % 65536 &&& IFF_VNET_HDR ≠ 0)
    (hwant : vnet_hdr = 0) :
    configMacvtapTap env tapfd vnet_hdr s =
      (if env.TUNSETIFF tapfd
            ((env.TUNGETIFF tapfd).2 % 65536 &&& (65535 ^^^ IFF_VNET_HDR)) < 0
          then -1 else 0,
        (s.log (.TUNGETIFF tapfd)).log
          (.TUNSETIFF tapfd ((env.TUNGETIFF tapfd).2 % 65536 &&& (65535 ^^^ IFF_VNET_HDR)))) ∧
    (IFF_VNET_HDR = 2 ^ 14 ∧
      ∀ i, ((env.TUNGETIFF tapfd).2 % 65536 &&& (65535 ^^^ IFF_VNET_HDR)).testBit i =
        (((env.TUNGETIFF tapfd).2 % 65536).testBit i && decide (i ≠ 14))) ∧
    (∀ (cr : String) (s0 : St), ¬ env.ifaceUp cr < 0 →
      0 ≤ (openTap env cr 10 (s0.log (.ifaceUp cr))).1 →
      (configMacvtapTap env (openTap env cr 10 (s0.log (.ifaceUp cr))).1 vnet_hdr
        (openTap env cr 10 (s0.log (.ifaceUp cr))).2).1 < 0 →
      stepsAfterAssociation env cr vnet_hdr s0 =
        .disassociate_exit (-1) none
          ((configMacvtapTap env (openTap env cr 10 (s0.log (.ifaceUp cr))).1 vnet_hdr
            (openTap env cr 10 (s0.log (.ifaceUp cr))).2).2.log
            (.close (openTap env cr 10 (s0.log (.ifaceUp cr))).1))) := by
  have hlt : (env.TUNGETIFF tapfd).2 % 65536 < 65536 := Nat.mod_lt _ (by omega)
  have hne := vnetBit_cleared_ne _ hlt hset
  refine ⟨?_, ⟨rfl, fun i => vnetBit_cleared _ hlt i⟩, ?_⟩
  · unfold configMacvtapTap
    simp only [hget, if_false, hset, hwant, ne_eq, not_false_eq_true, and_self, if_true, hne]
    split_ifs <;> rfl
  · intro cr s0 hup hopen hcfg
    unfold stepsAfterAssociation
    simp only [hup, if_false, hopen, if_true, hcfg]

/-- Witness of C16: the flags are 0x4001, the header is not wanted and the
request to set the flags fails. -/
theorem configMacvtapTap_clears_unwanted_flag_witness :
    configMacvtapTap envVnetSet 5 0 St.init =
      (if envVnetSet.TUNSETIFF 5
            ((envVnetSet.TUNGETIFF 5).2 % 65536 &&& (65535 ^^^ IFF_VNET_HDR)) < 0
          then -1 else 0,
        (St.init.log (.TUNGETIFF 5)).log
          (.TUNSETIFF 5 ((envVnetSet.TUNGETIFF 5).2 % 65536 &&& (65535 ^^^ IFF_VNET_HDR)))) :=
  (configMacvtapTap_clears_unwanted_flag envVnetSet 5 0 St.init (by decide) (by decide)
    rfl).1

/-- C17: in configMacvtapTap, when the flags are read, (1) if IFF_VNET_HDR is
absent from them and wanted, the result is never negative; a failing feature
query yields errno and no request to set flags; a feature query that does not
report IFF_VNET_HDR yields 0 and no request to set flags; a feature query that
reports it yields one request to set the current flags with only bit 14 added,
and the result 0 whether or not that request succeeds; (2) if the flag is
present and wanted, or absent and not wanted, no request to set flags is issued
and the result is 0. -/
theorem configMacvtapTap_wanted_flag (env : Env) (tapfd : Int) (vnet_hdr : Int) (s : St)
    (hget : ¬ (env.TUNGETIFF tapfd).1 < 0) :
    ((env.TUNGETIFF tapfd).2 % 65536 &&& IFF_VNET_HDR = 0 → vnet_hdr ≠ 0 →
      0 ≤ (configMacvtapTap env tapfd vnet_hdr s).1 ∧
      ((env.TUNGETFEATURES tapfd).1 ≠ 0 →
        configMacvtapTap env tapfd vnet_hdr s =
          ((((env.TUNGETFEATURES tapfd).2.2 : Nat) : Int),
            (s.log (.TUNGETIFF tapfd)).log (.TUNGETFEATURES tapfd))) ∧
      ((env.TUNGETFEATURES tapfd).1 = 0 →
        (env.TUNGETFEATURES tapfd).2.1 &&& IFF_VNET_HDR = 0 →
        configMacvtapTap env tapfd vnet_hdr s =
          (0, (s.log (.TUNGETIFF tapfd)).log (.TUNGETFEATURES tapfd))) ∧
      ((env.TUNGETFEATURES tapfd).1 = 0 →
        (env.TUNGETFEATURES tapfd).2.1 &&& IFF_VNET_HDR ≠ 0 →
        configMacvtapTap env tapfd vnet_hdr s =
          (0, ((s.log (.TUNGETIFF tapfd)).log (.TUNGETFEATURES tapfd)).log
            (.TUNSETIFF tapfd ((env.TUNGETIFF tapfd).2 % 65536 ||| IFF_VNET_HDR))) ∧
        ∀ i, ((env.TUNGETIFF tapfd).2 % 65536 ||| IFF_VNET_HDR).testBit i =
          (((env.TUNGETIFF tapfd).2 % 65536).testBit i || decide (i = 14)))) ∧
    (((env.TUNGETIFF tapfd).2 % 65536 &&& IFF_VNET_HDR ≠ 0 ∧ vnet_hdr ≠ 0) ∨
        ((env.TUNGETIFF tapfd).2 % 65536 &&& IFF_VNET_HDR = 0 ∧ vnet_hdr = 0) →
      configMacvtapTap env tapfd vnet_hdr s = (0, s.log (.TUNGETIFF tapfd))) := by
  constructor
  · intro habs hwant
    have hadd := vnetBit_added_ne _ habs
    have hq1 : (env.TUNGETFEATURES tapfd).1 ≠ 0 →
        configMacvtapTap env tapfd vnet_hdr s =
          ((((env.TUNGETFEATURES tapfd).2.2 : Nat) : Int),
            (s.log (.TUNGETIFF tapfd)).log (.TUNGETFEATURES tapfd)) := by
      intro hq
      unfold configMacvtapTap
      simp only [hget, if_false, habs, hwant, ne_eq, not_true_eq_false, false_and,
        not_false_eq_true, and_self, if_true, hq]
    have hq2 : (env.TUNGETFEATURES tapfd).1 = 0 →
        (env.TUNGETFEATURES tapfd).2.1 &&& IFF_VNET_HDR = 0 →
        configMacvtapTap env tapfd vnet_hdr s =
          (0, (s.log (.TUNGETIFF tapfd)).log (.TUNGETFEATURES tapfd)) := by
      intro hq hf
      unfold configMacvtapTap
      simp only [hget, if_false, habs, hwant, ne_eq, not_true_eq_false, false_and,
        not_false_eq_true, and_self, if_true, hq, hf]
    have hq3 : (env.TUNGETFEATURES tapfd).1 = 0 →
        (env.TUNGETFEATURES tapfd).2.1 &&& IFF_VNET_HDR ≠ 0 →
        configMacvtapTap env tapfd vnet_hdr s =
          (0, ((s.log (.TUNGETIFF tapfd)).log (.TUNGETFEATURES tapfd)).log
            (.TUNSETIFF tapfd ((env.TUNGETIFF tapfd).2 % 65536 ||| IFF_VNET_HDR))) := by
      intro hq hf
      unfold configMacvtapTap
      simp only [hget, if_false, habs, hwant, ne_eq, not_true_eq_false, false_and,
        not_false_eq_true, and_self, if_true, hq, hf, hadd]
      split_ifs <;> rfl
    refine ⟨?_, hq1, hq2, fun hq hf => ⟨hq3 hq hf, fun i => vnetBit_added _ i⟩⟩
    by_cases hq : (env.TUNGETFEATURES tapfd).1 = 0
    · by_cases hf : (env.TUNGETFEATURES tapfd).2.1 &&& IFF_VNET_HDR = 0
      · rw [hq2 hq hf]
      · rw [hq3 hq hf]
    · rw [hq1 hq]
      exact Int.ofNat_nonneg _
  · intro h
    unfold configMacvtapTap
    rcases h with ⟨h1, h2⟩ | ⟨h1, h2⟩
    · simp only [hget, if_false, h1, h2, ne_eq, not_true_eq_false, not_false_eq_true,
        and_false, false_and, and_true, if_true]
    · simp only [hget, if_false, h1, h2, ne_eq, not_true_eq_false, not_false_eq_true,
        and_false, false_and, and_true, if_true]

/-- Witness of C17: the flags are 1, the header is wanted and the feature query
does not report IFF_VNET_HDR. -/
theorem configMacvtapTap_wanted_flag_witness :
    configMacvtapTap envVnetUnsupported 5 1 St.init =
      (0, (St.init.log (.TUNGETIFF 5)).log (.TUNGETFEATURES 5)) :=
  ((configMacvtapTap_wanted_flag envVnetUnsupported 5 1 St.init (by decide)).1 (by decide)
    (by decide)).2.2.1 (by decide) (by decide)

end Lifecycle

section Codec

theorem scanVfPorts_passedOver (vf : Int) (iid : Option (List Nat)) (pre : List NestedAttr) :
    ∀ rest : List NestedAttr, (∀ x ∈ pre, x.passedOver vf iid) →
      scanVfPorts vf iid (pre ++ rest) = scanVfPorts vf iid rest := by
  induction pre with
  | nil => intro rest _; rfl
  | cons x pre ih =>
      intro rest h
      obtain ⟨hty, t, hp, hm⟩ := h x (List.mem_cons_self _ _)
      rw [List.cons_append, scanVfPorts]
      simp only [hty, ne_eq, not_true_eq_false, if_false, hp, hm]
      exact ih rest (fun y hy => h y (List.mem_cons_of_mem _ hy))

/-- C18, counterexample: the VF-ports list holds a nested attribute of type 7
followed by an entry that matches the request and reports success.
getPortProfileStatus returns an error on it instead of the status of the
matching entry; without the first attribute it returns that status. -/
theorem getPortProfileStatus_wrong_type_before_match :
    vfPortMatches PORT_SELF_VF (some sampleUuid)
      ⟨some sampleUuid, some 4294967295, some PORT_PROFILE_RESPONSE_SUCCESS⟩ = true ∧
    getPortProfileStatus (tbVfPorts [entryWrongType, entrySuccess]) PORT_SELF_VF
      (some sampleUuid) false true = (1, none) ∧
    getPortProfileStatus (tbVfPorts [entrySuccess]) PORT_SELF_VF
      (some sampleUuid) false true = (0, some PORT_PROFILE_RESPONSE_SUCCESS) := by
  decide

/-- C18, amended: in the VF-ports-list case getPortProfileStatus scans the
entries in order.  An entry matches when the request has an instance id, the
entry has an instance UUID with the same first 16 bytes, and the entry has a VF
attribute equal to the VF index of the request taken as uint32_t.  (1) If the
entries before the first match all have type IFLA_VF_PORT, parse and do not
match, the result is the status of the first match, whatever follows it (also
malformed entries).  (2) If all entries are of that kind (including the empty
list), the result is the error 1 and no status.  (3) If the first entry that is
not of that kind has another type or does not parse, the result is the error 1
and no status, whatever follows it. -/
theorem getPortProfileStatus_vf_ports_scan (vf : Int) (instanceId : Option (List Nat))
    (nltarget_kernel is8021Qbg : Bool) (self : Option NestedAttr)
    (pre post : List NestedAttr)
    (hlist : ¬ (vf = PORT_SELF_VF ∧ nltarget_kernel = true))
    (hpre : ∀ x ∈ pre, x.passedOver vf instanceId) :
    (∀ t, vfPortMatches vf instanceId t = true ↔
      ∃ i u p, instanceId = some i ∧ t.IFLA_PORT_INSTANCE_UUID = some u ∧
        t.IFLA_PORT_VF = some p ∧ i.take VIR_UUID_BUFLEN = u.take VIR_UUID_BUFLEN ∧
        vf % 4294967296 = (p : Int)) ∧
    (∀ e t, e.nla_type = IFLA_VF_PORT → e.parsed = some t →
      vfPortMatches vf instanceId t = true →
      getPortProfileStatus ⟨self, some (pre ++ e :: post)⟩ vf instanceId nltarget_kernel
        is8021Qbg = statusOfPort t is8021Qbg) ∧
    getPortProfileStatus ⟨self, some pre⟩ vf instanceId nltarget_kernel is8021Qbg
      = (1, none) ∧
    (∀ e, e.malformed →
      getPortProfileStatus ⟨self, some (pre ++ e :: post)⟩ vf instanceId nltarget_kernel
        is8021Qbg = (1, none)) := by
  refine ⟨?_, ?_, ?_, ?_⟩
  · intro t
    unfold vfPortMatches
    cases instanceId with
    | none => simp
    | some i =>
        cases t.IFLA_PORT_INSTANCE_UUID with
        | none => simp
        | some u =>
            cases t.IFLA_PORT_VF with
            | none => simp
            | some p => simp
  · intro e t hty hp hm
    unfold getPortProfileStatus locatePort
    simp only [hlist, if_false]
    rw [scanVfPorts_passedOver vf instanceId pre _ hpre, scanVfPorts]
    simp only [hty, ne_eq, not_true_eq_false, if_false, hp, hm, if_true]
  · unfold getPortProfileStatus locatePort
    simp only [hlist, if_false]
    have := scanVfPorts_passedOver vf instanceId pre [] hpre
    rw [List.append_nil] at this
    rw [this, scanVfPorts]
  · intro e he
    unfold getPortProfileStatus locatePort
    simp only [hlist, if_false]
    rw [scanVfPorts_passedOver vf instanceId pre _ hpre, scanVfPorts]
    rcases he with h | h
    · simp only [h, ne_eq, not_false_eq_true, if_true]
    · by_cases hty : e.nla_type ≠ IFLA_VF_PORT
      · simp only [hty, ne_eq, not_false_eq_true, if_true]
      · simp only [hty, if_false, h]

/-- Witness of the amended C18: an entry for another VF index, the matching
entry, then a nested attribute of type 7. -/
theorem getPortProfileStatus_vf_ports_scan_witness :
    getPortProfileStatus ⟨none, some ([entryOtherVf] ++ entrySuccess :: [entryWrongType])⟩
        PORT_SELF_VF (some sampleUuid) false true =
      statusOfPort ⟨some sampleUuid, some 4294967295, some PORT_PROFILE_RESPONSE_SUCCESS⟩ true :=
  (getPortProfileStatus_vf_ports_scan PORT_SELF_VF (some sampleUuid) false true none
    [entryOtherVf] [entryWrongType] (by decide)
    (by
      intro x hx
      simp only [List.mem_singleton] at hx
      subst hx
      exact ⟨rfl, _, rfl, by decide⟩)).2.1 entrySuccess _ rfl rfl (by decide)

/-- C19: doPortProfileOpSetLink ends the message with a self port block, and
puts no VF-ports list into it, when the VF index is PORT_SELF_VF and the target
is the kernel; in every other case it ends the message with a VF-ports list
that holds exactly one port block, and puts no self port block into it.  Under
the same condition getPortProfileStatus reads the self port block of the
response: without that block, or when it does not parse, the result is the
error 1, whatever the VF-ports list holds, and otherwise it is the status of
that block.  In every other case it reads the VF-ports list: without the list
the result is the error 1, whatever the self port block holds, and otherwise it
is the status of the entry the scan of the list finds, in particular that of a
matching first entry.  In both cases the result does not depend on the block of
the other kind. -/
theorem setLinkMsg_block_kind_agrees (a : OpArgs) :
    ((a.vf = PORT_SELF_VF ∧ a.nltarget_kernel = true) →
      (setLinkMsg a).attrs.getLast? = some (.IFLA_PORT_SELF (portBlock a)) ∧
      (setLinkMsg a).attrs.countP isPortSelfAttr = 1 ∧
      (setLinkMsg a).attrs.countP isVfPortsAttr = 0 ∧
      (∀ (tb1 tb2 : LinkTb) (iid : Option (List Nat)) (q : Bool),
        tb1.IFLA_PORT_SELF = tb2.IFLA_PORT_SELF →
        getPortProfileStatus tb1 a.vf iid a.nltarget_kernel q =
          getPortProfileStatus tb2 a.vf iid a.nltarget_kernel q) ∧
      (∀ (tb : LinkTb) (iid : Option (List Nat)) (q : Bool), tb.IFLA_PORT_SELF = none →
        getPortProfileStatus tb a.vf iid a.nltarget_kernel q = (1, none)) ∧
      (∀ (tb : LinkTb) (iid : Option (List Nat)) (q : Bool) (blk : NestedAttr),
        tb.IFLA_PORT_SELF = some blk → blk.parsed = none →
        getPortProfileStatus tb a.vf iid a.nltarget_kernel q = (1, none)) ∧
      (∀ (tb : LinkTb) (iid : Option (List Nat)) (q : Bool) (blk : NestedAttr) (t : PortTb),
        tb.IFLA_PORT_SELF = some blk → blk.parsed = some t →
        getPortProfileStatus tb a.vf iid a.nltarget_kernel q = statusOfPort t q ∧
        ∀ v, t.IFLA_PORT_RESPONSE = some v →
          getPortProfileStatus tb a.vf iid a.nltarget_kernel q = (0, some v))) ∧
    (¬ (a.vf = PORT_SELF_VF ∧ a.nltarget_kernel = true) →
      (setLinkMsg a).attrs.getLast? = some (.IFLA_VF_PORTS [portBlock a]) ∧
      (setLinkMsg a).attrs.countP isPortSelfAttr = 0 ∧
      (setLinkMsg a).attrs.countP isVfPortsAttr = 1 ∧
      (∀ (tb1 tb2 : LinkTb) (iid : Option (List Nat)) (q : Bool),
        tb1.IFLA_VF_PORTS = tb2.IFLA_VF_PORTS →
        getPortProfileStatus tb1 a.vf iid a.nltarget_kernel q =
          getPortProfileStatus tb2 a.vf iid a.nltarget_kernel q) ∧
      (∀ (tb : LinkTb) (iid : Option (List Nat)) (q : Bool), tb.IFLA_VF_PORTS = none →
        getPortProfileStatus tb a.vf iid a.nltarget_kernel q = (1, none)) ∧
      (∀ (tb : LinkTb) (iid : Option (List Nat)) (q : Bool) (entries : List NestedAttr),
        tb.IFLA_VF_PORTS = some entries →
        (∀ msg, scanVfPorts a.vf iid entries = .error msg →
          getPortProfileStatus tb a.vf iid a.nltarget_kernel q = (1, none)) ∧
        (∀ t, scanVfPorts a.vf iid entries = .ok t →
          getPortProfileStatus tb a.vf iid a.nltarget_kernel q = statusOfPort t q)) ∧
      (∀ (tb : LinkTb) (iid : Option (List Nat)) (q : Bool) (e : NestedAttr)
          (rest : List NestedAttr) (t : PortTb) (v : Nat),
        tb.IFLA_VF_PORTS = some (e :: rest) → e.nla_type = IFLA_VF_PORT →
        e.parsed = some t → vfPortMatches a.vf iid t = true →
        t.IFLA_PORT_RESPONSE = some v →
        getPortProfileStatus tb a.vf iid a.nltarget_kernel q = (0, some v))) := by
  have hpre : ∀ x ∈ (match a.ifname with
        | some n => [NlAttr.IFLA_IFNAME n] | none => []) ++ vfInfoBlock a,
      isPortSelfAttr x = false ∧ isVfPortsAttr x = false := by
    intro x hx
    rcases List.mem_append.mp hx with h | h
    · cases hn : a.ifname with
      | none => simp [hn] at h
      | some n =>
          simp only [hn, List.mem_singleton] at h
          subst h
          exact ⟨rfl, rfl⟩
    · unfold vfInfoBlock at h
      by_cases hv : a.macaddr.isSome = true ∨ 0 ≤ a.vlanid
      · rw [if_pos hv, List.mem_singleton] at h
        subst h
        exact ⟨rfl, rfl⟩
      · rw [if_neg hv] at h
        exact absurd h (List.not_mem_nil _)
  have hc1 : ((match a.ifname with
        | some n => [NlAttr.IFLA_IFNAME n] | none => []) ++ vfInfoBlock a).countP
        isPortSelfAttr = 0 := by
    rw [List.countP_eq_zero]
    intro x hx
    simp [(hpre x hx).1]
  have hc2 : ((match a.ifname with
        | some n => [NlAttr.IFLA_IFNAME n] | none => []) ++ vfInfoBlock a).countP
        isVfPortsAttr = 0 := by
    rw [List.countP_eq_zero]
    intro x hx
    simp [(hpre x hx).2]
  constructor
  · intro h
    have hattrs : (setLinkMsg a).attrs = ((match a.ifname with
        | some n => [NlAttr.IFLA_IFNAME n] | none => []) ++ vfInfoBlock a) ++
        [.IFLA_PORT_SELF (portBlock a)] := by
      simp only [setLinkMsg, h, and_self, if_true]
      try rfl
    have hread : ∀ (tb : LinkTb) (iid : Option (List Nat)) (q : Bool),
        getPortProfileStatus tb a.vf iid a.nltarget_kernel q =
          match (match tb.IFLA_PORT_SELF with
              | some blk =>
                  match blk.parsed with
                  | none => Except.error "error parsing IFLA_PORT_SELF part"
                  | some tb_port => Except.ok tb_port
              | none => Except.error "IFLA_PORT_SELF is missing") with
          | .error _ => (1, none)
          | .ok tb_port => statusOfPort tb_port q := by
      intro tb iid q
      unfold getPortProfileStatus locatePort
      rw [if_pos h]
      try rfl
    refine ⟨?_, ?_, ?_, ?_, ?_, ?_, ?_⟩
    · rw [hattrs, List.getLast?_append]; rfl
    · rw [hattrs, List.countP_append, hc1]; rfl
    · rw [hattrs, List.countP_append, hc2]; rfl
    · intro tb1 tb2 iid q heq
      rw [hread, hread, heq]
    · intro tb iid q hnone
      rw [hread, hnone]
    · intro tb iid q blk hblk hp
      rw [hread, hblk]
      simp only [hp]
    · intro tb iid q blk t hblk hp
      have hs : getPortProfileStatus tb a.vf iid a.nltarget_kernel q = statusOfPort t q := by
        rw [hread, hblk]
        simp only [hp]
      refine ⟨hs, ?_⟩
      intro v hv
      rw [hs, statusOfPort]
      simp only [hv]
  · intro h
    have hattrs : (setLinkMsg a).attrs = ((match a.ifname with
        | some n => [NlAttr.IFLA_IFNAME n] | none => []) ++ vfInfoBlock a) ++
        [.IFLA_VF_PORTS [portBlock a]] := by
      simp only [setLinkMsg, h, if_false]
      try rfl
    have hread : ∀ (tb : LinkTb) (iid : Option (List Nat)) (q : Bool),
        getPortProfileStatus tb a.vf iid a.nltarget_kernel q =
          match (match tb.IFLA_VF_PORTS with
              | some entries => scanVfPorts a.vf iid entries
              | none => Except.error "IFLA_VF_PORTS is missing") with
          | .error _ => (1, none)
          | .ok tb_port => statusOfPort tb_port q := by
      intro tb iid q
      unfold getPortProfileStatus locatePort
      rw [if_neg h]
      try rfl
    refine ⟨?_, ?_, ?_, ?_, ?_, ?_, ?_⟩
    · rw [hattrs, List.getLast?_append]; rfl
    · rw [hattrs, List.countP_append, hc1]; rfl
    · rw [hattrs, List.countP_append, hc2]; rfl
    · intro tb1 tb2 iid q heq
      rw [hread, hread, heq]
    · intro tb iid q hnone
      rw [hread, hnone]
    · intro tb iid q entries hent
      constructor
      · intro msg hmsg
        rw [hread, hent]
        simp only [hmsg]
      · intro t ht
        rw [hread, hent]
        simp only [ht]
    · intro tb iid q e rest t v hent hty hp hm hv
      have hscan : scanVfPorts a.vf iid (e :: rest) = .ok t := by
        rw [scanVfPorts]
        simp only [hty, ne_eq, not_true_eq_false, if_false, hp, hm, if_true]
      rw [hread, hent]
      simp only [hscan]
      rw [statusOfPort]
      simp only [hv]

/-- Witness of C19: the 802.1Qbh disassociate request for a device that is not
a virtual function (kernel target, self sentinel) is built with a self port
block, and the status of the self port block of a response is read for it; the
802.1Qbg associate request (self sentinel, agent target) is built with a
VF-ports list, and the status of the matching entry of the list of a response
is read for it, while a response with a self port block only is an error. -/
theorem setLinkMsg_block_kind_agrees_witness :
    ((setLinkMsg (qbhDisassociateArgs 2 PORT_SELF_VF)).attrs.getLast? =
        some (.IFLA_PORT_SELF (portBlock (qbhDisassociateArgs 2 PORT_SELF_VF))) ∧
      getPortProfileStatus (tbSelf (some PORT_PROFILE_RESPONSE_SUCCESS))
        (qbhDisassociateArgs 2 PORT_SELF_VF).vf none
        (qbhDisassociateArgs 2 PORT_SELF_VF).nltarget_kernel true =
          (0, some PORT_PROFILE_RESPONSE_SUCCESS)) ∧
    ((setLinkMsg qbgAssociateArgs).attrs.getLast? =
        some (.IFLA_VF_PORTS [portBlock qbgAssociateArgs]) ∧
      getPortProfileStatus (tbVfPort sampleUuid 4294967295 (some PORT_VDP_RESPONSE_SUCCESS))
        qbgAssociateArgs.vf (some sampleUuid) qbgAssociateArgs.nltarget_kernel true =
          (0, some PORT_VDP_RESPONSE_SUCCESS) ∧
      getPortProfileStatus (tbSelf (some PORT_PROFILE_RESPONSE_SUCCESS))
        qbgAssociateArgs.vf (some sampleUuid) qbgAssociateArgs.nltarget_kernel true =
          (1, none)) :=
  ⟨⟨((setLinkMsg_block_kind_agrees (qbhDisassociateArgs 2 PORT_SELF_VF)).1 (by decide)).1,
      (((setLinkMsg_block_kind_agrees (qbhDisassociateArgs 2 PORT_SELF_VF)).1
        (by decide)).2.2.2.2.2.2 (tbSelf (some PORT_PROFILE_RESPONSE_SUCCESS)) none true
          ⟨0, some ⟨none, none, some PORT_PROFILE_RESPONSE_SUCCESS⟩⟩ _ rfl rfl).2 _ rfl⟩,
    ⟨((setLinkMsg_block_kind_agrees qbgAssociateArgs).2 (by decide)).1,
      ((setLinkMsg_block_kind_agrees qbgAssociateArgs).2 (by decide)).2.2.2.2.2.2
        (tbVfPort sampleUuid 4294967295 (some PORT_VDP_RESPONSE_SUCCESS)) (some sampleUuid) true
        ⟨IFLA_VF_PORT, some ⟨some sampleUuid, some 4294967295, some PORT_VDP_RESPONSE_SUCCESS⟩⟩
        [] _ _ rfl rfl rfl (by decide) rfl,
      ((setLinkMsg_block_kind_agrees qbgAssociateArgs).2 (by decide)).2.2.2.2.1
        (tbSelf (some PORT_PROFILE_RESPONSE_SUCCESS)) (some sampleUuid) true rfl⟩⟩

/-- C20: for every input of doPortProfileOpSetLink the attribute kinds of the
port block are strictly increasing in the order profile-id, VSI descriptor,
instance UUID, host UUID, VF index, request operation (so they appear in that
order and none twice); the profile-id, VSI descriptor, instance UUID and host
UUID attributes are present exactly when their input is supplied, and carry it
(16 bytes for the UUIDs); the VF index attribute is present exactly when the VF
index is not PORT_SELF_VF; the request operation is always present, carries the
operation as one byte, and is the last attribute. -/
theorem portBlock_attribute_order (a : OpArgs) :
    ((portBlock a).map PortAttr.kind).Pairwise (fun i j => i < j) ∧
    (∀ p, PortAttr.IFLA_PORT_PROFILE p ∈ portBlock a ↔ a.profileId = some p) ∧
    (∀ v, PortAttr.IFLA_PORT_VSI_TYPE v ∈ portBlock a ↔ a.portVsi = some v) ∧
    (∀ u, PortAttr.IFLA_PORT_INSTANCE_UUID u ∈ portBlock a ↔
      ∃ i, a.instanceId = some i ∧ u = i.take VIR_UUID_BUFLEN) ∧
    (∀ u, PortAttr.IFLA_PORT_HOST_UUID u ∈ portBlock a ↔
      ∃ h, a.hostUUID = some h ∧ u = h.take VIR_UUID_BUFLEN) ∧
    (∀ v, PortAttr.IFLA_PORT_VF v ∈ portBlock a ↔ a.vf ≠ PORT_SELF_VF ∧ v = a.vf) ∧
    (∀ op, PortAttr.IFLA_PORT_REQUEST op ∈ portBlock a ↔ op = a.op % 256) ∧
    (portBlock a).getLast? = some (PortAttr.IFLA_PORT_REQUEST (a.op % 256)) := by
  unfold portBlock
  cases a.profileId <;> cases a.portVsi <;> cases a.instanceId <;> cases a.hostUUID <;>
    by_cases hvf : a.vf = PORT_SELF_VF <;>
    simp [hvf, PortAttr.kind, eq_comm]

end Codec

section Requests

theorem getLldpadPid_grows_pid (env : Env) (s : St) :
    Grows (fun e => emitsPid e = true) s.trace (getLldpadPid env s).2.trace := by
  unfold getLldpadPid
  simp only [St.log]
  split <;> repeat (first | exact Grows.refl _ _ | apply Grows.snoc | rfl)

theorem getLldpadPid_nAlloc (env : Env) (s : St) :
    (getLldpadPid env s).2.nAlloc = s.nAlloc := by
  unfold getLldpadPid
  simp only [St.log]
  split <;> rfl

theorem targetPid_grows (env : Env) (a : OpArgs) (s : St) :
    Grows (fun e => emitsPid e = true) s.trace (targetPid env a s).2.trace := by
  unfold targetPid
  split_ifs
  · exact getLldpadPid_grows_pid env _
  · exact Grows.refl _ _

theorem targetPid_kernel (env : Env) (a : OpArgs) (s : St) (h : a.nltarget_kernel = true) :
    (targetPid env a s).2.trace = s.trace := by
  simp [targetPid, h]

theorem targetPid_nAlloc (env : Env) (a : OpArgs) (s : St) :
    (targetPid env a s).2.nAlloc = s.nAlloc + 1 := by
  unfold targetPid
  split_ifs
  · rw [getLldpadPid_nAlloc]
  · rfl

/-- The function doPortProfileOpSetLink written with targetPid and
transportAnswer. -/
theorem doPortProfileOpSetLink_eq (env : Env) (a : OpArgs) (s : St) :
    doPortProfileOpSetLink env a s =
      if env.nlmsgAlloc s.nAlloc = false then (-1, { s with nAlloc := s.nAlloc + 1 })
      else if env.nlaFits (setLinkMsg a) = false then (-1, { s with nAlloc := s.nAlloc + 1 })
      else if a.nltarget_kernel = false ∧ (targetPid env a s).1 = 0 then
        (-1, (targetPid env a s).2)
      else if (transportAnswer env a s).1 < 0 then
        (-1, { (targetPid env a s).2.log (.nlComm (setLinkMsg a) (targetPid env a s).1) with
                nComm := (targetPid env a s).2.nComm + 1 })
      else (classifyResp (transportAnswer env a s).2,
        { (targetPid env a s).2.log (.nlComm (setLinkMsg a) (targetPid env a s).1) with
                nComm := (targetPid env a s).2.nComm + 1 }) := rfl

/-- The result of doPortProfileOpSetLink when the request reaches the
transport: one request event, and the return value by the answer. -/
theorem doPortProfileOpSetLink_sent (env : Env) (a : OpArgs) (s : St)
    (h : reachesTransport env a s = true) :
    (doPortProfileOpSetLink env a s).2.trace =
      (targetPid env a s).2.trace ++ [.nlComm (setLinkMsg a) (targetPid env a s).1] ∧
    (doPortProfileOpSetLink env a s).1 =
      (if (transportAnswer env a s).1 < 0 then -1
        else classifyResp (transportAnswer env a s).2) := by
  simp only [reachesTransport, Bool.and_eq_true, Bool.or_eq_true, decide_eq_true_eq] at h
  obtain ⟨⟨h1, h2⟩, h3⟩ := h
  have h4 : ¬ (a.nltarget_kernel = false ∧ (targetPid env a s).1 = 0) := by
    rintro ⟨hk, hp⟩
    rcases h3 with h3 | h3
    · rw [hk] at h3; exact absurd h3 (by decide)
    · exact h3 hp
  rw [doPortProfileOpSetLink_eq]
  simp only [h1, h2, Bool.true_eq_false, if_false, h4]
  constructor
  · split_ifs <;> rfl
  · split_ifs <;> rfl

/-- The result of doPortProfileOpSetLink when the request does not reach the
transport: failure, and nothing but the reading of the PID file is done. -/
theorem doPortProfileOpSetLink_not_sent (env : Env) (a : OpArgs) (s : St)
    (h : reachesTransport env a s = false) :
    (doPortProfileOpSetLink env a s).1 = -1 ∧
    Grows (fun e => emitsPid e = true) s.trace (doPortProfileOpSetLink env a s).2.trace := by
  have hg := targetPid_grows env a s
  rw [doPortProfileOpSetLink_eq]
  by_cases h1 : env.nlmsgAlloc s.nAlloc = false
  · rw [if_pos h1]
    exact ⟨rfl, Grows.refl _ _⟩
  · by_cases h2 : env.nlaFits (setLinkMsg a) = false
    · rw [if_neg h1, if_pos h2]
      exact ⟨rfl, Grows.refl _ _⟩
    · have h4 : a.nltarget_kernel = false ∧ (targetPid env a s).1 = 0 := by
        simp only [Bool.not_eq_false] at h1 h2
        simp only [reachesTransport, h1, h2, Bool.and_self, Bool.true_and, Bool.or_eq_false_iff,
          decide_eq_false_iff_not, not_not] at h
        exact h
      rw [if_neg h1, if_neg h2, if_pos h4]
      exact ⟨rfl, hg⟩

theorem doPortProfileOpSetLink_nAlloc (env : Env) (a : OpArgs) (s : St) :
    (doPortProfileOpSetLink env a s).2.nAlloc = s.nAlloc + 1 := by
  have hp := targetPid_nAlloc env a s
  rw [doPortProfileOpSetLink_eq]
  simp only [St.log]
  split_ifs <;> first | rfl | exact hp

theorem pollLoop_grows_poll (env : Env) (a : OpArgs) (q : Bool) (n : Nat) :
    ∀ (rc : Int) (st : Nat) (s : St),
      Grows (fun e => isPoll e = true ∨ isSleep e = true) s.trace
        (pollLoop env a q n rc st s).2.trace := by
  induction n with
  | zero => intro rc st s; exact Grows.refl _ _
  | succ n ih =>
      intro rc st s
      rw [pollLoop]
      simp only [St.log]
      split_ifs <;>
        first
        | (refine Grows.trans ?_ (ih _ _ _)
           repeat (first | exact Grows.refl _ _ | apply Grows.snoc | exact Or.inl rfl
                         | exact Or.inr rfl))
        | (repeat (first | exact Grows.refl _ _ | apply Grows.snoc | exact Or.inl rfl
                         | exact Or.inr rfl))

theorem pollLoop_nAlloc (env : Env) (a : OpArgs) (q : Bool) (n : Nat) :
    ∀ (rc : Int) (st : Nat) (s : St), (pollLoop env a q n rc st s).2.nAlloc = s.nAlloc := by
  induction n with
  | zero => intro rc st s; rfl
  | succ n ih =>
      intro rc st s
      rw [pollLoop]
      simp only [St.log]
      split_ifs <;> first | rfl | (rw [ih])

theorem pollLoop_requests (env : Env) (a : OpArgs) (q : Bool) (n : Nat) (rc : Int) (st : Nat)
    (s : St) : requests (pollLoop env a q n rc st s).2.trace = requests s.trace :=
  (pollLoop_grows_poll env a q n rc st s).countP_eq isRequest
    (by intro e he; cases e <;> simp_all [isPoll, isSleep, isRequest])

theorem targetPid_requests (env : Env) (a : OpArgs) (s : St) :
    requests (targetPid env a s).2.trace = requests s.trace :=
  (targetPid_grows env a s).countP_eq isRequest
    (by intro e he; cases e <;> simp_all [emitsPid, isRequest])

theorem doPortProfileOpSetLink_requests (env : Env) (a : OpArgs) (s : St) :
    requests (doPortProfileOpSetLink env a s).2.trace =
      requests s.trace + (if reachesTransport env a s = true then 1 else 0) := by
  by_cases h : reachesTransport env a s = true
  · rw [(doPortProfileOpSetLink_sent env a s h).1, if_pos h, requests, List.countP_append,
      ← requests, targetPid_requests]
    rfl
  · simp only [Bool.not_eq_true] at h
    rw [if_neg (by simp [h]), Nat.add_zero]
    exact (doPortProfileOpSetLink_not_sent env a s h).2.countP_eq isRequest
      (by intro e he; cases e <;> simp_all [emitsPid, isRequest])

/-- Every call of doPortProfileOpCommon builds one request, and hands it to the
transport exactly when it reaches the transport. -/
theorem doPortProfileOpCommon_built_and_sent (env : Env) (a : OpArgs) (s : St) :
    (doPortProfileOpCommon env a s).2.nAlloc = s.nAlloc + 1 ∧
    requests (doPortProfileOpCommon env a s).2.trace =
      requests s.trace + (if reachesTransport env a s = true then 1 else 0) := by
  have hr := doPortProfileOpSetLink_requests env a s
  have ha := doPortProfileOpSetLink_nAlloc env a s
  by_cases hne : (doPortProfileOpSetLink env a s).1 ≠ 0
  · have heq : doPortProfileOpCommon env a s = doPortProfileOpSetLink env a s := by
      unfold doPortProfileOpCommon
      simp only
      rw [if_pos hne]
    rw [heq]; exact ⟨ha, hr⟩
  · have heq : doPortProfileOpCommon env a s =
        pollLoop env a a.profileId.isNone 80 (doPortProfileOpSetLink env a s).1 0
          (doPortProfileOpSetLink env a s).2 := by
      unfold doPortProfileOpCommon
      simp only
      rw [if_neg hne]
      rfl
    rw [heq, pollLoop_requests, pollLoop_nAlloc]; exact ⟨ha, hr⟩

end Requests

theorem classifyResp_values (resp : NlResp) : classifyResp resp = 0 ∨ classifyResp resp = -1 := by
  unfold classifyResp
  split_ifs <;> simp

/-- C21: every call of doPortProfileOpCommon builds exactly one set-link
request and hands at most one to the transport: exactly one when the message
is allocated, its attributes fit and, for an agent target, the pid of the agent
is not 0, and none otherwise; the polls send none.  The request succeeds
exactly when it reaches the transport, nlComm does not fail and the response is
classified as success; when it fails (agent unavailable, transport error,
malformed response, error reported by the kernel), doPortProfileOpCommon
returns that failure, -1, in the state doPortProfileOpSetLink left, with no
status poll and no sleep. -/
theorem doPortProfileOpCommon_one_request (env : Env) (a : OpArgs) (s : St) :
    (doPortProfileOpCommon env a s).2.nAlloc = s.nAlloc + 1 ∧
    requests (doPortProfileOpCommon env a s).2.trace =
      requests s.trace + (if reachesTransport env a s = true then 1 else 0) ∧
    ((doPortProfileOpSetLink env a s).1 = 0 ↔
      reachesTransport env a s = true ∧ ¬ (transportAnswer env a s).1 < 0 ∧
        classifyResp (transportAnswer env a s).2 = 0) ∧
    ((doPortProfileOpSetLink env a s).1 ≠ 0 →
      doPortProfileOpCommon env a s = doPortProfileOpSetLink env a s ∧
      (doPortProfileOpCommon env a s).1 = -1 ∧
      polls (doPortProfileOpCommon env a s).2.trace = polls s.trace ∧
      sleeps (doPortProfileOpCommon env a s).2.trace = sleeps s.trace) := by
  have hiff : (doPortProfileOpSetLink env a s).1 = 0 ↔
      reachesTransport env a s = true ∧ ¬ (transportAnswer env a s).1 < 0 ∧
        classifyResp (transportAnswer env a s).2 = 0 := by
    by_cases h : reachesTransport env a s = true
    · rw [(doPortProfileOpSetLink_sent env a s h).2]
      by_cases hc : (transportAnswer env a s).1 < 0
      · simp [hc]
      · simp [hc, h]
    · simp only [Bool.not_eq_true] at h
      rw [(doPortProfileOpSetLink_not_sent env a s h).1]
      simp [h]
  have hval : (doPortProfileOpSetLink env a s).1 ≠ 0 → (doPortProfileOpSetLink env a s).1 = -1 := by
    intro hne
    by_cases h : reachesTransport env a s = true
    · rw [(doPortProfileOpSetLink_sent env a s h).2] at hne ⊢
      by_cases hc : (transportAnswer env a s).1 < 0
      · simp [hc]
      · simp only [hc, if_false] at hne ⊢
        rcases classifyResp_values (transportAnswer env a s).2 with h0 | h0
        · exact absurd h0 hne
        · exact h0
    · simp only [Bool.not_eq_true] at h
      exact (doPortProfileOpSetLink_not_sent env a s h).1
  refine ⟨(doPortProfileOpCommon_built_and_sent env a s).1,
    (doPortProfileOpCommon_built_and_sent env a s).2, hiff, ?_⟩
  · intro hne
    have heq : doPortProfileOpCommon env a s = doPortProfileOpSetLink env a s := by
      unfold doPortProfileOpCommon
      simp only
      rw [if_pos hne]
    refine ⟨heq, ?_, ?_, ?_⟩
    · rw [heq]; exact hval hne
    · rw [heq]; exact doPortProfileOpSetLink_polls env a s
    · rw [heq]; exact doPortProfileOpSetLink_sleeps env a s

/-- Witness of C21: the 802.1Qbg associate request when the agent has no PID
file. -/
theorem doPortProfileOpCommon_one_request_witness :
    doPortProfileOpCommon envPidMissing qbgAssociateArgs St.init =
        doPortProfileOpSetLink envPidMissing qbgAssociateArgs St.init ∧
      (doPortProfileOpCommon envPidMissing qbgAssociateArgs St.init).1 = -1 ∧
      polls (doPortProfileOpCommon envPidMissing qbgAssociateArgs St.init).2.trace =
        polls St.init.trace ∧
      sleeps (doPortProfileOpCommon envPidMissing qbgAssociateArgs St.init).2.trace =
        sleeps St.init.trace :=
  (doPortProfileOpCommon_one_request envPidMissing qbgAssociateArgs St.init).2.2.2 (by decide)

/-- C22, the code at the failing input: the PID file of the agent is empty, so
that saferead returns 0 and leaves the uninitialised buffer as it is.
getLldpadPid parses the stale bytes and returns 1234 instead of 0, and
doPortProfileOpSetLink sends the request for the agent to the process 1234 and
returns 0.  Without a PID file getLldpadPid returns 0 and nothing is sent; for
a kernel target the PID file is not opened. -/
theorem getLldpadPid_empty_file_stale_buffer :
    (envPidEmpty.saferead 3).1 = 0 ∧
    getLldpadPid envPidEmpty St.init =
      (1234, { St.init with trace := [.openPidFile, .saferead 3, .close 3], nPid := 1 }) ∧
    (doPortProfileOpSetLink envPidEmpty qbgAssociateArgs St.init).1 = 0 ∧
    (doPortProfileOpSetLink envPidEmpty qbgAssociateArgs St.init).2.trace =
      [.openPidFile, .saferead 3, .close 3, .nlComm (setLinkMsg qbgAssociateArgs) 1234] ∧
    (getLldpadPid envPidMissing St.init).1 = 0 ∧
    (doPortProfileOpSetLink envPidMissing qbgAssociateArgs St.init).1 = -1 ∧
    requests (doPortProfileOpSetLink envPidMissing qbgAssociateArgs St.init).2.trace = 0 ∧
    (doPortProfileOpSetLink envPidEmpty (qbhDisassociateArgs 2 PORT_SELF_VF) St.init).2.trace =
      [.nlComm (setLinkMsg (qbhDisassociateArgs 2 PORT_SELF_VF)) 0] := by
  decide

theorem classifyResp_eq_respExit (resp : NlResp) : classifyResp resp = (respExit resp).rc := by
  unfold classifyResp respExit
  split_ifs <;> rfl

/-- C23: when the request of doPortProfileOpSetLink reaches the transport and
nlComm does not fail, the return value is that of the exit the response
handling takes, and the exits are: a NULL buffer or one shorter than a message
header (16 bytes) is malformed; otherwise an error message (type NLMSG_ERROR)
whose length is below header plus error record (36 bytes) is malformed, one
with error code 0 is success (rc 0), one with another error code is a failure
(rc -1); a message of type NLMSG_DONE is success; every other type is
malformed; malformed returns -1. -/
theorem doPortProfileOpSetLink_response_classes (env : Env) (a : OpArgs) (s : St)
    (resp : NlResp)
    (hsent : reachesTransport env a s = true)
    (hcomm : ¬ (transportAnswer env a s).1 < 0)
    (hresp : (transportAnswer env a s).2 = resp) :
    (doPortProfileOpSetLink env a s).1 = (respExit resp).rc ∧
    (NLMSG_LENGTH 0 = 16 ∧ NLMSG_LENGTH SIZEOF_NLMSGERR = 36 ∧
      RespExit.malformed_resp.rc = -1) ∧
    (resp.recvbufNull = true ∨ resp.recvbuflen < 16 → respExit resp = .malformed_resp) ∧
    (resp.recvbufNull = false → 16 ≤ resp.recvbuflen →
      (resp.nlmsg_type = NLMSG_ERROR → resp.nlmsg_len < 36 →
        respExit resp = .malformed_resp) ∧
      (resp.nlmsg_type = NLMSG_ERROR → 36 ≤ resp.nlmsg_len → resp.error = 0 →
        respExit resp = .err_exit 0) ∧
      (resp.nlmsg_type = NLMSG_ERROR → 36 ≤ resp.nlmsg_len → resp.error ≠ 0 →
        respExit resp = .err_exit (-1)) ∧
      (resp.nlmsg_type = NLMSG_DONE → respExit resp = .err_exit 0) ∧
      (resp.nlmsg_type ≠ NLMSG_ERROR → resp.nlmsg_type ≠ NLMSG_DONE →
        respExit resp = .malformed_resp)) := by
  refine ⟨?_, ⟨rfl, rfl, rfl⟩, ?_, ?_⟩
  · rw [(doPortProfileOpSetLink_sent env a s hsent).2, if_neg hcomm, hresp,
      classifyResp_eq_respExit]
  · intro h
    unfold respExit
    rw [if_pos]
    rcases h with h | h
    · exact Or.inr h
    · exact Or.inl (by simpa [NLMSG_LENGTH] using h)
  · intro hnull hlen
    have h0 : ¬ (resp.recvbuflen < NLMSG_LENGTH 0 ∨ resp.recvbufNull = true) := by
      simp only [NLMSG_LENGTH, hnull, Bool.false_eq_true, or_false]
      omega
    have hd : NLMSG_DONE ≠ NLMSG_ERROR := by decide
    unfold respExit
    rw [if_neg h0]
    refine ⟨?_, ?_, ?_, ?_, ?_⟩
    · intro ht hl
      rw [if_pos ht, if_pos (by simpa [NLMSG_LENGTH, SIZEOF_NLMSGERR] using hl)]
    · intro ht hl he
      rw [if_pos ht, if_neg (by simp only [NLMSG_LENGTH, SIZEOF_NLMSGERR]; omega),
        if_neg (by simp [he])]
    · intro ht hl he
      rw [if_pos ht, if_neg (by simp only [NLMSG_LENGTH, SIZEOF_NLMSGERR]; omega), if_pos he]
    · intro ht
      rw [if_neg (by rw [ht]; exact hd), if_pos ht]
    · intro h1 h2
      rw [if_neg h1, if_neg h2]

/-- Witness of C23: the acknowledgement of the kernel in envOk, an error message
of 36 bytes with error code 0, for the 802.1Qbh disassociate request. -/
theorem doPortProfileOpSetLink_response_classes_witness :
    (doPortProfileOpSetLink envOk (qbhDisassociateArgs 2 PORT_SELF_VF) St.init).1 =
      (respExit ⟨false, 36, NLMSG_ERROR, 36, 0⟩).rc ∧
    respExit ⟨false, 36, NLMSG_ERROR, 36, 0⟩ = .err_exit 0 :=
  ⟨(doPortProfileOpSetLink_response_classes envOk (qbhDisassociateArgs 2 PORT_SELF_VF) St.init
      ⟨false, 36, NLMSG_ERROR, 36, 0⟩ (by decide) (by decide) (by decide)).1,
    ((doPortProfileOpSetLink_response_classes envOk (qbhDisassociateArgs 2 PORT_SELF_VF) St.init
      ⟨false, 36, NLMSG_ERROR, 36, 0⟩ (by decide) (by decide) (by decide)).2.2.2 rfl
        (by decide)).2.1 rfl (by decide) rfl⟩

section Qbg

theorem getPhysdevAndVlanLoop_grows_walk (env : Env) (fuel : Nat) :
    ∀ (ifindex : Int) (ifname : Option String) (ri : Int) (rn : String) (vlanid : Int)
      (s : St) (r : PhysdevVlan × St),
      getPhysdevAndVlanLoop env fuel ifindex ifname ri rn vlanid s = some r →
      Grows (fun e => emitsWalk e = true) s.trace r.2.trace := by
  induction fuel with
  | zero => intro ifindex ifname ri rn vlanid s r h; simp [getPhysdevAndVlanLoop] at h
  | succ fuel ih =>
      intro ifindex ifname ri rn vlanid s r h
      rw [getPhysdevAndVlanLoop] at h
      simp only [St.log] at h
      split_ifs at h <;>
        first
        | (refine Grows.trans ?_ (ih _ _ _ _ _ _ _ h)
           repeat (first | exact Grows.refl _ _ | apply Grows.snoc | rfl))
        | (cases h
           repeat (first | exact Grows.refl _ _ | apply Grows.snoc | rfl))

/-- The function doPortProfileOp8021Qbg after the physical device is resolved:
one negotiation with the arguments qbgArgs. -/
theorem doPortProfileOp8021Qbg_eq (env : Env) (fuel : Nat) (ifname : String)
    (macaddr : Option (List Nat)) (vp : virVirtualPortProfileParams)
    (op : virVirtualPortOp) (s : St) (w : PhysdevVlan × St) (code : Nat)
    (hw : getPhysdevAndVlan env fuel ifname 0 "" s = some w) (hret : w.1.ret = 0)
    (hop : qbgOp op = some code) :
    doPortProfileOp8021Qbg env fuel ifname macaddr vp op s =
      some (doPortProfileOpCommon env (qbgArgs w.1 macaddr vp code) w.2) := by
  have hret' : ¬ w.1.ret ≠ 0 := by simp [hret]
  unfold doPortProfileOp8021Qbg
  simp only [hw, hret', if_false]
  cases op <;> simp only [qbgOp, Option.some.injEq] at hop <;> first | (subst hop; rfl) | skip
  exact absurd hop (by simp)

/-- The function doPortProfileOp8021Qbg when the physical device is not
resolved, or the operation is not supported: failure without a negotiation. -/
theorem doPortProfileOp8021Qbg_fails (env : Env) (fuel : Nat) (ifname : String)
    (macaddr : Option (List Nat)) (vp : virVirtualPortProfileParams)
    (op : virVirtualPortOp) (s : St) (w : PhysdevVlan × St)
    (hw : getPhysdevAndVlan env fuel ifname 0 "" s = some w)
    (h : w.1.ret ≠ 0 ∨ qbgOp op = none) :
    doPortProfileOp8021Qbg env fuel ifname macaddr vp op s = some (1, w.2) := by
  unfold doPortProfileOp8021Qbg
  simp only [hw]
  by_cases hret : w.1.ret ≠ 0
  · rw [if_pos hret]
  · rw [if_neg hret]
    rcases h with h | h
    · exact absurd h hret
    · cases op <;> simp [qbgOp] at h
      rfl

end Qbg

section QbhRequests

theorem portOp_append_request (l : List PortAttr) (op : Nat)
    (h : ∀ x ∈ l, ∀ o, x ≠ PortAttr.IFLA_PORT_REQUEST o) :
    portOp (l ++ [PortAttr.IFLA_PORT_REQUEST op]) = some op := by
  induction l with
  | nil => rfl
  | cons x l ih =>
      have hx := h x (List.mem_cons_self _ _)
      have hl := ih (fun y hy => h y (List.mem_cons_of_mem _ hy))
      cases x <;> first | exact hl | exact absurd rfl (hx _)

theorem portOp_portBlock (a : OpArgs) : portOp (portBlock a) = some (a.op % 256) := by
  unfold portBlock
  apply portOp_append_request
  intro x hx o
  simp only [List.mem_append] at hx
  rcases hx with (((hx | hx) | hx) | hx) | hx
  · cases hp : a.profileId <;> simp [hp] at hx; subst hx; simp
  · cases hp : a.portVsi <;> simp [hp] at hx; subst hx; simp
  · cases hp : a.instanceId <;> simp [hp] at hx; subst hx; simp
  · cases hp : a.hostUUID <;> simp [hp] at hx; subst hx; simp
  · by_cases hv : a.vf ≠ PORT_SELF_VF
    · rw [if_pos hv] at hx; simp at hx; subst hx; simp
    · rw [if_neg hv] at hx; simp at hx

theorem requestOp_setLinkMsg (a : OpArgs) :
    requestOp (setLinkMsg a).attrs = some (a.op % 256) := by
  have hp := portOp_portBlock a
  unfold setLinkMsg vfInfoBlock
  cases a.ifname <;> by_cases hv : a.macaddr.isSome = true ∨ 0 ≤ a.vlanid <;>
    by_cases hk : a.vf = PORT_SELF_VF ∧ a.nltarget_kernel = true <;>
    simp only [hv, hk, if_true, if_false, List.nil_append, List.cons_append, List.append_nil,
      requestOp, hp]

/-- Events that are neither polls nor sleeps are counted alike after
doPortProfileOpCommon and after its doPortProfileOpSetLink. -/
theorem doPortProfileOpCommon_countP (env : Env) (a : OpArgs) (s : St) (q : Event → Bool)
    (hq : ∀ e, isPoll e = true ∨ isSleep e = true → q e = false) :
    (doPortProfileOpCommon env a s).2.trace.countP q =
      (doPortProfileOpSetLink env a s).2.trace.countP q := by
  by_cases hne : (doPortProfileOpSetLink env a s).1 ≠ 0
  · have heq : doPortProfileOpCommon env a s = doPortProfileOpSetLink env a s := by
      unfold doPortProfileOpCommon
      simp only
      rw [if_pos hne]
    rw [heq]
  · have heq : doPortProfileOpCommon env a s =
        pollLoop env a a.profileId.isNone 80 (doPortProfileOpSetLink env a s).1 0
          (doPortProfileOpSetLink env a s).2 := by
      unfold doPortProfileOpCommon
      simp only
      rw [if_neg hne]
      rfl
    rw [heq]
    exact (pollLoop_grows_poll env a _ _ _ _ _).countP_eq q hq

/-- The disassociation requests doPortProfileOpCommon hands to the transport:
one when the request is a disassociate request and reaches the transport. -/
theorem doPortProfileOpCommon_disassociateRequests (env : Env) (a : OpArgs) (s : St) :
    disassociateRequests (doPortProfileOpCommon env a s).2.trace =
      disassociateRequests s.trace +
        (if reachesTransport env a s = true ∧ a.op % 256 = PORT_REQUEST_DISASSOCIATE
          then 1 else 0) := by
  rw [disassociateRequests, doPortProfileOpCommon_countP env a s isDisassociateRequest
    (by intro e he; cases e <;> simp_all [isPoll, isSleep, isDisassociateRequest]),
    ← disassociateRequests]
  have htp : disassociateRequests (targetPid env a s).2.trace = disassociateRequests s.trace :=
    (targetPid_grows env a s).countP_eq isDisassociateRequest
      (by intro e he; cases e <;> simp_all [emitsPid, isDisassociateRequest])
  by_cases h : reachesTransport env a s = true
  · rw [(doPortProfileOpSetLink_sent env a s h).1, disassociateRequests, List.countP_append,
      ← disassociateRequests, htp]
    by_cases hop : a.op % 256 = PORT_REQUEST_DISASSOCIATE
    · rw [if_pos ⟨h, hop⟩]
      simp [List.countP_cons, isDisassociateRequest, requestOp_setLinkMsg, hop]
    · rw [if_neg (fun hh => hop hh.2)]
      simp [List.countP_cons, isDisassociateRequest, requestOp_setLinkMsg, hop]
  · simp only [Bool.not_eq_true] at h
    rw [if_neg (by simp [h]), Nat.add_zero]
    exact (doPortProfileOpSetLink_not_sent env a s h).2.countP_eq isDisassociateRequest
      (by intro e he; cases e <;> simp_all [emitsPid, isDisassociateRequest])

end QbhRequests

section Qbh

/-- The association path of doPortProfileOp8021Qbh for a resolved device when
the host UUID is obtained. -/
theorem doPortProfileOp8021Qbh_associate (env : Env) (linkdev : String)
    (macaddr : Option (List Nat)) (vp : virVirtualPortProfileParams)
    (vm_uuid : Option (List Nat)) (op : virVirtualPortOp) (s : St)
    (hres : qbhResolved env linkdev s) (hhost : env.virGetHostUUID.1 = 0)
    (hop : op = .ASSOCIATE ∨ op = .PREASSOCIATE_RR) :
    doPortProfileOp8021Qbh env linkdev macaddr vp vm_uuid op s =
      if (qbhAssociation env linkdev macaddr vp vm_uuid op s).1 = -ETIMEDOUT then
        ((qbhAssociation env linkdev macaddr vp vm_uuid op s).1,
          (doPortProfileOpCommon env (qbhDisassociate env linkdev s)
            (qbhAssociation env linkdev macaddr vp vm_uuid op s).2).2)
      else qbhAssociation env linkdev macaddr vp vm_uuid op s := by
  obtain ⟨h1, h2⟩ := hres
  have h1' : ¬ (getPhysfnDev env linkdev s).1.1 ≠ 0 := by simp [h1]
  have h3 : ¬ env.virGetHostUUID.1 ≠ 0 := by simp [hhost]
  unfold qbhGetIndex qbhPhysfndev at h2
  rcases hop with rfl | rfl
  · unfold doPortProfileOp8021Qbh
    simp only [h1', h2, h3, if_false]
    rfl
  · unfold doPortProfileOp8021Qbh
    simp only [h1', h2, h3, if_false]
    rfl

/-- The disassociation path of doPortProfileOp8021Qbh for a resolved device. -/
theorem doPortProfileOp8021Qbh_disassociate (env : Env) (linkdev : String)
    (macaddr : Option (List Nat)) (vp : virVirtualPortProfileParams)
    (vm_uuid : Option (List Nat)) (s : St) (hres : qbhResolved env linkdev s) :
    doPortProfileOp8021Qbh env linkdev macaddr vp vm_uuid .DISASSOCIATE s =
      doPortProfileOpCommon env (qbhDisassociate env linkdev s) (qbhStart env linkdev s) := by
  obtain ⟨h1, h2⟩ := hres
  have h1' : ¬ (getPhysfnDev env linkdev s).1.1 ≠ 0 := by simp [h1]
  unfold qbhGetIndex qbhPhysfndev at h2
  unfold doPortProfileOp8021Qbh
  simp only [h1', h2, if_false]
  rfl

end Qbh

set_option maxRecDepth 100000 in
/-- C29: in doPortProfileOp8021Qbh, for a resolved device and an associate or
preassociate-with-reassociation operation whose host UUID is obtained: (1) when
the negotiation returns -ETIMEDOUT, one negotiation of the disassociate request
for the same device index and VF index follows, its result is dropped and the
function returns -ETIMEDOUT; of the two requests built, the disassociate request
is the only one counted as disassociation, and it is counted when it reaches
the transport; (2) when the negotiation returns anything else, the function
returns that result and no disassociate request is built or sent.  (3) Under
802.1Qbg an associate or preassociate operation sends no disassociate request,
whatever its result. -/
theorem doPortProfileOp8021Qbh_timeout_disassociates (env : Env) (linkdev : String)
    (macaddr : Option (List Nat)) (vp : virVirtualPortProfileParams)
    (vm_uuid : Option (List Nat)) (op : virVirtualPortOp) (s : St)
    (hres : qbhResolved env linkdev s) (hhost : env.virGetHostUUID.1 = 0)
    (hop : op = .ASSOCIATE ∨ op = .PREASSOCIATE_RR) :
    ((qbhAssociation env linkdev macaddr vp vm_uuid op s).1 = -ETIMEDOUT →
      doPortProfileOp8021Qbh env linkdev macaddr vp vm_uuid op s =
        (-ETIMEDOUT, (doPortProfileOpCommon env (qbhDisassociate env linkdev s)
          (qbhAssociation env linkdev macaddr vp vm_uuid op s).2).2) ∧
      (qbhDisassociate env linkdev s).ifindex = (qbhGetIndex env linkdev s).2 ∧
      (qbhDisassociate env linkdev s).vf = qbhVf env linkdev s ∧
      requestOp (setLinkMsg (qbhDisassociate env linkdev s)).attrs =
        some PORT_REQUEST_DISASSOCIATE ∧
      (doPortProfileOp8021Qbh env linkdev macaddr vp vm_uuid op s).2.nAlloc =
        (qbhStart env linkdev s).nAlloc + 2 ∧
      disassociateRequests (doPortProfileOp8021Qbh env linkdev macaddr vp vm_uuid op s).2.trace =
        disassociateRequests (qbhStart env linkdev s).trace +
          (if reachesTransport env (qbhDisassociate env linkdev s)
              (qbhAssociation env linkdev macaddr vp vm_uuid op s).2 = true then 1 else 0)) ∧
    ((qbhAssociation env linkdev macaddr vp vm_uuid op s).1 ≠ -ETIMEDOUT →
      doPortProfileOp8021Qbh env linkdev macaddr vp vm_uuid op s =
        qbhAssociation env linkdev macaddr vp vm_uuid op s ∧
      (doPortProfileOp8021Qbh env linkdev macaddr vp vm_uuid op s).2.nAlloc =
        (qbhStart env linkdev s).nAlloc + 1 ∧
      disassociateRequests (doPortProfileOp8021Qbh env linkdev macaddr vp vm_uuid op s).2.trace =
        disassociateRequests (qbhStart env linkdev s).trace) ∧
    (∀ (fuel : Nat) (ifname : String) (opg : virVirtualPortOp) (r : Int × St),
      opg = .ASSOCIATE ∨ opg = .PREASSOCIATE →
      doPortProfileOp8021Qbg env fuel ifname macaddr vp opg s = some r →
      disassociateRequests r.2.trace = disassociateRequests s.trace) := by
  have heq := doPortProfileOp8021Qbh_associate env linkdev macaddr vp vm_uuid op s hres hhost hop
  have hcode : qbhAssociateOp op % 256 ≠ PORT_REQUEST_DISASSOCIATE := by
    rcases hop with rfl | rfl <;> decide
  have hassoc : disassociateRequests (qbhAssociation env linkdev macaddr vp vm_uuid op s).2.trace =
      disassociateRequests (qbhStart env linkdev s).trace := by
    unfold qbhAssociation
    rw [doPortProfileOpCommon_disassociateRequests, if_neg (fun h => hcode h.2), Nat.add_zero]
    simp [disassociateRequests, St.log, List.countP_append, isDisassociateRequest]
  have halloc : (qbhAssociation env linkdev macaddr vp vm_uuid op s).2.nAlloc =
      (qbhStart env linkdev s).nAlloc + 1 := by
    unfold qbhAssociation
    rw [(doPortProfileOpCommon_built_and_sent env _ _).1]
    rfl
  refine ⟨?_, ?_, ?_⟩
  · intro ht
    rw [heq, if_pos ht, ht]
    refine ⟨rfl, rfl, rfl, ?_, ?_, ?_⟩
    · rw [requestOp_setLinkMsg]; rfl
    · rw [(doPortProfileOpCommon_built_and_sent env _ _).1, halloc]
    · rw [doPortProfileOpCommon_disassociateRequests, hassoc]
      have hd : (qbhDisassociate env linkdev s).op % 256 = PORT_REQUEST_DISASSOCIATE := rfl
      simp only [hd, and_true]
  · intro ht
    rw [heq, if_neg ht]
    exact ⟨rfl, halloc, hassoc⟩
  · intro fuel ifname opg r hopg hr
    cases hw : getPhysdevAndVlan env fuel ifname 0 "" s with
    | none =>
        unfold doPortProfileOp8021Qbg at hr
        simp [hw] at hr
    | some w =>
        have hwalk : disassociateRequests w.2.trace = disassociateRequests s.trace :=
          (getPhysdevAndVlanLoop_grows_walk env fuel _ _ _ _ _ _ _ hw).countP_eq
            isDisassociateRequest
            (by intro e he; cases e <;> simp_all [emitsWalk, isDisassociateRequest])
        by_cases hret : w.1.ret = 0
        · obtain ⟨code, hcode2, hne⟩ : ∃ code, qbgOp opg = some code ∧
              code % 256 ≠ PORT_REQUEST_DISASSOCIATE := by
            rcases hopg with rfl | rfl
            · exact ⟨_, rfl, by decide⟩
            · exact ⟨_, rfl, by decide⟩
          rw [doPortProfileOp8021Qbg_eq env fuel ifname macaddr vp opg s w code hw hret hcode2]
            at hr
          cases hr
          rw [doPortProfileOpCommon_disassociateRequests, if_neg (fun h => hne h.2),
            Nat.add_zero, hwalk]
        · rw [doPortProfileOp8021Qbg_fails env fuel ifname macaddr vp opg s w hw (Or.inl hret)]
            at hr
          cases hr
          exact hwalk

set_option maxRecDepth 100000 in
/-- Witness of C29: the device eth0 is not a virtual function and every link
dump reports in-progress, so that the 802.1Qbh association times out. -/
theorem doPortProfileOp8021Qbh_timeout_disassociates_witness :
    doPortProfileOp8021Qbh envSelfBusy "eth0" (some sampleMac) qbhProfile (some sampleUuid)
        .ASSOCIATE St.init =
      (-ETIMEDOUT, (doPortProfileOpCommon envSelfBusy (qbhDisassociate envSelfBusy "eth0" St.init)
        (qbhAssociation envSelfBusy "eth0" (some sampleMac) qbhProfile (some sampleUuid)
          .ASSOCIATE St.init).2).2) :=
  ((doPortProfileOp8021Qbh_timeout_disassociates envSelfBusy "eth0" (some sampleMac) qbhProfile
    (some sampleUuid) .ASSOCIATE St.init ⟨by decide, by decide⟩ (by decide) (Or.inl rfl)).1
      (by decide)).1

theorem scanVfPorts_no_instance (vf : Int) (entries : List NestedAttr) :
    ∃ msg, scanVfPorts vf none entries = .error msg := by
  induction entries with
  | nil => exact ⟨_, rfl⟩
  | cons e rest ih =>
      rw [scanVfPorts]
      by_cases hty : e.nla_type ≠ IFLA_VF_PORT
      · rw [if_pos hty]; exact ⟨_, rfl⟩
      · rw [if_neg hty]
        cases e.parsed with
        | none => exact ⟨_, rfl⟩
        | some t =>
            have hm : vfPortMatches vf none t = false := rfl
            simp only [hm, Bool.false_eq_true, if_false]
            exact ih

/-- C30: the disassociate request of doPortProfileOp8021Qbh carries no instance
UUID, and for a VF index other than PORT_SELF_VF getPortProfileStatus without an
instance UUID returns the error 1 on every response.  So for a resolved device
that is a virtual function, when the disassociate request succeeds and the first
link dump succeeds, the function returns 1 right after that one poll, without
a sleep. -/
theorem doPortProfileOp8021Qbh_disassociate_real_vf (env : Env) (linkdev : String)
    (macaddr : Option (List Nat)) (vp : virVirtualPortProfileParams)
    (vm_uuid : Option (List Nat)) (s : St)
    (hres : qbhResolved env linkdev s)
    (hvf : qbhVf env linkdev s ≠ PORT_SELF_VF)
    (hsent : (doPortProfileOpSetLink env (qbhDisassociate env linkdev s)
      (qbhStart env linkdev s)).1 = 0)
    (hdump : (env.ifaceMacvtapLinkDump (qbhStart env linkdev s).nDump true
      (qbhGetIndex env linkdev s).2).1 = 0) :
    (qbhDisassociate env linkdev s).instanceId = none ∧
    (∀ (tb : LinkTb) (k q : Bool),
      getPortProfileStatus tb (qbhVf env linkdev s) none k q = (1, none)) ∧
    doPortProfileOp8021Qbh env linkdev macaddr vp vm_uuid .DISASSOCIATE s =
      (1, (doPortProfileOpSetLink env (qbhDisassociate env linkdev s)
        (qbhStart env linkdev s)).2.polled (qbhDisassociate env linkdev s)) ∧
    polls (doPortProfileOp8021Qbh env linkdev macaddr vp vm_uuid .DISASSOCIATE s).2.trace =
      polls (qbhStart env linkdev s).trace + 1 ∧
    sleeps (doPortProfileOp8021Qbh env linkdev macaddr vp vm_uuid .DISASSOCIATE s).2.trace =
      sleeps (qbhStart env linkdev s).trace := by
  have hstat : ∀ (tb : LinkTb) (k q : Bool),
      getPortProfileStatus tb (qbhVf env linkdev s) none k q = (1, none) := by
    intro tb k q
    unfold getPortProfileStatus locatePort
    have hc : ¬ (qbhVf env linkdev s = PORT_SELF_VF ∧ k = true) := fun h => hvf h.1
    rw [if_neg hc]
    cases tb.IFLA_VF_PORTS with
    | none => rfl
    | some entries =>
        obtain ⟨msg, hmsg⟩ := scanVfPorts_no_instance (qbhVf env linkdev s) entries
        simp only [hmsg]
  have hrun : doPortProfileOp8021Qbh env linkdev macaddr vp vm_uuid .DISASSOCIATE s =
      (1, (doPortProfileOpSetLink env (qbhDisassociate env linkdev s)
        (qbhStart env linkdev s)).2.polled (qbhDisassociate env linkdev s)) := by
    rw [doPortProfileOp8021Qbh_disassociate env linkdev macaddr vp vm_uuid s hres,
      doPortProfileOpCommon_sent env _ _ hsent, pollLoop]
    have hd : ¬ (env.ifaceMacvtapLinkDump
        (doPortProfileOpSetLink env (qbhDisassociate env linkdev s)
          (qbhStart env linkdev s)).2.nDump
        (qbhDisassociate env linkdev s).nltarget_kernel
        (qbhDisassociate env linkdev s).ifindex).1 ≠ 0 := by
      rw [doPortProfileOpSetLink_nDump]
      simpa [qbhDisassociate, qbhDisassociateArgs] using hdump
    have hg : getPortProfileStatus
        (env.ifaceMacvtapLinkDump
          (doPortProfileOpSetLink env (qbhDisassociate env linkdev s)
            (qbhStart env linkdev s)).2.nDump
          (qbhDisassociate env linkdev s).nltarget_kernel
          (qbhDisassociate env linkdev s).ifindex).2
        (qbhDisassociate env linkdev s).vf (qbhDisassociate env linkdev s).instanceId
        (qbhDisassociate env linkdev s).nltarget_kernel
        (qbhDisassociate env linkdev s).profileId.isNone = (1, none) := hstat _ _ _
    simp only [hd, if_false, hg]
    rfl
  refine ⟨rfl, hstat, hrun, ?_, ?_⟩
  · rw [hrun]
    simp only [St.polled, St.log, polls_append]
    rw [doPortProfileOpSetLink_polls]
    rfl
  · rw [hrun]
    simp only [St.polled, St.log, sleeps_append]
    rw [doPortProfileOpSetLink_sleeps]
    rfl

/-- Witness of C30: the link device is the virtual function 0 of eth0 and the
link dump carries an entry for the VF index 0 with the status success. -/
theorem doPortProfileOp8021Qbh_disassociate_real_vf_witness :
    (doPortProfileOp8021Qbh envVf "eth0v0" (some sampleMac) qbhProfile none
        .DISASSOCIATE St.init).1 = 1 ∧
    polls (doPortProfileOp8021Qbh envVf "eth0v0" (some sampleMac) qbhProfile none
        .DISASSOCIATE St.init).2.trace = polls (qbhStart envVf "eth0v0" St.init).trace + 1 :=
  ⟨congrArg Prod.fst (doPortProfileOp8021Qbh_disassociate_real_vf envVf "eth0v0" (some sampleMac)
      qbhProfile none St.init ⟨by decide, by decide⟩ (by decide) (by decide) (by decide)).2.2.1,
    (doPortProfileOp8021Qbh_disassociate_real_vf envVf "eth0v0" (some sampleMac)
      qbhProfile none St.init ⟨by decide, by decide⟩ (by decide) (by decide) (by decide)).2.2.2.1⟩

section Walk

theorem walkVlan_found (env : Env) (names : List String) :
    ∀ v : Int, v ≠ -1 → walkVlan env v names = v := by
  induction names with
  | nil => intro v _; rfl
  | cons n rest ih =>
      intro v hv
      rw [walkVlan, if_neg hv]
      exact ih v hv

theorem walkVlan_eq_specVlan (env : Env) (names : List String)
    (hid : ∀ n ∈ names, ¬ (env.ifaceGetVlanID n).1 < 0 → (env.ifaceGetVlanID n).2 ≠ -1) :
    walkVlan env (-1) names = specVlan (names.map env.ifaceGetVlanID) := by
  induction names with
  | nil => rfl
  | cons n rest ih =>
      have hrest := ih (fun m hm => hid m (List.mem_cons_of_mem _ hm))
      rw [walkVlan, List.map_cons, specVlan]
      by_cases hf : (env.ifaceGetVlanID n).1 < 0
      · simp only [hf, if_true]
        exact hrest
      · simp only [hf, if_false, if_true]
        exact walkVlan_found env rest _ (hid n (List.mem_cons_self _ _) hf)

/-- The loop of getPhysdevAndVlan along a parent chain: with more fuel than the
chain has parents it returns 0 with the last device as root. -/
theorem getPhysdevAndVlanLoop_walk (env : Env) (devs : List NthParent) :
    ∀ (fuel : Nat) (ifindex : Int) (ifname : Option String) (ri : Int) (rn : String)
      (vlanid : Int) (s : St) (last : NthParent),
      devs.length < fuel →
      walkChain env s.nParent ifindex ifname ri rn devs last →
      ∃ s1, getPhysdevAndVlanLoop env fuel ifindex ifname ri rn vlanid s =
          some (⟨0, last.root_ifindex, last.root_ifname,
            walkVlan env vlanid (devs.map (fun d => d.root_ifname))⟩, s1) ∧
        s1.nParent = s.nParent + devs.length + 1 := by
  induction devs with
  | nil =>
      intro fuel ifindex ifname ri rn vlanid s last hf hc
      obtain ⟨f, rfl⟩ : ∃ f, fuel = f + 1 := ⟨fuel - 1, by simp at hf; omega⟩
      obtain ⟨h1, h2, h3⟩ := hc
      rw [getPhysdevAndVlanLoop]
      simp only [h1, h2, h3, ne_eq, not_true_eq_false, if_false, if_true]
      exact ⟨_, rfl, rfl⟩
  | cons d rest ih =>
      intro fuel ifindex ifname ri rn vlanid s last hf hc
      obtain ⟨f, rfl⟩ : ∃ f, fuel = f + 1 := ⟨fuel - 1, by simp at hf; omega⟩
      obtain ⟨h1, h2, h3, h4⟩ := hc
      have hlen : rest.length < f := by simp at hf; omega
      rw [getPhysdevAndVlanLoop]
      simp only [h1, h2, ne_eq, not_true_eq_false, if_false, h3]
      by_cases hv : vlanid = -1
      · rw [if_pos hv]
        obtain ⟨s1, hs1, hn⟩ := ih f d.root_ifindex none d.root_ifindex d.root_ifname
          (if (env.ifaceGetVlanID d.root_ifname).1 < 0 then -1
            else (env.ifaceGetVlanID d.root_ifname).2)
          (({ s.log (.ifaceGetNthParent ifindex ifname) with nParent := s.nParent + 1 } : St).log
            (.ifaceGetVlanID d.root_ifname)) last hlen h4
        refine ⟨s1, ?_, ?_⟩
        · rw [hs1, List.map_cons, walkVlan, if_pos hv]
        · rw [hn]; simp [St.log]; omega
      · rw [if_neg hv]
        obtain ⟨s1, hs1, hn⟩ := ih f d.root_ifindex none d.root_ifindex d.root_ifname vlanid
          ({ s.log (.ifaceGetNthParent ifindex ifname) with nParent := s.nParent + 1 } : St)
          last hlen h4
        refine ⟨s1, ?_, ?_⟩
        · rw [hs1, List.map_cons, walkVlan, if_neg hv]
        · rw [hn]; simp [St.log]; omega

/-- C24: let the parent chain of the interface be finite: the successive parent
lookups, each starting from the device the one before has reached, find the
parents devs and then report no further parent, with the answer last; let no
successful VLAN lookup yield the id -1.  With more fuel than the chain has
parents getPhysdevAndVlan returns 0 after one lookup per parent and the final
one, with the device of the last answer as root and with the VLAN id of the
first parent on the walk whose VLAN lookup succeeds, -1 if none succeeds (so
later parents do not change an id that is found, and failed lookups do not stop
the walk).  And whenever every walk of the environment ends within the fuel,
getPhysdevAndVlan returns. -/
theorem getPhysdevAndVlan_walk (env : Env) (fuel : Nat) (ifname : String) (ri : Int)
    (rn : String) (s : St) (devs : List NthParent) (last : NthParent)
    (hfuel : devs.length < fuel)
    (hchain : walkChain env s.nParent (-1) (some ifname) ri rn devs last)
    (hid : ∀ d ∈ devs, ¬ (env.ifaceGetVlanID d.root_ifname).1 < 0 →
      (env.ifaceGetVlanID d.root_ifname).2 ≠ -1) :
    (∃ s1, getPhysdevAndVlan env fuel ifname ri rn s =
        some (⟨0, last.root_ifindex, last.root_ifname,
          specVlan (devs.map (fun d => env.ifaceGetVlanID d.root_ifname))⟩, s1) ∧
      s1.nParent = s.nParent + devs.length + 1) ∧
    (walkEndsWithin env fuel → ∃ r, getPhysdevAndVlan env fuel ifname ri rn s = some r) := by
  constructor
  · obtain ⟨s1, hs1, hn⟩ := getPhysdevAndVlanLoop_walk env devs fuel (-1) (some ifname) ri rn
      (-1) s last hfuel hchain
    refine ⟨s1, ?_, hn⟩
    unfold getPhysdevAndVlan
    rw [hs1, walkVlan_eq_specVlan env _ (by
      intro n hn
      obtain ⟨d, hd, rfl⟩ := List.mem_map.mp hn
      exact hid d hd), List.map_map]
    rfl
  · intro hw
    obtain ⟨j, hj, hstop⟩ := hw s.nParent
    exact getPhysdevAndVlanLoop_returns env j fuel (-1) (some ifname) ri rn (-1) s hj hstop

/-- Witness of C24: macvtap0 on the VLAN device eth0.100 (id 100) on eth0. -/
theorem getPhysdevAndVlan_walk_witness :
    ∃ s1, getPhysdevAndVlan envVlanChain 3 "macvtap0" 0 "" St.init =
        some (⟨0, 2, "eth0", 100⟩, s1) ∧ s1.nParent = 3 :=
  (getPhysdevAndVlan_walk envVlanChain 3 "macvtap0" 0 "" St.init
    [⟨0, 5, "eth0.100", 1⟩, ⟨0, 2, "eth0", 1⟩] ⟨0, 2, "eth0", 0⟩ (by decide)
    ⟨rfl, rfl, by decide, rfl, rfl, by decide, rfl, rfl, rfl⟩
    (by
      intro d hd
      simp only [List.mem_cons, List.mem_singleton, List.not_mem_nil, or_false] at hd
      rcases hd with rfl | rfl <;> decide)).1

end Walk

theorem emitsPort_not_restore (e : Event) (he : emitsPort e = true) : isRestore e = false := by
  cases e <;> simp_all [emitsPort, emitsCommon, emitsSetLink, isPoll, isSleep, isRestore]

theorem emitsPort_not_linkDel (e : Event) (he : emitsPort e = true) : isLinkDel e = false := by
  cases e <;> simp_all [emitsPort, emitsCommon, emitsSetLink, isPoll, isSleep, isLinkDel]

/-- C26: for an interface name n, when every parent walk ends within the fuel,
delMacvtap returns, and its final state is the state d.2 in which
vpDisassociatePortProfileId, called for n with the given MAC address, link
device and profile and the operation context destroy after the restoration
step, ends, followed by the deletion of n.  Its events are, in this order: the
restoration of the hardware address of the link device if and only if the mode
is passthrough; the entry of vpDisassociatePortProfileId; the events l of that
disassociation, none of which is a restoration, an entry of
vpDisassociatePortProfileId or a deletion; the deletion of n.  The
disassociation does this with the profile: without a profile or with the type
none it does nothing; with an 802.1Qbg profile it is doPortProfileOp8021Qbg with
DISASSOCIATE for n, which negotiates a request with the code
PORT_REQUEST_DISASSOCIATE for the resolved physical device; with an 802.1Qbh
profile it brings the link device down and is doPortProfileOp8021Qbh with
DISASSOCIATE for the link device, which negotiates a request with that code for
the resolved device.  This holds from every state, whatever was associated
before.  Without an interface name only the restoration is done. -/
theorem delMacvtap_steps (env : Env) (fuel : Nat) (n : String) (macaddr : List Nat)
    (linkdev : String) (mode : virMacvtapMode)
    (vp : Option virVirtualPortProfileParams) (s : St) (hw : walkEndsWithin env fuel) :
    (∃ d l, vpDisassociatePortProfileId env fuel n (some macaddr) linkdev vp
          .VIR_VM_OP_DESTROY (s.restored mode linkdev) = some d ∧
      delMacvtap env fuel (some n) macaddr linkdev mode vp s =
        some (d.2.log (.ifaceLinkDel n)) ∧
      d.2.trace = s.trace ++
        (if mode = .VIR_MACVTAP_MODE_PASSTHRU then [.ifaceRestoreMacAddress linkdev] else []) ++
        [.debugDisassociating n .VIR_VM_OP_DESTROY] ++ l ∧
      (d.2.log (.ifaceLinkDel n)).trace = s.trace ++
        (if mode = .VIR_MACVTAP_MODE_PASSTHRU then [.ifaceRestoreMacAddress linkdev] else []) ++
        [.debugDisassociating n .VIR_VM_OP_DESTROY] ++ l ++ [.ifaceLinkDel n] ∧
      (∀ e ∈ l, emitsPort e = true) ∧
      l.countP isRestore = 0 ∧ disassociateCalls l = 0 ∧ l.countP isLinkDel = 0 ∧
      ((vp = none ∨ ∃ p, vp = some p ∧ (p.virtPortType = .VIR_VIRTUALPORT_NONE ∨
          p.virtPortType = .VIR_VIRTUALPORT_TYPE_LAST)) →
        d = (0, (s.restored mode linkdev).log (.debugDisassociating n .VIR_VM_OP_DESTROY)) ∧
        l = []) ∧
      (∀ p, vp = some p → p.virtPortType = .VIR_VIRTUALPORT_8021QBG →
        doPortProfileOp8021Qbg env fuel n (some macaddr) p .DISASSOCIATE
          ((s.restored mode linkdev).log (.debugDisassociating n .VIR_VM_OP_DESTROY)) =
            some d) ∧
      (∀ p, vp = some p → p.virtPortType = .VIR_VIRTUALPORT_8021QBH →
        doPortProfileOp8021Qbh env linkdev (some macaddr) p none .DISASSOCIATE
          (((s.restored mode linkdev).log (.debugDisassociating n .VIR_VM_OP_DESTROY)).log
            (.ifaceDown linkdev)) = d)) ∧
    (∀ (p : virVirtualPortProfileParams) (s1 : St) (w : PhysdevVlan × St),
      getPhysdevAndVlan env fuel n 0 "" s1 = some w → w.1.ret = 0 →
      doPortProfileOp8021Qbg env fuel n (some macaddr) p .DISASSOCIATE s1 =
        some (doPortProfileOpCommon env
          (qbgArgs w.1 (some macaddr) p PORT_REQUEST_DISASSOCIATE) w.2) ∧
      requestOp (setLinkMsg (qbgArgs w.1 (some macaddr) p PORT_REQUEST_DISASSOCIATE)).attrs =
        some PORT_REQUEST_DISASSOCIATE) ∧
    (∀ (p : virVirtualPortProfileParams) (s1 : St), qbhResolved env linkdev s1 →
      doPortProfileOp8021Qbh env linkdev (some macaddr) p none .DISASSOCIATE s1 =
        doPortProfileOpCommon env (qbhDisassociate env linkdev s1) (qbhStart env linkdev s1) ∧
      requestOp (setLinkMsg (qbhDisassociate env linkdev s1)).attrs =
        some PORT_REQUEST_DISASSOCIATE) ∧
    delMacvtap env fuel none macaddr linkdev mode vp s = some (s.restored mode linkdev) := by
  refine ⟨?_, ?_, ?_, rfl⟩
  · obtain ⟨d, hd⟩ := vpDisassociatePortProfileId_returns env fuel n (some macaddr) linkdev vp
      .VIR_VM_OP_DESTROY (s.restored mode linkdev) hw
    obtain ⟨l, hl, hP⟩ := vpDisassociatePortProfileId_grows env fuel n (some macaddr) linkdev vp
      .VIR_VM_OP_DESTROY (s.restored mode linkdev) d hd
    have hzero : ∀ q : Event → Bool, (∀ e, emitsPort e = true → q e = false) →
        l.countP q = 0 := by
      intro q hq
      rw [List.countP_eq_zero]
      intro e he
      simp [hq e (hP e he)]
    have hres : (s.restored mode linkdev).trace = s.trace ++
        (if mode = .VIR_MACVTAP_MODE_PASSTHRU then [.ifaceRestoreMacAddress linkdev]
          else []) := by
      unfold St.restored
      by_cases hm : mode = .VIR_MACVTAP_MODE_PASSTHRU
      · rw [if_pos hm, if_pos hm]; rfl
      · rw [if_neg hm, if_neg hm, List.append_nil]
    have htr : d.2.trace = s.trace ++
        (if mode = .VIR_MACVTAP_MODE_PASSTHRU then [.ifaceRestoreMacAddress linkdev] else []) ++
        [.debugDisassociating n .VIR_VM_OP_DESTROY] ++ l := by
      rw [hl, hres]
    refine ⟨d, l, hd, ?_, htr, ?_, hP, hzero isRestore emitsPort_not_restore,
      hzero isDisassociateCall emitsPort_not_call, hzero isLinkDel emitsPort_not_linkDel,
      ?_, ?_, ?_⟩
    · have hd2 : vpDisassociatePortProfileId env fuel n (some macaddr) linkdev vp
          .VIR_VM_OP_DESTROY
          (if mode = .VIR_MACVTAP_MODE_PASSTHRU then s.log (.ifaceRestoreMacAddress linkdev)
            else s) = some d := hd
      unfold delMacvtap
      simp only [hd2]
    · show d.2.trace ++ [Event.ifaceLinkDel n] = _
      rw [htr]
    · intro hnone
      have hd0 : d = (0, (s.restored mode linkdev).log
          (.debugDisassociating n .VIR_VM_OP_DESTROY)) := by
        rcases hnone with rfl | ⟨p, rfl, hty | hty⟩
        · unfold vpDisassociatePortProfileId at hd
          simpa using hd.symm
        · unfold vpDisassociatePortProfileId at hd
          simp only [hty] at hd
          simpa using hd.symm
        · unfold vpDisassociatePortProfileId at hd
          simp only [hty] at hd
          simpa using hd.symm
      refine ⟨hd0, ?_⟩
      rw [hd0] at hl
      have : (s.restored mode linkdev).trace ++ [Event.debugDisassociating n .VIR_VM_OP_DESTROY]
          = ((s.restored mode linkdev).trace ++
            [Event.debugDisassociating n .VIR_VM_OP_DESTROY]) ++ l := hl
      simpa using this
    · intro p hp hty
      subst hp
      unfold vpDisassociatePortProfileId at hd
      simp only [hty] at hd
      exact hd
    · intro p hp hty
      subst hp
      unfold vpDisassociatePortProfileId at hd
      simp only [hty] at hd
      have hne : ¬ (virVMOperationType.VIR_VM_OP_DESTROY = .VIR_VM_OP_MIGRATE_IN_FINISH) := by
        decide
      rw [if_neg hne] at hd
      exact Option.some.inj hd
  · intro p s1 w hw1 hret
    exact ⟨doPortProfileOp8021Qbg_eq env fuel n (some macaddr) p .DISASSOCIATE s1 w _ hw1 hret rfl,
      by rw [requestOp_setLinkMsg]; rfl⟩
  · intro p s1 hres
    exact ⟨doPortProfileOp8021Qbh_disassociate env linkdev (some macaddr) p none s1 hres,
      by rw [requestOp_setLinkMsg]; rfl⟩

/-- Witness of C26: the interface macvtap0 in passthrough mode with the sample
802.1Qbg profile: the final state is that of the 802.1Qbg disassociation,
followed by the deletion. -/
theorem delMacvtap_steps_witness :
    ∃ d l, vpDisassociatePortProfileId envOk 1 "macvtap0" (some sampleMac) "eth0"
          (some qbgProfile) .VIR_VM_OP_DESTROY
          (St.init.restored .VIR_MACVTAP_MODE_PASSTHRU "eth0") = some d ∧
      delMacvtap envOk 1 (some "macvtap0") sampleMac "eth0" .VIR_MACVTAP_MODE_PASSTHRU
        (some qbgProfile) St.init = some (d.2.log (.ifaceLinkDel "macvtap0")) ∧
      d.2.trace = St.init.trace ++
        (if virMacvtapMode.VIR_MACVTAP_MODE_PASSTHRU = .VIR_MACVTAP_MODE_PASSTHRU then
          [.ifaceRestoreMacAddress "eth0"] else []) ++
        [.debugDisassociating "macvtap0" .VIR_VM_OP_DESTROY] ++ l ∧
      doPortProfileOp8021Qbg envOk 1 "macvtap0" (some sampleMac) qbgProfile .DISASSOCIATE
          ((St.init.restored .VIR_MACVTAP_MODE_PASSTHRU "eth0").log
            (.debugDisassociating "macvtap0" .VIR_VM_OP_DESTROY)) = some d :=
  let ⟨d, l, h1, h2, h3, _, _, _, _, _, _, h4, _⟩ :=
    (delMacvtap_steps envOk 1 "macvtap0" sampleMac "eth0" .VIR_MACVTAP_MODE_PASSTHRU
      (some qbgProfile) St.init (fun _ => ⟨0, by decide, fun _ _ _ _ => Or.inr rfl⟩)).1
  ⟨d, l, h1, h2, h3, h4 qbgProfile rfl rfl⟩

/-- C27: when doPortProfileOp8021Qbg has resolved the physical device and
supports the operation, it runs one negotiation whose port block carries
exactly one VSI descriptor, the one filled from the profile: its type-id is
three bytes b0, b1, b2 with b0 + 256 b1 + 65536 b2 = typeID mod 2^24, which is
typeID when typeID is below 2^24; profiles with different type-ids below 2^24
get different byte triples; manager id and type-id version are those of the
profile. -/
theorem doPortProfileOp8021Qbg_vsi_type_id (env : Env) (fuel : Nat) (ifname : String)
    (macaddr : Option (List Nat)) (vp : virVirtualPortProfileParams)
    (op : virVirtualPortOp) (s : St) (w : PhysdevVlan × St) (code : Nat)
    (hw : getPhysdevAndVlan env fuel ifname 0 "" s = some w) (hret : w.1.ret = 0)
    (hop : qbgOp op = some code) :
    doPortProfileOp8021Qbg env fuel ifname macaddr vp op s =
      some (doPortProfileOpCommon env (qbgArgs w.1 macaddr vp code) w.2) ∧
    (∀ v, PortAttr.IFLA_PORT_VSI_TYPE v ∈ portBlock (qbgArgs w.1 macaddr vp code) ↔
      v = qbgPortVsi vp) ∧
    (∃ b0 b1 b2, (qbgPortVsi vp).vsi_type_id = [b0, b1, b2] ∧
      b0 < 256 ∧ b1 < 256 ∧ b2 < 256 ∧
      b0 + 256 * b1 + 65536 * b2 = vp.typeID % 2 ^ 24 ∧
      (vp.typeID < 2 ^ 24 → b0 + 256 * b1 + 65536 * b2 = vp.typeID)) ∧
    (∀ vq : virVirtualPortProfileParams, vp.typeID < 2 ^ 24 → vq.typeID < 2 ^ 24 →
      (qbgPortVsi vp).vsi_type_id = (qbgPortVsi vq).vsi_type_id → vp.typeID = vq.typeID) ∧
    (qbgPortVsi vp).vsi_mgr_id = vp.managerID ∧
    (qbgPortVsi vp).vsi_type_version = vp.typeIDVersion := by
  refine ⟨doPortProfileOp8021Qbg_eq env fuel ifname macaddr vp op s w code hw hret hop,
    ?_, ?_, ?_, rfl, rfl⟩
  · intro v
    unfold portBlock qbgArgs
    cases macaddr <;> simp [PORT_SELF_VF, eq_comm]
  · refine ⟨vp.typeID % 256, (vp.typeID >>> 8) % 256, (vp.typeID >>> 16) % 256, rfl,
      Nat.mod_lt _ (by decide), Nat.mod_lt _ (by decide), Nat.mod_lt _ (by decide), ?_, ?_⟩
    · simp only [Nat.shiftRight_eq_div_pow]
      norm_num
      omega
    · intro hlt
      simp only [Nat.shiftRight_eq_div_pow]
      norm_num at hlt ⊢
      omega
  · intro vq hp hq heq
    simp only [qbgPortVsi, List.cons.injEq, and_true, Nat.shiftRight_eq_div_pow] at heq
    obtain ⟨h0, h1, h2⟩ := heq
    norm_num at hp hq h0 h1 h2
    omega

/-- Witness of C27: the sample 802.1Qbg profile with the type-id 5 on macvtap0,
whose parent walk ends at once. -/
theorem doPortProfileOp8021Qbg_vsi_type_id_witness :
    doPortProfileOp8021Qbg envOk 1 "macvtap0" (some sampleMac) qbgProfile .ASSOCIATE St.init =
      some (doPortProfileOpCommon envOk
        (qbgArgs ⟨0, 2, "eth0", -1⟩ (some sampleMac) qbgProfile PORT_REQUEST_ASSOCIATE)
        { St.init with trace := [.ifaceGetNthParent (-1) (some "macvtap0")], nParent := 1 }) :=
  (doPortProfileOp8021Qbg_vsi_type_id envOk 1 "macvtap0" (some sampleMac) qbgProfile .ASSOCIATE
    St.init (⟨0, 2, "eth0", -1⟩,
      { St.init with trace := [.ifaceGetNthParent (-1) (some "macvtap0")], nParent := 1 })
    PORT_REQUEST_ASSOCIATE (by decide) rfl rfl).1

section OpenTap

theorem openTap_resolved (env : Env) (ifname : String) (r : Nat) (s : St) (ifindex : Int)
    (hlen : ¬ 64 ≤ 23 + ifname.utf8ByteSize)
    (hidx : env.readIfindex ifname = some (some ifindex)) :
    openTap env ifname (r : Int) s = openTapLoop env ifindex r (s.log (.readIfindex ifname)) := by
  unfold openTap
  rw [if_neg hlen]
  simp only [hidx, Int.toNat_ofNat]

/-- The attempt after k failed ones succeeds: the loop returns its descriptor. -/
theorem openTapLoop_first_success (env : Env) (ifindex : Int) (k r : Nat) (s : St)
    (hk : k ≤ r) (hfail : ∀ i, i < k → env.openTapDev (s.nOpen + i) ifindex < 0)
    (hok : ¬ env.openTapDev (s.nOpen + k) ifindex < 0) :
    openTapLoop env ifindex r s =
      (env.openTapDev (s.nOpen + k) ifindex, (s.tapRetried ifindex k).tapOpened ifindex) := by
  rw [openTapLoop_retries env ifindex k r s hk hfail]
  have hn : (s.tapRetried ifindex k).nOpen = s.nOpen + k := rfl
  generalize r - k = m
  cases m with
  | zero => rw [openTapLoop_last, hn]
  | succ m =>
      rw [openTapLoop]
      simp only [hn, hok, if_false]
      rfl

/-- All attempts fail: the loop returns the value of the last one. -/
theorem openTapLoop_all_fail (env : Env) (ifindex : Int) (r : Nat) (s : St)
    (hfail : ∀ i, i < r + 1 → env.openTapDev (s.nOpen + i) ifindex < 0) :
    openTapLoop env ifindex r s =
      (env.openTapDev (s.nOpen + r) ifindex, (s.tapRetried ifindex r).tapOpened ifindex) := by
  rw [openTapLoop_retries env ifindex r r s (Nat.le_refl r) (fun i hi => hfail i (by omega)),
    Nat.sub_self, openTapLoop_last]
  rfl

/-- Either all attempts fail or there is a first one that succeeds. -/
theorem openTapDev_first_success (env : Env) (ifindex : Int) (n r : Nat) :
    (∀ i, i < r + 1 → env.openTapDev (n + i) ifindex < 0) ∨
    ∃ k, k ≤ r ∧ (∀ i, i < k → env.openTapDev (n + i) ifindex < 0) ∧
      ¬ env.openTapDev (n + k) ifindex < 0 := by
  induction r with
  | zero =>
      by_cases h : env.openTapDev (n + 0) ifindex < 0
      · left; intro i hi
        obtain rfl : i = 0 := by omega
        exact h
      · right; exact ⟨0, Nat.le_refl 0, fun i hi => absurd hi (by omega), h⟩
  | succ r ih =>
      rcases ih with h | ⟨k, hk, hf, hs⟩
      · by_cases hl : env.openTapDev (n + (r + 1)) ifindex < 0
        · left; intro i hi
          by_cases hir : i < r + 1
          · exact h i hir
          · obtain rfl : i = r + 1 := by omega
            exact hl
        · right; exact ⟨r + 1, Nat.le_refl _, h, hl⟩
      · right; exact ⟨k, by omega, hf, hs⟩

/-- C28, counterexample: the sysfs file with the index of macvtap0 cannot be
opened, while the first attempt to open the tap device would succeed.  openTap
with the retry count 10 returns -1 without any attempt to open the tap device
and without a sleep, so its negative result does not come from 11 failed
attempts. -/
theorem openTap_negative_without_attempt :
    (openTap envNoIndex "macvtap0" 10 St.init).1 = -1 ∧
    (openTap envNoIndex "macvtap0" 10 St.init).1 < 0 ∧
    (openTap envNoIndex "macvtap0" 10 St.init).2.trace = [.readIfindex "macvtap0"] ∧
    (openTap envNoIndex "macvtap0" 10 St.init).2.trace.countP isTapOpen = 0 ∧
    ¬ envNoIndex.openTapDev St.init.nOpen 7 < 0 ∧
    ¬ (∀ i, i < 10 + 1 → envNoIndex.openTapDev (St.init.nOpen + i) 7 < 0) := by
  refine ⟨by decide, by decide, by decide, by decide, by decide, ?_⟩
  intro h
  exact absurd (h 0 (by decide)) (by decide)

/-- C28, amended: openTap with the retry count r first resolves the index of
the interface.  (0) When the path does not fit its buffer, the sysfs file cannot
be opened or holds no integer, it returns -1 without any attempt to open the
tap device and without a sleep.  Otherwise, with the index read, it (1) returns
the descriptor of the first attempt that succeeds, after k failed attempts with
k at most r, each followed by one sleep of 20000 microseconds; (2) returns the
value of the last attempt when all r+1 attempts fail; (3) returns a negative
value if and only if all r+1 attempts fail; (4) in every case its events after
the reading of the index are k attempts each followed by a sleep and then one
more attempt, for a k of at most r, which makes at most r+1 attempts and one
sleep before each retry.  (5) openMacvtapTap calls openTap with the retry count
10 and goes to disassociate_exit with its value when that is negative. -/
theorem openTap_resolve_then_retry (env : Env) (ifname : String) (r : Nat) (s : St) :
    ((64 ≤ 23 + ifname.utf8ByteSize ∨ env.readIfindex ifname = none ∨
        env.readIfindex ifname = some none) →
      (openTap env ifname (r : Int) s).1 = -1 ∧
      (openTap env ifname (r : Int) s).2.trace.countP isTapOpen = s.trace.countP isTapOpen ∧
      (openTap env ifname (r : Int) s).2.trace.countP isSleep = s.trace.countP isSleep) ∧
    (∀ ifindex : Int, ¬ 64 ≤ 23 + ifname.utf8ByteSize →
      env.readIfindex ifname = some (some ifindex) →
      (∀ k, k ≤ r → (∀ i, i < k → env.openTapDev (s.nOpen + i) ifindex < 0) →
        ¬ env.openTapDev (s.nOpen + k) ifindex < 0 →
        openTap env ifname (r : Int) s =
          (env.openTapDev (s.nOpen + k) ifindex,
            ((s.log (.readIfindex ifname)).tapRetried ifindex k).tapOpened ifindex)) ∧
      ((∀ i, i < r + 1 → env.openTapDev (s.nOpen + i) ifindex < 0) →
        openTap env ifname (r : Int) s =
          (env.openTapDev (s.nOpen + r) ifindex,
            ((s.log (.readIfindex ifname)).tapRetried ifindex r).tapOpened ifindex)) ∧
      ((openTap env ifname (r : Int) s).1 < 0 ↔
        ∀ i, i < r + 1 → env.openTapDev (s.nOpen + i) ifindex < 0) ∧
      (∃ k, k ≤ r ∧ (openTap env ifname (r : Int) s).2.trace =
        s.trace ++ [.readIfindex ifname] ++ tapRetries ifindex k ++ [.openTapDev ifindex] ∧
        (openTap env ifname (r : Int) s).2.trace.countP isTapOpen =
          s.trace.countP isTapOpen + (k + 1) ∧
        (openTap env ifname (r : Int) s).2.trace.countP isSleep =
          s.trace.countP isSleep + k)) ∧
    (∀ (cr : String) (vnet_hdr : Int) (s0 : St), ¬ env.ifaceUp cr < 0 →
      (openTap env cr 10 (s0.log (.ifaceUp cr))).1 < 0 →
      stepsAfterAssociation env cr vnet_hdr s0 =
        .disassociate_exit (openTap env cr 10 (s0.log (.ifaceUp cr))).1 none
          (openTap env cr 10 (s0.log (.ifaceUp cr))).2) := by
  refine ⟨?_, ?_, ?_⟩
  · intro h
    unfold openTap
    by_cases hlen : 64 ≤ 23 + ifname.utf8ByteSize
    · rw [if_pos hlen]
      exact ⟨rfl, rfl, rfl⟩
    · rw [if_neg hlen]
      rcases h with h | h | h
      · exact absurd h hlen
      · simp only [h]
        simp [St.log, List.countP_append, List.countP_cons, isTapOpen, isSleep]
      · simp only [h]
        simp [St.log, List.countP_append, List.countP_cons, isTapOpen, isSleep]
  · intro ifindex hlen hidx
    have hres := openTap_resolved env ifname r s ifindex hlen hidx
    have hn : (s.log (.readIfindex ifname)).nOpen = s.nOpen := rfl
    have h1 : ∀ k, k ≤ r → (∀ i, i < k → env.openTapDev (s.nOpen + i) ifindex < 0) →
        ¬ env.openTapDev (s.nOpen + k) ifindex < 0 →
        openTap env ifname (r : Int) s =
          (env.openTapDev (s.nOpen + k) ifindex,
            ((s.log (.readIfindex ifname)).tapRetried ifindex k).tapOpened ifindex) := by
      intro k hk hf hs
      rw [hres, openTapLoop_first_success env ifindex k r _ hk (by rw [hn]; exact hf)
        (by rw [hn]; exact hs), hn]
    have h2 : (∀ i, i < r + 1 → env.openTapDev (s.nOpen + i) ifindex < 0) →
        openTap env ifname (r : Int) s =
          (env.openTapDev (s.nOpen + r) ifindex,
            ((s.log (.readIfindex ifname)).tapRetried ifindex r).tapOpened ifindex) := by
      intro hf
      rw [hres, openTapLoop_all_fail env ifindex r _ (by rw [hn]; exact hf), hn]
    have htrace : ∀ k, (((s.log (.readIfindex ifname)).tapRetried ifindex k).tapOpened
        ifindex).trace =
        s.trace ++ [.readIfindex ifname] ++ tapRetries ifindex k ++ [.openTapDev ifindex] :=
      fun _ => rfl
    have hcount : ∀ k, (s.trace ++ [Event.readIfindex ifname] ++ tapRetries ifindex k ++
          [Event.openTapDev ifindex]).countP isTapOpen = s.trace.countP isTapOpen + (k + 1) ∧
        (s.trace ++ [Event.readIfindex ifname] ++ tapRetries ifindex k ++
          [Event.openTapDev ifindex]).countP isSleep = s.trace.countP isSleep + k := by
      intro k
      simp only [List.countP_append, (tapRetries_counts ifindex k).1,
        (tapRetries_counts ifindex k).2]
      constructor
      · simp [List.countP_cons, isTapOpen]; omega
      · simp [List.countP_cons, isSleep]
    refine ⟨h1, h2, ?_, ?_⟩
    · constructor
      · intro hneg
        rcases openTapDev_first_success env ifindex s.nOpen r with h | ⟨k, hk, hf, hs⟩
        · exact h
        · rw [h1 k hk hf hs] at hneg
          exact absurd hneg hs
      · intro hf
        rw [h2 hf]
        exact hf r (by omega)
    · rcases openTapDev_first_success env ifindex s.nOpen r with h | ⟨k, hk, hf, hs⟩
      · refine ⟨r, Nat.le_refl r, ?_, ?_, ?_⟩
        · rw [h2 h]; exact htrace r
        · rw [h2 h, htrace r]; exact (hcount r).1
        · rw [h2 h, htrace r]; exact (hcount r).2
      · refine ⟨k, hk, ?_, ?_, ?_⟩
        · rw [h1 k hk hf hs]; exact htrace k
        · rw [h1 k hk hf hs, htrace k]; exact (hcount k).1
        · rw [h1 k hk hf hs, htrace k]; exact (hcount k).2
  · intro cr vnet_hdr s0 hup hneg
    have hnn : ¬ 0 ≤ (openTap env cr 10 (s0.log (.ifaceUp cr))).1 := by omega
    unfold stepsAfterAssociation
    simp only [hup, if_false, hnn]

/-- Witness of the amended C28: with the retry count 10, the first ten attempts
fail and the eleventh succeeds; and without a readable index no attempt is
made. -/
theorem openTap_resolve_then_retry_witness :
    openTap envOpenTenFail "macvtap0" ((10 : Nat) : Int) St.init =
        (envOpenTenFail.openTapDev (St.init.nOpen + 10) 7,
          ((St.init.log (.readIfindex "macvtap0")).tapRetried 7 10).tapOpened 7) ∧
    (openTap envNoIndex "macvtap0" ((10 : Nat) : Int) St.init).1 = -1 :=
  ⟨((openTap_resolve_then_retry envOpenTenFail "macvtap0" 10 St.init).2.1 7 (by decide)
      rfl).1 10 (Nat.le_refl 10) (fun i hi => by
        have : (St.init.nOpen + i) < 10 := by simp [St.init]; exact hi
        simp [envOpenTenFail, this]) (by decide),
    ((openTap_resolve_then_retry envNoIndex "macvtap0" 10 St.init).1 (Or.inr (Or.inl rfl))).1⟩

end OpenTap

end Macvtap
